import Mathlib

/-!
Verification model of the interactive environment-setup script of the
lonestone boilerplate repository (the `rock` script).

The script manipulates `KEY=VALUE` environment files.  We embed its pure
core faithfully over `List Char`:

* `parseEnvFile` mirrors the line-oriented parser (trim, skip blanks and
  comment lines, split on the first equals sign, JS regex
  anchored-key-value match without the multiline flag).
* `getMissingVariables` mirrors the template differ.
* `updateEnvFileContent` mirrors the merged write-back, including the
  semantics of the JavaScript `String.replace` call with the dynamically
  built multiline regex (anchors treat carriage return and the Unicode
  line separators as line boundaries, the dot excludes them, dollar
  patterns in the replacement string are expanded).
* `detectAvailableApps`, `waitForDatabase`, the prompt phases, the copy
  phase, the derived trusted-origins computation and the docker/migration
  tail of `main` are embedded as pure functions over an explicit
  workspace state, with user answers supplied by oracles keyed on the
  prompt message.

Numbers are modelled as `Option Int` (`none` standing for the JavaScript
`NaN` produced by `Number.parseInt`); string values never need float
semantics.  All definitions are executable.
-/

/-- Character list; the model works over the underlying characters of
JavaScript strings. -/
abbrev Chars := List Char

/-- JavaScript white space as recognised by `String.prototype.trim`
(WhiteSpace plus LineTerminator). -/
def jsSpace (c : Char) : Bool :=
  c = ' ' ∨ c = '\t' ∨ c = '\n' ∨ c = '\r' ∨ c.val = 11 ∨ c.val = 12 ∨
  c.val = 0xa0 ∨ c.val = 0xfeff ∨ c.val = 0x1680 ∨
  (0x2000 ≤ c.val ∧ c.val ≤ 0x200a) ∨ c.val = 0x2028 ∨ c.val = 0x2029 ∨
  c.val = 0x202f ∨ c.val = 0x205f ∨ c.val = 0x3000

/-- `s.trim()` of JavaScript. -/
def jsTrim (s : Chars) : Chars :=
  ((s.dropWhile jsSpace).reverse.dropWhile jsSpace).reverse

/-- JavaScript regex line terminators: LF, CR, LS, PS.  The `m` flag
makes `^` and `$` match around these, and `.` never matches them. -/
def isLineTerm (c : Char) : Bool :=
  c = '\n' ∨ c = '\r' ∨ c.val = 0x2028 ∨ c.val = 0x2029

/-- Split on the newline character, mirroring `content.split('\n')`. -/
def splitNL : Chars → List Chars
  | [] => [[]]
  | c :: cs =>
    if c = '\n' then [] :: splitNL cs
    else
      match splitNL cs with
      | [] => [[c]]
      | l :: ls => (c :: l) :: ls

/-- Join lines back with newline characters (inverse of `splitNL`). -/
def joinNL : List Chars → Chars
  | [] => []
  | [l] => l
  | l :: ls => l ++ '\n' :: joinNL ls

/-- A JavaScript number as produced by `Number.parseInt`: an integer or
`NaN`. -/
abbrev JsNum := Option Int

/-- Decimal digits helper for `jsParseInt`. -/
def digitsVal : Chars → Nat → Nat
  | [], acc => acc
  | c :: cs, acc => digitsVal cs (acc * 10 + (c.toNat - '0'.toNat))

/-- `Number.parseInt(s, 10)`: skip leading white space, read an optional
sign, then the longest run of decimal digits; `NaN` when there is no
digit. -/
def jsParseInt (s : Chars) : JsNum :=
  let t := s.dropWhile jsSpace
  let (sign, rest) :=
    match t with
    | '-' :: r => (true, r)
    | '+' :: r => (false, r)
    | r => (false, r)
  let digits := rest.takeWhile (fun c => c.isDigit)
  if digits = [] then none
  else
    let n : Int := Int.ofNat (digitsVal digits 0)
    some (if sign then -n else n)

/-- Rendering of a `JsNum` by a JavaScript template literal or
`toString()`: decimal digits, `-` sign, `NaN` for `NaN`. -/
def jsNumToString (n : JsNum) : Chars :=
  match n with
  | none => "NaN".data
  | some i => (toString i).data

/-- Insertion-ordered association list standing for a JavaScript plain
object with string values: assignment keeps the position of an existing
key and appends a fresh one. -/
def envInsert : List (Chars × Chars) → Chars → Chars → List (Chars × Chars)
  | [], k, v => [(k, v)]
  | (k', v') :: rest, k, v =>
    if k' = k then (k', v) :: rest else (k', v') :: envInsert rest k v

/-- Lookup in the association list (`obj[key]`, `key in obj`). -/
def envLookup : List (Chars × Chars) → Chars → Option Chars
  | [], _ => none
  | (k', v') :: rest, k => if k' = k then some v' else envLookup rest k

/-- Keys in insertion order (`Object.keys`). -/
def envKeys (m : List (Chars × Chars)) : List Chars := m.map (·.1)

/-- One line of an env file, as treated by `parseEnvFile`: trim, skip
empty lines and lines starting with the comment marker, then match the
anchored regex splitting on the first equals sign; the value part of the
pattern cannot cross a line terminator and must reach the end of the
trimmed line. -/
def parseLine (line : Chars) : Option (Chars × Chars) :=
  let t := jsTrim line
  if t = [] then none
  else if t.head? = some '#' then none
  else
    let pre := t.takeWhile (fun c => c ≠ '=')
    if pre = [] then none
    else if pre.length = t.length then none
    else
      let post := t.drop (pre.length + 1)
      if post.all (fun c => !(isLineTerm c)) then some (jsTrim pre, jsTrim post)
      else none

/-- `parseEnvFile` on the contents of an existing file: fold the parsed
lines into the object, later lines overwriting earlier values. -/
def parseEnvContent (content : Chars) : List (Chars × Chars) :=
  (splitNL content).foldl
    (fun m l => match parseLine l with
      | some (k, v) => envInsert m k v
      | none => m) []

/-- `parseEnvFile(path)`: the empty object when the file does not exist
(`none`), the parsed contents otherwise. -/
def parseEnvFile : Option Chars → List (Chars × Chars)
  | none => []
  | some c => parseEnvContent c

/-- Scanner for the dynamically built multiline regex matching a whole
`KEY=...` line: at every position that is the string start or follows a
line terminator, try the literal `key=`; on success the match greedily
extends over non-terminator characters and the end-of-line anchor always
succeeds there.  Returns the text before the match, the matched text and
the text after, like the decomposition used by `String.replace`.  The
accumulator carries the already scanned text reversed; the flag records
whether the current position is a line start. -/
def findMatchAux (key : Chars) (acc : Chars) (atStart : Bool) :
    Chars → Option (Chars × Chars × Chars)
  | [] => none
  | c :: cs =>
    if atStart && (key ++ ['=']).isPrefixOf (c :: cs) then
      some (acc.reverse,
            key ++ '=' ::
              ((c :: cs).drop (key.length + 1)).takeWhile (fun d => !(isLineTerm d)),
            ((c :: cs).drop (key.length + 1)).dropWhile (fun d => !(isLineTerm d)))
    else findMatchAux key (c :: acc) (isLineTerm c) cs

/-- First match of the regex built from `key` in `content`. -/
def findMatch (key content : Chars) : Option (Chars × Chars × Chars) :=
  findMatchAux key [] true content

/-- Expansion of dollar patterns in a `String.replace` replacement
string.  The regex has no capture groups, so `$1` … stay literal; `$$`,
the matched text, the preceding text and the following text are
substituted. -/
def expandRepl : Chars → Chars → Chars → Chars → Chars
  | [], _, _, _ => []
  | [c], _, _, _ => [c]
  | c :: d :: r, matched, before, after =>
    if c = '$' then
      if d = '$' then '$' :: expandRepl r matched before after
      else if d = '&' then matched ++ expandRepl r matched before after
      else if d = Char.ofNat 96 then before ++ expandRepl r matched before after
      else if d = '\'' then after ++ expandRepl r matched before after
      else '$' :: expandRepl (d :: r) matched before after
    else c :: expandRepl (d :: r) matched before after

/-- One iteration of the update loop of `updateEnvFile` acting on the
file contents: skip when `onlyMissing` and the key already holds a
non-empty value in the initially parsed map, otherwise replace the first
matching line in place or append a fresh `KEY=VALUE` line; either edit
raises the `updated` flag. -/
def updateOne (existingVars : List (Chars × Chars)) (onlyMissing : Bool)
    (st : Chars × Bool) (kv : Chars × Chars) : Chars × Bool :=
  if onlyMissing &&
      (match envLookup existingVars kv.1 with
       | some v => !(v.isEmpty)
       | none => false) then st
  else
    match findMatch kv.1 st.1 with
    | some (b, m, a) =>
      (b ++ expandRepl (kv.1 ++ '=' :: kv.2) m b a ++ a, true)
    | none => (st.1 ++ '\n' :: (kv.1 ++ '=' :: kv.2), true)

/-- Contents transformation of `updateEnvFile` on an existing file,
together with the `updated` flag deciding whether `writeFileSync` runs.
The map of existing variables is parsed once, before the loop. -/
def updateEnvFileContent (content : Chars)
    (replacements : List (Chars × Chars)) (onlyMissing : Bool) :
    Chars × Bool :=
  let existingVars := parseEnvContent content
  replacements.foldl (updateOne existingVars onlyMissing) (content, false)

/-- `updateEnvFile` at the file level: a missing file is left missing
(the function only logs and returns), an existing file is rewritten
exactly when the `updated` flag is set. -/
def updateEnvFile (file : Option Chars)
    (replacements : List (Chars × Chars)) (onlyMissing : Bool) :
    Option Chars × Bool :=
  match file with
  | none => (none, false)
  | some c =>
    let r := updateEnvFileContent c replacements onlyMissing
    (some (if r.2 then r.1 else c), r.2)

/-- Line-level rendering of one replace step: substitute the first line
that starts with `key=`.  Used to reason about `updateOne`; the bridge
to `findMatch` is proved below for carriage-return-free contents. -/
def replFirst (key value : Chars) : List Chars → List Chars
  | [] => []
  | l :: ls =>
    if (key ++ ['=']).isPrefixOf l then (key ++ '=' :: value) :: ls
    else l :: replFirst key value ls

/-- Line-level rendering of one update step: replace the first matching
line or append a fresh one. -/
def lineUpdate (key value : Chars) (ls : List Chars) : List Chars :=
  if ls.any (fun l => (key ++ ['=']).isPrefixOf l) then replFirst key value ls
  else ls ++ [key ++ '=' :: value]

/-- Line-level rendering of the whole update loop. -/
def lineFold (replacements : List (Chars × Chars)) (ls : List Chars) :
    List Chars :=
  replacements.foldl (fun ls kv => lineUpdate kv.1 kv.2 ls) ls

/-- `getMissingVariables(examplePath, envPath)`: template keys whose
target value is absent or empty, in template key order. -/
def getMissingVariables (tmpl target : Option Chars) : List Chars :=
  let exampleVars := parseEnvFile tmpl
  let envVars := parseEnvFile target
  (envKeys exampleVars).filter (fun k =>
    match envLookup envVars k with
    | none => true
    | some v => v = [])

/-- Truthiness of a JavaScript number: `0` and `NaN` are falsy. -/
def jsTruthyNum : JsNum → Bool
  | some n => n ≠ 0
  | none => false

/-- `x || d` for a possibly undefined string variable `x`: the default
applies when the value is absent or empty. -/
def orDefault (o : Option Chars) (d : Chars) : Chars :=
  match o with
  | some v => if v.isEmpty then d else v
  | none => d

/-- `Number.parseInt(s, 10) || d`. -/
def jsOr (j : JsNum) (d : Int) : JsNum :=
  if jsTruthyNum j then j else some d

/-- The detected-subproject flags. -/
structure AvailableApps where
  api : Bool
  webSpa : Bool
  webSsr : Bool
  openapiGenerator : Bool
deriving DecidableEq, Repr

/-- Collected database configuration. -/
structure DbConfig where
  user : Chars
  password : Chars
  name : Chars
  host : Chars
  port : JsNum
deriving DecidableEq, Repr

/-- Collected per-application ports; the outer option is JavaScript
`undefined` (field never assigned). -/
structure PortsConfig where
  api : Option JsNum
  webSpa : Option JsNum
  webSsr : Option JsNum
deriving DecidableEq, Repr

/-- Collected mail-relay ports. -/
structure SmtpConfig where
  port : JsNum
  portWeb : JsNum
deriving DecidableEq, Repr

/-- The aggregated configuration consumed at write-back. -/
structure EnvConfig where
  database : DbConfig
  ports : PortsConfig
  smtp : SmtpConfig
deriving DecidableEq, Repr

/-- The environment files the script reads and writes: one
template/target pair at the workspace root, one per application and one
for the generator package.  `none` models a file that does not exist. -/
structure WorkspaceFS where
  rootEnv : Option Chars
  rootExample : Option Chars
  apiEnv : Option Chars
  apiExample : Option Chars
  webSpaEnv : Option Chars
  webSpaExample : Option Chars
  webSsrEnv : Option Chars
  webSsrExample : Option Chars
  openapiEnv : Option Chars
  openapiExample : Option Chars
deriving DecidableEq, Repr

/-- The database variables of the root file, in source order. -/
def dbVarNames : List Chars :=
  ["DATABASE_USER".data, "DATABASE_PASSWORD".data, "DATABASE_NAME".data,
   "DATABASE_HOST".data, "DATABASE_PORT".data]

/-- The missing-variable list of the root pair used by the database and
SMTP phases: all template keys when the target does not exist.  Since
`parseEnvFile` of a missing file is the empty map, the stored-variable
map of the source is `parseEnvFile fs.rootEnv` in every case. -/
def rootMissingVars (fs : WorkspaceFS) : List Chars :=
  if fs.rootEnv.isSome then getMissingVariables fs.rootExample fs.rootEnv
  else envKeys (parseEnvFile fs.rootExample)

/-- The missing-variable list of the backend pair used by the ports
phase. -/
def apiMissingVars (fs : WorkspaceFS) : List Chars :=
  if fs.apiEnv.isSome then getMissingVariables fs.apiExample fs.apiEnv
  else envKeys (parseEnvFile fs.apiExample)

/-- The missing-variable list of the SPA pair used by the ports phase:
empty when the target does not exist (the source skips the diff
entirely then). -/
def spaMissingVars (fs : WorkspaceFS) : List Chars :=
  if fs.webSpaEnv.isSome then getMissingVariables fs.webSpaExample fs.webSpaEnv
  else []

/-- The missing-variable list of the SSR pair used by the ports
phase. -/
def ssrMissingVars (fs : WorkspaceFS) : List Chars :=
  if fs.webSsrEnv.isSome then getMissingVariables fs.webSsrExample fs.webSsrEnv
  else []

/-- Whether any database variable is missing from the root target. -/
def needsDb (fs : WorkspaceFS) : Bool :=
  dbVarNames.any (fun v => (rootMissingVars fs).contains v)

/-- `promptDatabaseConfig`: prompts only for the missing database
variables (the answer oracle is keyed on the prompt message) and falls
back to stored values or defaults for the rest. -/
def promptDatabaseConfig (fs : WorkspaceFS) (ans : Chars → Chars) : DbConfig :=
  if !needsDb fs then
    { user := orDefault (envLookup (parseEnvFile fs.rootEnv) "DATABASE_USER".data) "postgres".data
      password := orDefault (envLookup (parseEnvFile fs.rootEnv) "DATABASE_PASSWORD".data) "postgres".data
      name := orDefault (envLookup (parseEnvFile fs.rootEnv) "DATABASE_NAME".data) "lonestone_test".data
      host := orDefault (envLookup (parseEnvFile fs.rootEnv) "DATABASE_HOST".data) "localhost".data
      port := jsParseInt (orDefault (envLookup (parseEnvFile fs.rootEnv) "DATABASE_PORT".data) "5111".data) }
  else
    { user := if (rootMissingVars fs).contains "DATABASE_USER".data
        then ans "Database user".data
        else orDefault (envLookup (parseEnvFile fs.rootEnv) "DATABASE_USER".data) "postgres".data
      password := if (rootMissingVars fs).contains "DATABASE_PASSWORD".data
        then ans "Database password".data
        else orDefault (envLookup (parseEnvFile fs.rootEnv) "DATABASE_PASSWORD".data) "postgres".data
      name := if (rootMissingVars fs).contains "DATABASE_NAME".data
        then ans "Database name".data
        else orDefault (envLookup (parseEnvFile fs.rootEnv) "DATABASE_NAME".data) "lonestone_test".data
      host := if (rootMissingVars fs).contains "DATABASE_HOST".data
        then ans "Database host".data
        else orDefault (envLookup (parseEnvFile fs.rootEnv) "DATABASE_HOST".data) "localhost".data
      port := jsOr (jsParseInt
        (if (rootMissingVars fs).contains "DATABASE_PORT".data
         then ans "Database port".data
         else orDefault (envLookup (parseEnvFile fs.rootEnv) "DATABASE_PORT".data) "5111".data)) 5111 }

/-- The prompt messages issued by the database phase, in order. -/
def promptDatabaseLog (fs : WorkspaceFS) : List Chars :=
  if !needsDb fs then []
  else
    (if (rootMissingVars fs).contains "DATABASE_USER".data then ["Database user".data] else []) ++
    (if (rootMissingVars fs).contains "DATABASE_PASSWORD".data then ["Database password".data] else []) ++
    (if (rootMissingVars fs).contains "DATABASE_NAME".data then ["Database name".data] else []) ++
    (if (rootMissingVars fs).contains "DATABASE_HOST".data then ["Database host".data] else []) ++
    (if (rootMissingVars fs).contains "DATABASE_PORT".data then ["Database port".data] else [])

/-- The backend needs a port prompt: its port variable is missing. -/
def needApiPort (apps : AvailableApps) (fs : WorkspaceFS) : Bool :=
  apps.api && (apiMissingVars fs).contains "API_PORT".data

/-- The SPA frontend is flagged whenever any of its variables is
missing, regardless of which one. -/
def needSpaPort (apps : AvailableApps) (fs : WorkspaceFS) : Bool :=
  apps.webSpa && !(spaMissingVars fs).isEmpty

/-- The SSR frontend, same rule as the SPA. -/
def needSsrPort (apps : AvailableApps) (fs : WorkspaceFS) : Bool :=
  apps.webSsr && !(ssrMissingVars fs).isEmpty

/-- Whether the ports phase prompts at all. -/
def needsAnyPort (apps : AvailableApps) (fs : WorkspaceFS) : Bool :=
  needApiPort apps fs || needSpaPort apps fs || needSsrPort apps fs

/-- `promptPortsConfig`: the first pass resolves the backend port from
the stored value when not missing; when some application is flagged the
second pass prompts the flagged ones.  The source has no fallback
assignment for the frontend ports: a frontend port is resolved only
when its application was flagged. -/
def promptPortsConfig (apps : AvailableApps) (fs : WorkspaceFS)
    (ans : Chars → Chars) : PortsConfig :=
  if !needsAnyPort apps fs then
    { api := if apps.api && !(apiMissingVars fs).contains "API_PORT".data then
        some (jsParseInt (orDefault (envLookup (parseEnvFile fs.apiEnv) "API_PORT".data) "3000".data))
      else none
      webSpa := none
      webSsr := none }
  else
    { api := if needApiPort apps fs then
        some (jsOr (jsParseInt (ans "API port".data)) 3000)
      else if apps.api then
        some (jsParseInt (orDefault (envLookup (parseEnvFile fs.apiEnv) "API_PORT".data) "3000".data))
      else none
      webSpa := if needSpaPort apps fs then
        some (jsOr (jsParseInt (ans "Web SPA port".data)) 5173)
      else none
      webSsr := if needSsrPort apps fs then
        some (jsOr (jsParseInt (ans "Web SSR port".data)) 5174)
      else none }

/-- The prompt messages issued by the ports phase, in order. -/
def promptPortsLog (apps : AvailableApps) (fs : WorkspaceFS) : List Chars :=
  if !needsAnyPort apps fs then []
  else
    (if needApiPort apps fs then ["API port".data] else []) ++
    (if needSpaPort apps fs then ["Web SPA port".data] else []) ++
    (if needSsrPort apps fs then ["Web SSR port".data] else [])

/-- Whether any SMTP variable is missing from the root target. -/
def needsSmtp (fs : WorkspaceFS) : Bool :=
  (rootMissingVars fs).contains "SMTP_PORT".data ||
  (rootMissingVars fs).contains "SMTP_PORT_WEB".data

/-- `promptSmtpConfig`, analogous to the database phase. -/
def promptSmtpConfig (fs : WorkspaceFS) (ans : Chars → Chars) : SmtpConfig :=
  if !needsSmtp fs then
    { port := jsParseInt (orDefault (envLookup (parseEnvFile fs.rootEnv) "SMTP_PORT".data) "1025".data)
      portWeb := jsParseInt (orDefault (envLookup (parseEnvFile fs.rootEnv) "SMTP_PORT_WEB".data) "1080".data) }
  else
    { port := jsOr (jsParseInt
        (if (rootMissingVars fs).contains "SMTP_PORT".data
         then ans "SMTP port".data
         else orDefault (envLookup (parseEnvFile fs.rootEnv) "SMTP_PORT".data) "1025".data)) 1025
      portWeb := jsOr (jsParseInt
        (if (rootMissingVars fs).contains "SMTP_PORT_WEB".data
         then ans "MailDev web port".data
         else orDefault (envLookup (parseEnvFile fs.rootEnv) "SMTP_PORT_WEB".data) "1080".data)) 1080 }

/-- The prompt messages issued by the SMTP phase, in order. -/
def promptSmtpLog (fs : WorkspaceFS) : List Chars :=
  if !needsSmtp fs then []
  else
    (if (rootMissingVars fs).contains "SMTP_PORT".data then ["SMTP port".data] else []) ++
    (if (rootMissingVars fs).contains "SMTP_PORT_WEB".data then ["MailDev web port".data] else [])

/-- Copy of one template to its target, only when the target does not
exist and the template does. -/
def copyPair (target tmpl : Option Chars) : Option Chars :=
  if target.isSome then target
  else match tmpl with
    | some c => some c
    | none => target

/-- `copyEnvFiles`: the pair list contains the root pair and the pairs
of the detected applications; existing targets are never overwritten. -/
def copyEnvFiles (apps : AvailableApps) (fs : WorkspaceFS) : WorkspaceFS :=
  { fs with
    rootEnv := copyPair fs.rootEnv fs.rootExample
    apiEnv := if apps.api then copyPair fs.apiEnv fs.apiExample else fs.apiEnv
    webSpaEnv := if apps.webSpa then copyPair fs.webSpaEnv fs.webSpaExample else fs.webSpaEnv
    webSsrEnv := if apps.webSsr then copyPair fs.webSsrEnv fs.webSsrExample else fs.webSsrEnv
    openapiEnv := if apps.openapiGenerator then copyPair fs.openapiEnv fs.openapiExample else fs.openapiEnv }

/-- `http://localhost:<port>` (template-literal interpolation of the
number). -/
def localhostUrl (n : JsNum) : Chars :=
  "http://localhost:".data ++ jsNumToString n

/-- The origins array built in `updateAllEnvFiles`: backend first, then
the SPA frontend, then the SSR frontend, keeping only truthy ports. -/
def originsList (ports : PortsConfig) : List Chars :=
  (match ports.api with
   | some j => if jsTruthyNum j then [localhostUrl j] else []
   | none => []) ++
  (match ports.webSpa with
   | some j => if jsTruthyNum j then [localhostUrl j] else []
   | none => []) ++
  (match ports.webSsr with
   | some j => if jsTruthyNum j then [localhostUrl j] else []
   | none => [])

/-- `Array.prototype.join` with a separator. -/
def joinSep (sep : Chars) : List Chars → Chars
  | [] => []
  | [x] => x
  | x :: xs => x ++ sep ++ joinSep sep xs

/-- `origins.join(',')`: the derived trusted-origins value. -/
def deriveTrustedOrigins (ports : PortsConfig) : Chars :=
  joinSep [','] (originsList ports)

/-- `updateAllEnvFiles`: write the collected and derived values back.
The root file always receives the database and SMTP values; the
per-application files are written only for detected applications with a
truthy backend port; every call passes `onlyMissing = false`. -/
def updateAllEnvFiles (config : EnvConfig) (apps : AvailableApps)
    (fs : WorkspaceFS) : WorkspaceFS :=
  let trustedOrigins := deriveTrustedOrigins config.ports
  let rootUpdates : List (Chars × Chars) :=
    [("DATABASE_USER".data, config.database.user),
     ("DATABASE_PASSWORD".data, config.database.password),
     ("DATABASE_NAME".data, config.database.name),
     ("DATABASE_PORT".data, jsNumToString config.database.port),
     ("SMTP_PORT".data, jsNumToString config.smtp.port),
     ("SMTP_PORT_WEB".data, jsNumToString config.smtp.portWeb)]
  let rootEnv' := (updateEnvFile fs.rootEnv rootUpdates false).1
  let apiTruthy :=
    match config.ports.api with
    | some j => jsTruthyNum j
    | none => false
  let apiPortNum : JsNum :=
    match config.ports.api with
    | some j => j
    | none => none
  let apiUrl := localhostUrl apiPortNum
  let apiEnv' :=
    if apps.api && apiTruthy then
      let updates : List (Chars × Chars) :=
        [("API_PORT".data, jsNumToString apiPortNum),
         ("DATABASE_USER".data, config.database.user),
         ("DATABASE_PASSWORD".data, config.database.password),
         ("DATABASE_NAME".data, config.database.name),
         ("DATABASE_HOST".data, config.database.host),
         ("DATABASE_PORT".data, jsNumToString config.database.port),
         ("TRUSTED_ORIGINS".data, trustedOrigins)] ++
        (match config.ports.webSpa with
         | some j => if jsTruthyNum j then [("CLIENTS_WEB_APP_URL".data, localhostUrl j)] else []
         | none => []) ++
        (match config.ports.webSsr with
         | some j => if jsTruthyNum j then [("CLIENTS_WEB_SSR_URL".data, localhostUrl j)] else []
         | none => [])
      (updateEnvFile fs.apiEnv updates false).1
    else fs.apiEnv
  let webSpaEnv' :=
    if apps.webSpa && apiTruthy then
      (updateEnvFile fs.webSpaEnv [("VITE_API_URL".data, apiUrl)] false).1
    else fs.webSpaEnv
  let webSsrEnv' :=
    if apps.webSsr && apiTruthy then
      (updateEnvFile fs.webSsrEnv [("API_URL".data, apiUrl)] false).1
    else fs.webSsrEnv
  let openapiEnv' :=
    if apps.openapiGenerator && apiTruthy then
      (updateEnvFile fs.openapiEnv [("API_URL".data, apiUrl)] false).1
    else fs.openapiEnv
  { fs with rootEnv := rootEnv', apiEnv := apiEnv', webSpaEnv := webSpaEnv',
            webSsrEnv := webSsrEnv', openapiEnv := openapiEnv' }

/-- The environment-file portion of one full run of `main`, from the
status snapshot to the write-back.  The env-status snapshot precedes
all prompting; since nothing writes an env file before the copy phase,
the snapshot coincides with the state handed to `copyEnvFiles`.
`renameProjects` rewrites only package manifests and is outside the env
state.  Returns the final files and the ordered list of text prompts
issued (the project-name prompt first). -/
def runSetup (apps : AvailableApps) (fs : WorkspaceFS) (ans : Chars → Chars) :
    WorkspaceFS × List Chars :=
  (updateAllEnvFiles
     ⟨promptDatabaseConfig fs ans, promptPortsConfig apps fs ans,
      promptSmtpConfig fs ans⟩ apps (copyEnvFiles apps fs),
   "Project name".data ::
     (promptDatabaseLog fs ++ promptPortsLog apps fs ++ promptSmtpLog fs))

/-- The persisted key a text prompt resolves: the key whose stored value
seeds the prompt default and which the answer configures. -/
def keyForPrompt (message : Chars) : Option Chars :=
  if message = "Database user".data then some "DATABASE_USER".data
  else if message = "Database password".data then some "DATABASE_PASSWORD".data
  else if message = "Database name".data then some "DATABASE_NAME".data
  else if message = "Database host".data then some "DATABASE_HOST".data
  else if message = "Database port".data then some "DATABASE_PORT".data
  else if message = "API port".data then some "API_PORT".data
  else if message = "Web SPA port".data then some "VITE_PORT".data
  else if message = "Web SSR port".data then some "PORT".data
  else if message = "SMTP port".data then some "SMTP_PORT".data
  else if message = "MailDev web port".data then some "SMTP_PORT_WEB".data
  else none

/-- The file-system surface `detectAvailableApps` touches: existence of
the two root directories, their listings, and the directory bit of each
entry; `none` models a thrown file-system error. -/
structure DirFS where
  appsExists : Bool
  packagesExists : Bool
  appsEntries : Option (List String)
  packagesEntries : Option (List String)
  isDirApps : String → Option Bool
  isDirPackages : String → Option Bool

/-- `readdirSync(...).filter(item => statSync(item).isDirectory())`,
propagating a thrown stat error. -/
def filterDirs (isDir : String → Option Bool) : List String → Option (List String)
  | [] => some []
  | x :: xs =>
    match isDir x with
    | none => none
    | some b =>
      match filterDirs isDir xs with
      | none => none
      | some r => some (if b then x :: r else r)

/-- First half of `detectAvailableApps`: the applications root.  Flags
start false; when the root exists its listing is scanned for the
conventional names.  A listing or stat failure propagates as an
error. -/
def detectApps (dfs : DirFS) : Except Unit AvailableApps :=
  if dfs.appsExists then
    match dfs.appsEntries with
    | none => .error ()
    | some es =>
      match filterDirs dfs.isDirApps es with
      | none => .error ()
      | some ds =>
        .ok ⟨ds.contains "api", ds.contains "web-spa", ds.contains "web-ssr", false⟩
  else .ok ⟨false, false, false, false⟩

/-- `detectAvailableApps`: the applications root followed by the
packages root. -/
def detectAvailableApps (dfs : DirFS) : Except Unit AvailableApps :=
  match detectApps dfs with
  | .error e => .error e
  | .ok a =>
    if dfs.packagesExists then
      match dfs.packagesEntries with
      | none => .error ()
      | some es =>
        match filterDirs dfs.isDirPackages es with
        | none => .error ()
        | some ds => .ok { a with openapiGenerator := ds.contains "openapi-generator" }
    else .ok a

/-- A directory state with two readable roots. -/
def okDirFS : DirFS where
  appsExists := true
  packagesExists := true
  appsEntries := some ["api", "web-spa"]
  packagesEntries := some ["openapi-generator"]
  isDirApps := fun _ => some true
  isDirPackages := fun _ => some true

/-- The retry loop of `waitForDatabase`: the close-event code (with
`?? 1`) or `1` when the probe cannot be launched; success short-circuits,
exhaustion reports failure.  Returns the flag and the number of probe
attempts performed. -/
def waitLoop (probe : Nat → Option Nat) : Nat → Nat → Bool × Nat
  | 0, i => (false, i)
  | fuel + 1, i =>
    if (probe i).getD 1 = 0 then (true, i + 1)
    else waitLoop probe fuel (i + 1)

/-- `waitForDatabase(maxRetries)`: run the probe up to `maxRetries`
times. -/
def waitForDatabase (probe : Nat → Option Nat) (maxRetries : Nat) : Bool × Nat :=
  waitLoop probe maxRetries 0

/-- ANSI colouring helper of the script. -/
def colorize (text code : Chars) : Chars :=
  code ++ text ++ "\x1B[0m".data

/-- The exact manual migration command the script prints on failure. -/
def migrateCmd : Chars := "pnpm --filter=api db:migrate:up".data

/-- The migration block of `main`: a failing migration command is caught
in place and produces the warning plus the manual-recovery line; it never
rethrows. -/
def runMigrationBlock (migrate : Except Chars Unit) : List Chars :=
  match migrate with
  | .ok _ => ["  ".data ++ colorize "✓".data "\x1B[32m".data ++ " Migrations completed successfully".data]
  | .error e =>
    ["  ".data ++ colorize "⚠".data "\x1B[33m".data ++ " Migration failed: ".data ++ e,
     "  ".data ++ colorize "You can run migrations manually later with:".data "\x1B[2m".data ++
       " ".data ++ colorize migrateCmd "\x1B[1m".data]

/-- A line opening a `KEY=` assignment, the shape matched by the
dynamic regex at a line start. -/
def startsKey (key l : Chars) : Bool :=
  (key ++ ['=']).isPrefixOf l

/-- Line-level match: the lines before the first line opening the key
assignment, that line, and the lines after. -/
def lineMatch (k : Chars) : List Chars → Option (List Chars × Chars × List Chars)
  | [] => none
  | l :: ls =>
    if startsKey k l then some ([], l, ls)
    else
      match lineMatch k ls with
      | none => none
      | some (pre, m, post) => some (l :: pre, m, post)

/-- Lines each terminated by a newline (the text before a match that
starts at a line opening). -/
def joinLinesNL (pre : List Chars) : Chars :=
  pre.foldr (fun l r => l ++ '
' :: r) []

/-- Fold of `parseEnvFile` over an arbitrary list of lines. -/
def parseEnvLines (ls : List Chars) : List (Chars × Chars) :=
  ls.foldl
    (fun m l => match parseLine l with
      | some (k, v) => envInsert m k v
      | none => m) []

/-- Keys as they appear in the script: non-empty, free of white space,
line terminators, the equals sign, the dollar sign and the comment
marker. -/
def goodKey (k : Chars) : Bool :=
  !k.isEmpty && jsTrim k = k && k.head? ≠ some '#' &&
  k.all (fun c => !(isLineTerm c) && c ≠ '=' && c ≠ '$')

/-- Replacement values that expand literally and stay on one line. -/
def goodVal (v : Chars) : Bool :=
  v.all (fun c => !(isLineTerm c) && c ≠ '$')

/-- Strings fixed by `trim()`. -/
def trimFixed (s : Chars) : Bool :=
  jsTrim s = s

/-- Two keys whose lines can never coincide: neither key-with-equals is
a prefix of the other. -/
def noOverlap (a b : Chars) : Prop :=
  ¬ (a ++ ['=']) <+: (b ++ ['=']) ∧ ¬ (b ++ ['=']) <+: (a ++ ['='])

/-- Pairwise key compatibility for an update map: the regexes of two
different keys can never match the same line. -/
def keysOK (u : List (Chars × Chars)) : Prop :=
  (u.map (·.1)).Pairwise noOverlap

/-- Decidability of line-coincidence freedom, used to discharge the
pairwise key condition on concrete update maps. -/
instance (a b : Chars) : Decidable (noOverlap a b) := by
  unfold noOverlap
  infer_instance

/-- Values suitable for write-back: fixed by `trim()`, on one line,
expanding literally, and non-empty (so the only-missing rule and the
emptiness checks see them as present). -/
def goodUpdateVal (v : Chars) : Prop :=
  jsTrim v = v ∧ (∀ ch ∈ v, isLineTerm ch = false) ∧ '$' ∉ v ∧ v ≠ []

/-- Keys as written literally by the script. -/
def goodKeyLit (k : Chars) : Prop :=
  goodKey k = true ∧ (∀ ch ∈ k, isLineTerm ch = false) ∧ '$' ∉ k

/-- Decidability of the literal-key property. -/
instance (k : Chars) : Decidable (goodKeyLit k) := by
  unfold goodKeyLit
  infer_instance

/-- A minimal fully configured workspace: each template holds one key
stored non-empty in its target, and every numeric key the script reads
without a prompt falls back to its canonical default. -/
def wcFS : WorkspaceFS where
  rootEnv := some "A=1".data
  rootExample := some "A=1".data
  apiEnv := some "B=2".data
  apiExample := some "B=2".data
  webSpaEnv := some "C=3".data
  webSpaExample := some "C=3".data
  webSsrEnv := some "D=4".data
  webSsrExample := some "D=4".data
  openapiEnv := some "E=5".data
  openapiExample := some "E=5".data

/-- All four subprojects detected, for the idempotence witness. -/
def wcApps : AvailableApps := ⟨true, true, true, true⟩

/-- Constant answer oracle of the idempotence witness. -/
def wcAns (m : Chars) : Chars := "z".data

/-- The first line opening the key assignment. -/
def firstKeyLine (k : Chars) (LS : List Chars) : Option Chars :=
  LS.find? (fun l => (k ++ ['=']).isPrefixOf l)

/-- The value of the last line parsing to the given key (later lines
overwrite earlier ones in `parseEnvFile`). -/
def lastParsedVal (k : Chars) : List Chars → Option Chars
  | [] => none
  | l :: ls =>
    match lastParsedVal k ls with
    | some v => some v
    | none =>
      match parseLine l with
      | some (a, b) => if a = k then some b else none
      | none => none

/-- Entries of an update map as supplied by the write-back phase: keys
and values without line terminators or dollar characters. -/
def goodEntry (kv : Chars × Chars) : Prop :=
  (∀ ch ∈ kv.1, isLineTerm ch = false) ∧ '$' ∉ kv.1 ∧ '$' ∉ kv.2 ∧
  (∀ ch ∈ kv.2, isLineTerm ch = false)

/-- Contents suitable for the idempotence theorem: no carriage returns
or Unicode line separators (newline is the only line boundary) and no
dollar characters (so replacement strings expand literally). -/
def cleanContent (c : Chars) : Bool :=
  c.all (fun ch => (ch = '\n' || !(isLineTerm ch)) && ch ≠ '$')

/-- The target file whose stored value seeds a prompt for the given
key. -/
def promptKeyFile (fs : WorkspaceFS) (k : Chars) : Option Chars :=
  if k = "API_PORT".data then fs.apiEnv
  else if k = "VITE_PORT".data then fs.webSpaEnv
  else if k = "PORT".data then fs.webSsrEnv
  else fs.rootEnv

/-- Canonically stored decimal: rendering the parsed number returns the
stored string (holds for ordinary values such as `3000`). -/
def canonicalNum (stored : Option Chars) (dflt : Chars) : Bool :=
  jsNumToString (jsParseInt (orDefault stored dflt)) = orDefault stored dflt

/-- A fully configured workspace: every target exists and misses no
template variable, every target is clean in the sense of
`cleanContent`, and the numeric values consumed without a fallback are
canonically stored. -/
def wellConfigured (fs : WorkspaceFS) : Prop :=
  fs.rootEnv.isSome = true ∧ fs.apiEnv.isSome = true ∧
  fs.webSpaEnv.isSome = true ∧ fs.webSsrEnv.isSome = true ∧
  fs.openapiEnv.isSome = true ∧
  getMissingVariables fs.rootExample fs.rootEnv = [] ∧
  getMissingVariables fs.apiExample fs.apiEnv = [] ∧
  getMissingVariables fs.webSpaExample fs.webSpaEnv = [] ∧
  getMissingVariables fs.webSsrExample fs.webSsrEnv = [] ∧
  getMissingVariables fs.openapiExample fs.openapiEnv = [] ∧
  (∀ c, fs.rootEnv = some c → cleanContent c = true) ∧
  (∀ c, fs.apiEnv = some c → cleanContent c = true) ∧
  (∀ c, fs.webSpaEnv = some c → cleanContent c = true) ∧
  (∀ c, fs.webSsrEnv = some c → cleanContent c = true) ∧
  (∀ c, fs.openapiEnv = some c → cleanContent c = true) ∧
  canonicalNum (envLookup (parseEnvFile fs.rootEnv) "DATABASE_PORT".data) "5111".data = true ∧
  canonicalNum (envLookup (parseEnvFile fs.rootEnv) "SMTP_PORT".data) "1025".data = true ∧
  canonicalNum (envLookup (parseEnvFile fs.rootEnv) "SMTP_PORT_WEB".data) "1080".data = true ∧
  canonicalNum (envLookup (parseEnvFile fs.apiEnv) "API_PORT".data) "3000".data = true

/-- Workspace exercising the frontend prompting path: the SPA target
stores a non-empty port but misses the derived API-URL variable. -/
def cxFS : WorkspaceFS where
  rootEnv := some "DATABASE_USER=postgres\nDATABASE_PASSWORD=pg\nDATABASE_NAME=db\nDATABASE_HOST=localhost\nDATABASE_PORT=5111\nSMTP_PORT=1025\nSMTP_PORT_WEB=1080".data
  rootExample := some "DATABASE_USER=postgres\nDATABASE_PASSWORD=pg\nDATABASE_NAME=db\nDATABASE_HOST=localhost\nDATABASE_PORT=5111\nSMTP_PORT=1025\nSMTP_PORT_WEB=1080".data
  apiEnv := some "API_PORT=3000\nTRUSTED_ORIGINS=x\nDATABASE_USER=postgres\nDATABASE_PASSWORD=pg\nDATABASE_NAME=db\nDATABASE_HOST=localhost\nDATABASE_PORT=5111".data
  apiExample := some "API_PORT=3000\nTRUSTED_ORIGINS=x\nDATABASE_USER=postgres\nDATABASE_PASSWORD=pg\nDATABASE_NAME=db\nDATABASE_HOST=localhost\nDATABASE_PORT=5111".data
  webSpaEnv := some "VITE_PORT=5173".data
  webSpaExample := some "VITE_PORT=5173\nVITE_API_URL=http://localhost:3000".data
  webSsrEnv := none
  webSsrExample := none
  openapiEnv := none
  openapiExample := none

/-- Detected subprojects of the counterexample workspace: backend and
SPA frontend. -/
def cxApps : AvailableApps := ⟨true, true, false, false⟩

/-- Answer oracle of the counterexample runs (identical answers for both
runs: every prompt message is answered by the same fixed string). -/
def cxAns (m : Chars) : Chars :=
  if m = "Web SPA port".data then "5173".data else "x".data

/-- A directory state whose applications root exists but cannot be
listed (`readdirSync` throws, e.g. permission denied). -/
def cxDirFS : DirFS where
  appsExists := true
  packagesExists := false
  appsEntries := none
  packagesEntries := none
  isDirApps := fun _ => some true
  isDirPackages := fun _ => some true

/-- The docker/migration tail of `main` after the write-back: both the
docker start and the migration run are guarded by confirmations, both
failures are caught locally, and control always reaches the final
summary, so the process exit code of this phase is `0`. -/
def mainTail (apps : AvailableApps) (confirmAns : Chars → Bool)
    (dockerUp : Except Chars Unit) (probe : Nat → Option Nat)
    (migrate : Except Chars Unit) : List Chars × Nat :=
  if confirmAns "Start Docker services (database, maildev)?".data then
    match dockerUp with
    | .error e =>
      (["  ".data ++ colorize "⚠".data "\x1B[33m".data ++ " Failed to start Docker: ".data ++ e,
        "  ".data ++ colorize "You can start Docker manually with:".data "\x1B[2m".data ++
          " ".data ++ colorize "pnpm docker:up".data "\x1B[1m".data], 0)
    | .ok _ =>
      let ready := (waitForDatabase probe 30).1
      if ready && apps.api then
        if confirmAns "Run database migrations?".data then
          (runMigrationBlock migrate, 0)
        else
          (["  ".data ++ "Skipped migrations. Run manually with: ".data ++ migrateCmd], 0)
      else if !ready && apps.api then
        (["  ".data ++ "Database not ready. Run migrations manually with: ".data ++ migrateCmd], 0)
      else ([], 0)
  else
    (["  ".data ++ "Skipped Docker. Start manually with: pnpm docker:up".data] ++
     (if apps.api then
        ["  ".data ++ "Migrations skipped (requires Docker). Run with: ".data ++ migrateCmd]
      else []), 0)

/-! ### Helper lemmas -/

theorem waitLoop_all_fail (probe : Nat → Option Nat)
    (h : ∀ i, (probe i).getD 1 ≠ 0) :
    ∀ fuel i, waitLoop probe fuel i = (false, fuel + i) := by
  intro fuel
  induction fuel with
  | zero => intro i; simp [waitLoop]
  | succ n ih =>
    intro i
    unfold waitLoop
    rw [if_neg (h i), ih (i + 1)]
    have hn : n + (i + 1) = n + 1 + i := by omega
    rw [hn]

theorem filterDirs_isSome (isDir : String → Option Bool) :
    ∀ es : List String, (∀ x ∈ es, isDir x ≠ none) →
      ∃ r, filterDirs isDir es = some r := by
  intro es
  induction es with
  | nil => intro _; exact ⟨[], rfl⟩
  | cons x xs ih =>
    intro h
    obtain ⟨b, hb⟩ := Option.ne_none_iff_exists'.mp (h x (by simp))
    obtain ⟨r, hr⟩ := ih (fun y hy => h y (by simp [hy]))
    exact ⟨if b then x :: r else r, by simp [filterDirs, hb, hr]⟩

theorem foldl_updateOne_flag (m : List (Chars × Chars)) (om : Bool) :
    ∀ (u : List (Chars × Chars)) (st : Chars × Bool), st.2 = true →
      (u.foldl (updateOne m om) st).2 = true := by
  intro u
  induction u with
  | nil => intro st h; exact h
  | cons kv rest ih =>
    intro st h
    refine ih _ ?_
    unfold updateOne
    split
    · exact h
    · split <;> rfl

theorem updateOne_edit_flag (m : List (Chars × Chars)) (st : Chars × Bool)
    (kv : Chars × Chars) : (updateOne m false st kv).2 = true := by
  unfold updateOne
  simp only [Bool.false_and, Bool.false_eq_true, if_false]
  split <;> rfl

theorem foldl_updateOne_skip (m : List (Chars × Chars)) :
    ∀ (u : List (Chars × Chars)) (st : Chars × Bool),
      (∀ kv ∈ u, ∃ v, envLookup m kv.1 = some v ∧ v ≠ []) →
      u.foldl (updateOne m true) st = st := by
  intro u
  induction u with
  | nil => intro st _; rfl
  | cons kv rest ih =>
    intro st h
    obtain ⟨v, hv, hne⟩ := h kv (by simp)
    have hstep : updateOne m true st kv = st := by
      unfold updateOne
      rw [hv]
      simp [List.isEmpty_iff, hne]
    rw [List.foldl_cons, hstep]
    exact ih st (fun kv' h' => h kv' (by simp [h']))

/-! ### Claim theorems for the simpler claims -/

set_option maxRecDepth 40000

/-- Claim C5: for every template file and a target path that does not
exist, the differ returns exactly the full key set of the template, in
template key order. -/
theorem diff_missing_on_absent_target (tmpl : Option Chars) :
    getMissingVariables tmpl none = envKeys (parseEnvFile tmpl) := by
  unfold getMissingVariables
  simp [parseEnvFile, envLookup]

/-- Claim C6: merging the single update `B ↦ 2` into a file with a
comment line, an unrelated key and an old `B` line rewrites only the
`B` line, in place, with no duplicate appended. -/
theorem merge_preserves_unrelated_lines :
    updateEnvFileContent "# comment\nA=1\nB=old".data
        [("B".data, "2".data)] false =
      ("# comment\nA=1\nB=2".data, true) := by
  decide

/-- Claim C7: the derived trusted origins emit localhost URLs backend
first, then the SPA frontend, comma-joined, for any non-zero resolved
ports of those two subprojects when no other frontend is detected. -/
theorem trusted_origins_backend_first (a b : Int) (ha : a ≠ 0) (hb : b ≠ 0) :
    deriveTrustedOrigins ⟨some (some a), some (some b), none⟩ =
      "http://localhost:".data ++ (toString a).data ++
        ',' :: ("http://localhost:".data ++ (toString b).data) := by
  simp [deriveTrustedOrigins, originsList, jsTruthyNum, ha, hb, joinSep,
        localhostUrl, jsNumToString]

/-- Witness for C7 at the ports of the specification example. -/
theorem trusted_origins_backend_first_witness :
    deriveTrustedOrigins ⟨some (some 3000), some (some 5173), none⟩ =
      "http://localhost:3000,http://localhost:5173".data := by
  rw [trusted_origins_backend_first 3000 5173 (by decide) (by decide)]
  decide

/-- Claim C8: when the probe never reports ready (including launch
failures, which count as exit code 1), the readiness waiter performs
exactly `maxRetries` attempts and returns false without an error. -/
theorem readiness_exhausts_retries (probe : Nat → Option Nat) (m : Nat)
    (h : ∀ i, (probe i).getD 1 ≠ 0) :
    waitForDatabase probe m = (false, m) := by
  unfold waitForDatabase
  rw [waitLoop_all_fail probe h m 0]
  simp

/-- Witness for C8: a probe that always fails, three retries. -/
theorem readiness_exhausts_retries_witness :
    waitForDatabase (fun _ => some 1) 3 = (false, 3) :=
  readiness_exhausts_retries (fun _ => some 1) 3 (fun _ => Nat.one_ne_zero)

/-- Claim C9: an accepted migration step whose command exits non-zero is
caught; the run prints the warning and the exact manual recovery
command and still finishes with exit code 0. -/
theorem migration_failure_nonfatal (apps : AvailableApps)
    (conf : Chars → Bool) (probe : Nat → Option Nat) (e : Chars)
    (hapi : apps.api = true)
    (hc1 : conf "Start Docker services (database, maildev)?".data = true)
    (hc2 : conf "Run database migrations?".data = true)
    (hp : probe 0 = some 0) :
    (mainTail apps conf (.ok ()) probe (.error e)).2 = 0 ∧
    (∃ l ∈ (mainTail apps conf (.ok ()) probe (.error e)).1,
      " Migration failed: ".data <:+: l) ∧
    (∃ l ∈ (mainTail apps conf (.ok ()) probe (.error e)).1,
      migrateCmd <:+: l) := by
  have hready : waitForDatabase probe 30 = (true, 1) := by
    unfold waitForDatabase
    rw [show (30 : Nat) = 29 + 1 from rfl]
    simp [waitLoop, hp]
  have hmt : mainTail apps conf (.ok ()) probe (.error e) =
      (runMigrationBlock (.error e), 0) := by
    unfold mainTail
    rw [hc1, hready]
    simp [hapi, hc2]
  rw [hmt]
  refine ⟨rfl, ?_, ?_⟩
  · exact ⟨"  ".data ++ colorize "⚠".data "\x1B[33m".data ++
        " Migration failed: ".data ++ e,
      by simp [runMigrationBlock],
      "  ".data ++ colorize "⚠".data "\x1B[33m".data, e,
      by simp [colorize, List.append_assoc]⟩
  · exact ⟨"  ".data ++
        colorize "You can run migrations manually later with:".data "\x1B[2m".data ++
        " ".data ++ colorize migrateCmd "\x1B[1m".data,
      by simp [runMigrationBlock],
      "  ".data ++
        colorize "You can run migrations manually later with:".data "\x1B[2m".data ++
        " ".data ++ "\x1B[1m".data,
      "\x1B[0m".data,
      by simp [colorize, List.append_assoc]⟩

/-- Witness for C9 at concrete inputs. -/
theorem migration_failure_nonfatal_witness :
    (mainTail cxApps (fun _ => true) (.ok ()) (fun _ => some 0)
        (.error "boom".data)).2 = 0 ∧
    (∃ l ∈ (mainTail cxApps (fun _ => true) (.ok ()) (fun _ => some 0)
        (.error "boom".data)).1, " Migration failed: ".data <:+: l) ∧
    (∃ l ∈ (mainTail cxApps (fun _ => true) (.ok ()) (fun _ => some 0)
        (.error "boom".data)).1, migrateCmd <:+: l) :=
  migration_failure_nonfatal cxApps (fun _ => true) (fun _ => some 0)
    "boom".data (by decide) (by decide) (by decide) (by decide)

/-- Counterexample to claim C2: applying an update whose value already
equals the stored one still raises the write flag (the file is
rewritten with identical bytes and a fresh timestamp), because the flag
records that a replacement happened, not that bytes changed. -/
theorem rewrite_despite_unchanged_value :
    updateEnvFile (some "A=1".data) [("A".data, "1".data)] false =
      (some "A=1".data, true) := by
  decide

/-- Claim C2 (amended): a rewrite happens whenever at least one update
is applied — with overwrite semantics any non-empty update map causes a
write, even when every targeted key already stores the supplied value;
the file is left untouched exactly when every update is skipped by the
only-missing rule. -/
theorem updateEnvFile_write_conditions (c : Chars)
    (u : List (Chars × Chars)) :
    (u ≠ [] → (updateEnvFileContent c u false).2 = true) ∧
    ((∀ kv ∈ u, ∃ v, envLookup (parseEnvContent c) kv.1 = some v ∧ v ≠ []) →
      (updateEnvFileContent c u true).2 = false) := by
  constructor
  · intro hu
    match u with
    | [] => exact absurd rfl hu
    | kv :: rest =>
      unfold updateEnvFileContent
      rw [List.foldl_cons]
      exact foldl_updateOne_flag _ _ rest _ (updateOne_edit_flag _ _ _)
  · intro h
    unfold updateEnvFileContent
    rw [foldl_updateOne_skip _ u (c, false) h]

/-- Witness for the amended C2 at a concrete file. -/
theorem updateEnvFile_write_conditions_witness :
    (updateEnvFileContent "A=1".data [("A".data, "1".data)] false).2 = true ∧
    (updateEnvFileContent "A=1".data [("A".data, "1".data)] true).2 = false := by
  have h := updateEnvFile_write_conditions "A=1".data [("A".data, "1".data)]
  exact ⟨h.1 (by decide), h.2 (by decide)⟩

/-- Counterexample to claim C4: an applications root that exists but
cannot be listed makes detection raise instead of degrading to false
flags. -/
theorem detect_error_on_unreadable_root :
    detectAvailableApps cxDirFS = .error () := by
  rfl

/-- Claim C4 (amended): detection always succeeds when every existing
root directory can be listed and each entry can be stated; an absent
root degrades to false flags for its subproject kinds. -/
theorem detect_ok_of_readable (dfs : DirFS)
    (h1 : dfs.appsExists = true →
      ∃ es, dfs.appsEntries = some es ∧ ∀ x ∈ es, dfs.isDirApps x ≠ none)
    (h2 : dfs.packagesExists = true →
      ∃ es, dfs.packagesEntries = some es ∧ ∀ x ∈ es, dfs.isDirPackages x ≠ none) :
    ∃ a, detectAvailableApps dfs = .ok a ∧
      (dfs.appsExists = false →
        a.api = false ∧ a.webSpa = false ∧ a.webSsr = false) ∧
      (dfs.packagesExists = false → a.openapiGenerator = false) := by
  have happs : ∃ a, detectApps dfs = .ok a ∧
      (dfs.appsExists = false →
        a.api = false ∧ a.webSpa = false ∧ a.webSsr = false) ∧
      a.openapiGenerator = false := by
    by_cases hA : dfs.appsExists = true
    · obtain ⟨es, hes, hst⟩ := h1 hA
      obtain ⟨r, hr⟩ := filterDirs_isSome dfs.isDirApps es hst
      refine ⟨⟨r.contains "api", r.contains "web-spa", r.contains "web-ssr",
          false⟩, ?_, ?_, rfl⟩
      · simp only [detectApps, hA, hes, hr, if_true]
      · intro hf; rw [hA] at hf; cases hf
    · have hAf : dfs.appsExists = false := by
        revert hA; cases dfs.appsExists <;> simp
      refine ⟨⟨false, false, false, false⟩, ?_, fun _ => ⟨rfl, rfl, rfl⟩, rfl⟩
      unfold detectApps
      rw [hAf]
      rfl
  obtain ⟨a, ha, hflags, hopen⟩ := happs
  by_cases hP : dfs.packagesExists = true
  · obtain ⟨es2, hes2, hst2⟩ := h2 hP
    obtain ⟨r2, hr2⟩ := filterDirs_isSome dfs.isDirPackages es2 hst2
    refine ⟨{ a with openapiGenerator := r2.contains "openapi-generator" },
        ?_, ?_, ?_⟩
    · simp only [detectAvailableApps, ha, hP, hes2, hr2, if_true]
    · exact fun hf => hflags hf
    · intro hf; rw [hP] at hf; cases hf
  · have hPf : dfs.packagesExists = false := by
      revert hP; cases dfs.packagesExists <;> simp
    refine ⟨a, ?_, hflags, fun _ => hopen⟩
    simp only [detectAvailableApps, ha, hPf, Bool.false_eq_true, if_false]

/-- Witness for the amended C4: both roots exist and are readable. -/
theorem detect_ok_of_readable_witness :
    ∃ a, detectAvailableApps okDirFS = .ok a ∧
      (okDirFS.appsExists = false →
        a.api = false ∧ a.webSpa = false ∧ a.webSsr = false) ∧
      (okDirFS.packagesExists = false → a.openapiGenerator = false) :=
  detect_ok_of_readable okDirFS
    (fun _ => ⟨["api", "web-spa"], rfl, fun _ _ => by simp [okDirFS]⟩)
    (fun _ => ⟨["openapi-generator"], rfl, fun _ _ => by simp [okDirFS]⟩)

/-- Counterexample to claim C1: in `cxFS` the SPA target stores
`VITE_PORT=5173` (non-empty), yet the run prompts `Web SPA port` — the
prompt for the key `VITE_PORT` — because a different variable of the
same file is missing. -/
theorem reprompt_for_stored_frontend_port :
    envLookup (parseEnvFile cxFS.webSpaEnv) "VITE_PORT".data =
      some "5173".data ∧
    "5173".data ≠ [] ∧
    keyForPrompt "Web SPA port".data = some "VITE_PORT".data ∧
    "Web SPA port".data ∈ (runSetup cxApps cxFS cxAns).2 := by
  refine ⟨by decide, by decide, by decide, ?_⟩
  decide

/-- Counterexample to claim C3: running the reconciliation twice on
`cxFS` with the same answers is not byte-identical — the first run
resolves the SPA port (prompted because `VITE_API_URL` is missing) and
writes it into the backend trusted origins, while the second run finds
nothing missing in the SPA file, leaves its port unresolved and rewrites
the trusted origins without the SPA entry. -/
theorem second_run_differs :
    (runSetup cxApps (runSetup cxApps cxFS cxAns).1 cxAns).1 ≠
      (runSetup cxApps cxFS cxAns).1 := by
  decide

theorem mem_getMissing {k : Chars} {tmpl tgt : Option Chars} :
    k ∈ getMissingVariables tmpl tgt ↔
      k ∈ envKeys (parseEnvFile tmpl) ∧
      (envLookup (parseEnvFile tgt) k = none ∨
       envLookup (parseEnvFile tgt) k = some []) := by
  unfold getMissingVariables
  rw [List.mem_filter]
  cases h : envLookup (parseEnvFile tgt) k with
  | none => simp [h]
  | some v => simp [h]

theorem not_mem_missing_of_stored {k v : Chars} {tmpl tgt : Option Chars}
    (hv : envLookup (parseEnvFile tgt) k = some v) (hne : v ≠ []) :
    k ∉ getMissingVariables tmpl tgt := by
  intro hmem
  rcases (mem_getMissing.mp hmem).2 with h | h
  · rw [hv] at h; cases h
  · rw [hv] at h
    exact hne (Option.some.inj h)

theorem mem_if_singleton {m x : Chars} {b : Bool}
    (h : m ∈ (if b = true then [x] else [])) : b = true ∧ m = x := by
  cases b
  · simp at h
  · simp at h
    exact ⟨rfl, h⟩

theorem mem_dbLog {fs : WorkspaceFS} {m : Chars}
    (h : m ∈ promptDatabaseLog fs) :
    ∃ k, keyForPrompt m = some k ∧ k ∈ rootMissingVars fs ∧
      k ∈ dbVarNames := by
  unfold promptDatabaseLog at h
  split at h
  · cases h
  · simp only [List.mem_append] at h
    rcases h with ((((h | h) | h) | h) | h)
    · obtain ⟨hc, rfl⟩ := mem_if_singleton h
      exact ⟨_, rfl, List.elem_iff.mp hc, by decide⟩
    · obtain ⟨hc, rfl⟩ := mem_if_singleton h
      exact ⟨_, rfl, List.elem_iff.mp hc, by decide⟩
    · obtain ⟨hc, rfl⟩ := mem_if_singleton h
      exact ⟨_, rfl, List.elem_iff.mp hc, by decide⟩
    · obtain ⟨hc, rfl⟩ := mem_if_singleton h
      exact ⟨_, rfl, List.elem_iff.mp hc, by decide⟩
    · obtain ⟨hc, rfl⟩ := mem_if_singleton h
      exact ⟨_, rfl, List.elem_iff.mp hc, by decide⟩

theorem mem_portsLog {apps : AvailableApps} {fs : WorkspaceFS} {m : Chars}
    (h : m ∈ promptPortsLog apps fs) :
    (m = "API port".data ∧ "API_PORT".data ∈ apiMissingVars fs) ∨
    m = "Web SPA port".data ∨ m = "Web SSR port".data := by
  unfold promptPortsLog at h
  split at h
  · cases h
  · simp only [List.mem_append] at h
    rcases h with (h | h) | h
    · obtain ⟨hc, rfl⟩ := mem_if_singleton h
      rw [needApiPort, Bool.and_eq_true] at hc
      exact Or.inl ⟨rfl, List.elem_iff.mp hc.2⟩
    · obtain ⟨_, rfl⟩ := mem_if_singleton h
      exact Or.inr (Or.inl rfl)
    · obtain ⟨_, rfl⟩ := mem_if_singleton h
      exact Or.inr (Or.inr rfl)

theorem mem_smtpLog {fs : WorkspaceFS} {m : Chars}
    (h : m ∈ promptSmtpLog fs) :
    ∃ k, keyForPrompt m = some k ∧ k ∈ rootMissingVars fs ∧
      k ∈ ["SMTP_PORT".data, "SMTP_PORT_WEB".data] := by
  unfold promptSmtpLog at h
  split at h
  · cases h
  · simp only [List.mem_append] at h
    rcases h with h | h
    · obtain ⟨hc, rfl⟩ := mem_if_singleton h
      exact ⟨_, rfl, List.elem_iff.mp hc, by decide⟩
    · obtain ⟨hc, rfl⟩ := mem_if_singleton h
      exact ⟨_, rfl, List.elem_iff.mp hc, by decide⟩

theorem root_key_not_missing {fs : WorkspaceFS} {k v : Chars}
    (hv : envLookup (parseEnvFile fs.rootEnv) k = some v) (hne : v ≠ []) :
    k ∉ rootMissingVars fs := by
  unfold rootMissingVars
  cases h0 : fs.rootEnv with
  | none => rw [h0] at hv; cases hv
  | some r =>
    simp only [Option.isSome_some, if_true]
    exact not_mem_missing_of_stored (h0 ▸ hv) hne

theorem api_key_not_missing {fs : WorkspaceFS} {k v : Chars}
    (hv : envLookup (parseEnvFile fs.apiEnv) k = some v) (hne : v ≠ []) :
    k ∉ apiMissingVars fs := by
  unfold apiMissingVars
  cases h0 : fs.apiEnv with
  | none => rw [h0] at hv; cases hv
  | some r =>
    simp only [Option.isSome_some, if_true]
    exact not_mem_missing_of_stored (h0 ▸ hv) hne

/-- Claim C1 (amended): a key stored with a non-empty value at the
start of a run is never prompted — except through the two frontend port
prompts, which fire whenever any variable of their file is missing,
even if the port key itself is set. -/
theorem no_reprompt_for_stored_keys (apps : AvailableApps)
    (fs : WorkspaceFS) (ans : Chars → Chars) (m k v : Chars)
    (hk : keyForPrompt m = some k)
    (hspa : m ≠ "Web SPA port".data) (hssr : m ≠ "Web SSR port".data)
    (hv : envLookup (parseEnvFile (promptKeyFile fs k)) k = some v)
    (hne : v ≠ []) :
    m ∉ (runSetup apps fs ans).2 := by
  intro hm
  have hm' : m = "Project name".data ∨ m ∈ promptDatabaseLog fs ∨
      m ∈ promptPortsLog apps fs ∨ m ∈ promptSmtpLog fs := by
    simpa [runSetup, List.mem_cons, List.mem_append] using hm
  rcases hm' with rfl | hdb | hports | hsmtp
  · rw [show keyForPrompt "Project name".data = none from rfl] at hk
    cases hk
  · obtain ⟨k', hk', hmiss, hdbv⟩ := mem_dbLog hdb
    rw [hk'] at hk
    obtain rfl := Option.some.inj hk
    simp only [dbVarNames, List.mem_cons, List.not_mem_nil, or_false] at hdbv
    rcases hdbv with rfl | rfl | rfl | rfl | rfl <;>
      exact root_key_not_missing hv hne hmiss
  · rcases mem_portsLog hports with ⟨rfl, hmiss⟩ | rfl | rfl
    · rw [show keyForPrompt "API port".data = some "API_PORT".data from rfl]
        at hk
      obtain rfl := Option.some.inj hk
      exact api_key_not_missing hv hne hmiss
    · exact hspa rfl
    · exact hssr rfl
  · obtain ⟨k', hk', hmiss, hsv⟩ := mem_smtpLog hsmtp
    rw [hk'] at hk
    obtain rfl := Option.some.inj hk
    simp only [List.mem_cons, List.not_mem_nil, or_false] at hsv
    rcases hsv with rfl | rfl <;>
      exact root_key_not_missing hv hne hmiss

/-- Witness for the amended C1: in `cxFS` the stored backend port is
not re-prompted. -/
theorem no_reprompt_for_stored_keys_witness :
    "API port".data ∉ (runSetup cxApps cxFS cxAns).2 :=
  no_reprompt_for_stored_keys cxApps cxFS cxAns "API port".data
    "API_PORT".data "3000".data (by decide) (by decide) (by decide)
    (by decide) (by decide)

theorem splitNL_ne_nil (c : Chars) : splitNL c ≠ [] := by
  induction c with
  | nil => simp [splitNL]
  | cons x cs ih =>
    unfold splitNL
    split
    · simp
    · cases h : splitNL cs <;> simp

theorem joinNL_cons_cons (l l2 : Chars) (ls : List Chars) :
    joinNL (l :: l2 :: ls) = l ++ '\n' :: joinNL (l2 :: ls) := rfl

theorem joinNL_splitNL (c : Chars) : joinNL (splitNL c) = c := by
  induction c with
  | nil => rfl
  | cons x cs ih =>
    unfold splitNL
    split
    · next hx =>
      subst hx
      cases h : splitNL cs with
      | nil => exact absurd h (splitNL_ne_nil cs)
      | cons l ls =>
        rw [h] at ih
        rw [joinNL_cons_cons]
        simp [ih]
    · next hx =>
      cases h : splitNL cs with
      | nil => exact absurd h (splitNL_ne_nil cs)
      | cons l ls =>
        rw [h] at ih
        cases ls with
        | nil =>
          show x :: l = x :: cs
          rw [show joinNL [l] = l from rfl] at ih
          rw [ih]
        | cons l2 ls2 =>
          have e1 : joinNL ((x :: l) :: l2 :: ls2) =
              (x :: l) ++ '\n' :: joinNL (l2 :: ls2) := rfl
          have e2 : joinNL (l :: l2 :: ls2) =
              l ++ '\n' :: joinNL (l2 :: ls2) := rfl
          rw [e2] at ih
          rw [e1]
          show x :: (l ++ '\n' :: joinNL (l2 :: ls2)) = x :: cs
          rw [ih]

theorem splitNL_append (a b : Chars) :
    splitNL (a ++ '\n' :: b) = splitNL a ++ splitNL b := by
  induction a with
  | nil => rfl
  | cons x a' ih =>
    by_cases hx : x = '\n'
    · subst hx
      show splitNL ('\n' :: (a' ++ '\n' :: b)) = splitNL ('\n' :: a') ++ splitNL b
      rw [show splitNL ('\n' :: (a' ++ '\n' :: b)) =
            [] :: splitNL (a' ++ '\n' :: b) from rfl,
          show splitNL ('\n' :: a') = [] :: splitNL a' from rfl, ih]
      rfl
    · show splitNL (x :: (a' ++ '\n' :: b)) = splitNL (x :: a') ++ splitNL b
      cases h : splitNL a' with
      | nil => exact absurd h (splitNL_ne_nil a')
      | cons l ls =>
        have e1 : splitNL (x :: (a' ++ '\n' :: b)) =
            match splitNL (a' ++ '\n' :: b) with
            | [] => [[x]]
            | l :: ls => (x :: l) :: ls := by
          conv_lhs => rw [splitNL]
          exact if_neg hx
        have e2 : splitNL (x :: a') =
            match splitNL a' with
            | [] => [[x]]
            | l :: ls => (x :: l) :: ls := by
          conv_lhs => rw [splitNL]
          exact if_neg hx
        rw [e1, e2, ih, h]
        rfl

theorem no_nl_mem_splitNL : ∀ {c l : Chars}, l ∈ splitNL c → '\n' ∉ l := by
  intro c
  induction c with
  | nil =>
    intro l h
    simp [splitNL] at h
    subst h
    simp
  | cons x cs ih =>
    intro l h
    unfold splitNL at h
    split at h
    · rcases List.mem_cons.mp h with rfl | h
      · simp
      · exact ih h
    · next hx =>
      cases hsp : splitNL cs with
      | nil => exact absurd hsp (splitNL_ne_nil cs)
      | cons l0 ls0 =>
        rw [hsp] at h
        rcases List.mem_cons.mp h with rfl | h
        · intro hmem
          rcases List.mem_cons.mp hmem with heq | hmem
          · exact hx heq.symm
          · exact ih (hsp ▸ List.mem_cons_self l0 ls0) hmem
        · exact ih (hsp ▸ List.mem_cons_of_mem l0 h)

theorem mem_of_mem_splitNL : ∀ {c l : Chars} {ch : Char},
    l ∈ splitNL c → ch ∈ l → ch ∈ c := by
  intro c
  induction c with
  | nil =>
    intro l ch h hch
    simp [splitNL] at h
    subst h
    cases hch
  | cons x cs ih =>
    intro l ch h hch
    unfold splitNL at h
    split at h
    · rcases List.mem_cons.mp h with rfl | h
      · cases hch
      · exact List.mem_cons_of_mem x (ih h hch)
    · cases hsp : splitNL cs with
      | nil => exact absurd hsp (splitNL_ne_nil cs)
      | cons l0 ls0 =>
        rw [hsp] at h
        rcases List.mem_cons.mp h with rfl | h
        · rcases List.mem_cons.mp hch with rfl | hch
          · exact List.mem_cons_self ch cs
          · exact List.mem_cons_of_mem x
              (ih (hsp ▸ List.mem_cons_self l0 ls0) hch)
        · exact List.mem_cons_of_mem x
            (ih (hsp ▸ List.mem_cons_of_mem l0 h) hch)

theorem splitNL_of_no_nl : ∀ {c : Chars}, '\n' ∉ c → splitNL c = [c] := by
  intro c
  induction c with
  | nil => intro _; rfl
  | cons x cs ih =>
    intro h
    have hxne : x ≠ '\n' := by
      intro hx
      subst hx
      exact h (List.mem_cons_self _ _)
    have e1 : splitNL (x :: cs) =
        match splitNL cs with
        | [] => [[x]]
        | l :: ls => (x :: l) :: ls := by
      conv_lhs => rw [splitNL]
      exact if_neg hxne
    rw [e1, ih (fun hm => h (List.mem_cons_of_mem x hm))]

theorem splitNL_joinNL : ∀ {ls : List Chars}, ls ≠ [] →
    (∀ l ∈ ls, '\n' ∉ l) → splitNL (joinNL ls) = ls := by
  intro ls
  induction ls with
  | nil => intro h _; exact absurd rfl h
  | cons l ls ih =>
    intro _ hnl
    cases ls with
    | nil =>
      show splitNL l = [l]
      exact splitNL_of_no_nl (hnl l (List.mem_cons_self l []))
    | cons l2 ls2 =>
      rw [joinNL_cons_cons, splitNL_append,
          splitNL_of_no_nl (hnl l (List.mem_cons_self l _)),
          ih (by simp) (fun x hx => hnl x (List.mem_cons_of_mem l hx))]
      rfl

theorem expandRepl_no_dollar :
    ∀ (repl : Chars), '$' ∉ repl → ∀ m b a, expandRepl repl m b a = repl := by
  intro repl
  induction repl with
  | nil => intro _ m b a; rfl
  | cons c r ih =>
    intro h m b a
    cases r with
    | nil => rfl
    | cons d r' =>
      have hc : c ≠ '$' := by
        intro hc
        subst hc
        exact h (List.mem_cons_self _ _)
      show expandRepl (c :: d :: r') m b a = c :: d :: r'
      unfold expandRepl
      rw [if_neg hc, ih (fun hm => h (List.mem_cons_of_mem c hm)) m b a]

theorem isPrefixOf_nil_false {u : Chars} (h : u ≠ []) :
    u.isPrefixOf ([] : Chars) = false := by
  cases u with
  | nil => exact absurd rfl h
  | cons c u' => rfl

theorem isPrefixOf_append_nl (u : Chars) (hu : '\n' ∉ u) :
    ∀ (l r : Chars), u.isPrefixOf (l ++ '\n' :: r) = u.isPrefixOf l := by
  induction u with
  | nil => intro l r; simp [List.isPrefixOf]
  | cons c u' ih =>
    intro l r
    have hc : c ≠ '\n' := by
      intro hc
      subst hc
      exact hu (List.mem_cons_self _ _)
    cases l with
    | nil =>
      show (c :: u').isPrefixOf ('\n' :: r) = (c :: u').isPrefixOf []
      rw [isPrefixOf_nil_false (by simp)]
      show (c == '\n' && u'.isPrefixOf r) = false
      rw [beq_eq_false_iff_ne.mpr hc, Bool.false_and]
    | cons d l' =>
      show (c == d && u'.isPrefixOf (l' ++ '\n' :: r)) =
        (c == d && u'.isPrefixOf l')
      rw [ih (fun hm => hu (List.mem_cons_of_mem c hm)) l' r]

theorem isPrefixOf_nl_head {u : Chars} (hu : '\n' ∉ u) (hne : u ≠ [])
    (r : Chars) : u.isPrefixOf ('\n' :: r) = false := by
  cases u with
  | nil => exact absurd rfl hne
  | cons c u' =>
    have hc : c ≠ '\n' := by
      intro hc
      subst hc
      exact hu (List.mem_cons_self _ _)
    show (c == '\n' && u'.isPrefixOf r) = false
    rw [beq_eq_false_iff_ne.mpr hc, Bool.false_and]

theorem keyEq_no_nl {k : Chars} (hk : ∀ c ∈ k, isLineTerm c = false) :
    '\n' ∉ k ++ ['='] := by
  intro hmem
  rcases List.mem_append.mp hmem with h | h
  · have := hk _ h
    rw [show isLineTerm '\n' = true from rfl] at this
    cases this
  · simp at h

theorem findMatchAux_consume (k : Chars) :
    ∀ (m : Chars) (acc s : Chars), (∀ c ∈ m, isLineTerm c = false) →
      findMatchAux k acc false (m ++ s) =
        findMatchAux k (m.reverse ++ acc) false s := by
  intro m
  induction m with
  | nil => intro acc s _; simp
  | cons c m' ih =>
    intro acc s hm
    show findMatchAux k acc false (c :: (m' ++ s)) = _
    rw [findMatchAux]
    simp only [Bool.false_and, Bool.false_eq_true, if_false]
    rw [hm c (List.mem_cons_self c m'),
        ih (c :: acc) s (fun d hd => hm d (List.mem_cons_of_mem c hd))]
    congr 1
    simp

theorem findMatchAux_match (k acc : Chars) (s : Chars)
    (hpre : (k ++ ['=']).isPrefixOf s = true) :
    findMatchAux k acc true s =
      some (acc.reverse,
            k ++ '=' ::
              (s.drop (k.length + 1)).takeWhile (fun d => !(isLineTerm d)),
            (s.drop (k.length + 1)).dropWhile (fun d => !(isLineTerm d))) := by
  cases s with
  | nil =>
    rw [isPrefixOf_nil_false (by simp)] at hpre
    cases hpre
  | cons c cs =>
    rw [findMatchAux, hpre]
    simp

theorem takeWhile_append_stop {p : Char → Bool} :
    ∀ (m : Chars) (s : Chars), (∀ c ∈ m, p c = true) →
      (s = [] ∨ ∃ c cs, s = c :: cs ∧ p c = false) →
      (m ++ s).takeWhile p = m ∧ (m ++ s).dropWhile p = s := by
  intro m
  induction m with
  | nil =>
    intro s _ hs
    rcases hs with rfl | ⟨c, cs, rfl, hc⟩
    · exact ⟨rfl, rfl⟩
    · constructor
      · show List.takeWhile p (c :: cs) = []
        simp [List.takeWhile_cons, hc]
      · show List.dropWhile p (c :: cs) = c :: cs
        simp [List.dropWhile_cons, hc]
  | cons c m' ih =>
    intro s hm hs
    obtain ⟨h1, h2⟩ := ih s (fun d hd => hm d (List.mem_cons_of_mem c hd)) hs
    constructor
    · show List.takeWhile p (c :: (m' ++ s)) = c :: m'
      rw [List.takeWhile_cons, hm c (List.mem_cons_self c m')]
      simp [h1]
    · show List.dropWhile p (c :: (m' ++ s)) = s
      rw [List.dropWhile_cons, hm c (List.mem_cons_self c m')]
      simp [h2]

theorem findMatchAux_line_skip (k : Chars)
    (hk : ∀ c ∈ k, isLineTerm c = false) (l : Chars)
    (hl : ∀ c ∈ l, isLineTerm c = false) (hns : startsKey k l = false) :
    ∀ (acc r : Chars), findMatchAux k acc true (l ++ '\n' :: r) =
      findMatchAux k ('\n' :: (l.reverse ++ acc)) true r := by
  intro acc r
  cases l with
  | nil =>
    show findMatchAux k acc true ('\n' :: r) =
      findMatchAux k ('\n' :: acc) true r
    rw [findMatchAux, isPrefixOf_nl_head (keyEq_no_nl hk) (by simp) r]
    simp only [Bool.and_false, Bool.false_eq_true, if_false]
    rw [show isLineTerm '\n' = true from rfl]
  | cons d l' =>
    show findMatchAux k acc true (d :: (l' ++ '\n' :: r)) = _
    rw [findMatchAux]
    have hpre : (k ++ ['=']).isPrefixOf (d :: (l' ++ '\n' :: r)) =
        startsKey k (d :: l') := by
      have h2 := isPrefixOf_append_nl (k ++ ['=']) (keyEq_no_nl hk) (d :: l') r
      simpa [startsKey] using h2
    rw [Bool.true_and, hpre, hns]
    simp only [Bool.false_eq_true, if_false]
    rw [hl d (List.mem_cons_self d l'),
        findMatchAux_consume k l' (d :: acc) ('\n' :: r)
          (fun x hx => hl x (List.mem_cons_of_mem d hx)),
        findMatchAux]
    simp only [Bool.false_and, Bool.false_eq_true, if_false]
    rw [show isLineTerm '\n' = true from rfl]
    congr 1
    simp

theorem findMatchAux_line_last (k : Chars) (l : Chars)
    (hl : ∀ c ∈ l, isLineTerm c = false) (hns : startsKey k l = false) :
    ∀ acc, findMatchAux k acc true l = none := by
  intro acc
  cases l with
  | nil => rfl
  | cons d l' =>
    rw [findMatchAux, Bool.true_and,
        show (k ++ ['=']).isPrefixOf (d :: l') = startsKey k (d :: l') from rfl,
        hns]
    simp only [Bool.false_eq_true, if_false]
    rw [hl d (List.mem_cons_self d l'), ← List.append_nil l',
        findMatchAux_consume k l' (d :: acc) []
          (fun x hx => hl x (List.mem_cons_of_mem d hx))]
    rfl

theorem startsKey_decomp {k l : Chars} (h : startsKey k l = true) :
    ∃ rest, l = k ++ '=' :: rest := by
  unfold startsKey at h
  obtain ⟨t, ht⟩ := List.isPrefixOf_iff_prefix.mp h
  exact ⟨t, by rw [← ht]; simp⟩

theorem findMatchAux_line_hit_nl (k : Chars) (l : Chars)
    (hl : ∀ c ∈ l, isLineTerm c = false) (hs : startsKey k l = true)
    (acc r : Chars) :
    findMatchAux k acc true (l ++ '\n' :: r) =
      some (acc.reverse, l, '\n' :: r) := by
  obtain ⟨rest, rfl⟩ := startsKey_decomp hs
  have hrest : ∀ c ∈ rest, isLineTerm c = false := fun c hc =>
    hl c (by simp [hc])
  have hpre : (k ++ ['=']).isPrefixOf ((k ++ '=' :: rest) ++ '\n' :: r) = true :=
    List.isPrefixOf_iff_prefix.mpr ⟨rest ++ '\n' :: r, by simp⟩
  rw [findMatchAux_match k acc _ hpre]
  have hdrop : ((k ++ '=' :: rest) ++ '\n' :: r).drop (k.length + 1) =
      rest ++ '\n' :: r := by
    have hsh : (k ++ '=' :: rest) ++ '\n' :: r =
        (k ++ ['=']) ++ (rest ++ '\n' :: r) := by simp
    have hlen : k.length + 1 = (k ++ ['=']).length := by simp
    rw [hsh, hlen, List.drop_left]
  rw [hdrop]
  obtain ⟨ht, hd⟩ := @takeWhile_append_stop (fun d => !(isLineTerm d))
    rest ('\n' :: r) (fun c hc => by simp [hrest c hc])
    (Or.inr ⟨'\n', r, rfl, rfl⟩)
  rw [ht, hd]

theorem findMatchAux_line_hit_last (k : Chars) (l : Chars)
    (hl : ∀ c ∈ l, isLineTerm c = false) (hs : startsKey k l = true)
    (acc : Chars) :
    findMatchAux k acc true l = some (acc.reverse, l, []) := by
  obtain ⟨rest, rfl⟩ := startsKey_decomp hs
  have hrest : ∀ c ∈ rest, isLineTerm c = false := fun c hc =>
    hl c (by simp [hc])
  have hpre : (k ++ ['=']).isPrefixOf (k ++ '=' :: rest) = true :=
    List.isPrefixOf_iff_prefix.mpr ⟨rest, by simp⟩
  rw [findMatchAux_match k acc _ hpre]
  have hdrop : (k ++ '=' :: rest).drop (k.length + 1) = rest := by
    have hsh : k ++ '=' :: rest = (k ++ ['=']) ++ rest := by simp
    have hlen : k.length + 1 = (k ++ ['=']).length := by simp
    rw [hsh, hlen, List.drop_left]
  rw [hdrop]
  obtain ⟨ht, hd⟩ := @takeWhile_append_stop (fun d => !(isLineTerm d))
    rest [] (fun c hc => by simp [hrest c hc]) (Or.inl rfl)
  rw [List.append_nil] at ht hd
  rw [ht, hd]

theorem findMatchAux_joinNL (k : Chars)
    (hk : ∀ c ∈ k, isLineTerm c = false) :
    ∀ (LS : List Chars), LS ≠ [] →
      (∀ l ∈ LS, ∀ c ∈ l, isLineTerm c = false) →
      ∀ acc, findMatchAux k acc true (joinNL LS) =
        match lineMatch k LS with
        | none => none
        | some (pre, m, post) =>
          some (acc.reverse ++ joinLinesNL pre, m,
                match post with
                | [] => []
                | _ :: _ => '\n' :: joinNL post) := by
  intro LS
  induction LS with
  | nil => intro h; exact absurd rfl h
  | cons l ls ih =>
    intro _ hcl acc
    have hlc : ∀ c ∈ l, isLineTerm c = false := hcl l (List.mem_cons_self _ _)
    cases hsk : startsKey k l with
    | true =>
      rw [show lineMatch k (l :: ls) = some ([], l, ls) from by
        unfold lineMatch; rw [hsk]; simp]
      cases ls with
      | nil =>
        show findMatchAux k acc true l = _
        rw [findMatchAux_line_hit_last k l hlc hsk acc]
        simp [joinLinesNL]
      | cons l2 ls2 =>
        rw [joinNL_cons_cons, findMatchAux_line_hit_nl k l hlc hsk acc]
        simp [joinLinesNL]
    | false =>
      cases ls with
      | nil =>
        show findMatchAux k acc true l = _
        rw [findMatchAux_line_last k l hlc hsk acc,
            show lineMatch k [l] = none from by
              unfold lineMatch; rw [hsk]; simp [lineMatch]]
      | cons l2 ls2 =>
        rw [joinNL_cons_cons,
            findMatchAux_line_skip k hk l hlc hsk acc (joinNL (l2 :: ls2)),
            ih (by simp) (fun x hx => hcl x (List.mem_cons_of_mem l hx))
              ('\n' :: (l.reverse ++ acc)),
            show lineMatch k (l :: l2 :: ls2) =
              match lineMatch k (l2 :: ls2) with
              | none => none
              | some (pre, m, post) => some (l :: pre, m, post) from by
                conv_lhs => rw [lineMatch]
                rw [hsk]
                simp]
        cases hlm : lineMatch k (l2 :: ls2) with
        | none => rfl
        | some x =>
          obtain ⟨pre, m, post⟩ := x
          show some (('\n' :: (l.reverse ++ acc)).reverse ++ joinLinesNL pre, m, _) =
            some (acc.reverse ++ joinLinesNL (l :: pre), m, _)
          simp [joinLinesNL, List.append_assoc]

theorem findMatch_eq_lineMatch (k c : Chars)
    (hk : ∀ ch ∈ k, isLineTerm ch = false)
    (hc : ∀ l ∈ splitNL c, ∀ ch ∈ l, isLineTerm ch = false) :
    findMatch k c =
      match lineMatch k (splitNL c) with
      | none => none
      | some (pre, m, post) =>
        some (joinLinesNL pre, m,
              match post with
              | [] => []
              | _ :: _ => '\n' :: joinNL post) := by
  unfold findMatch
  have hmain := findMatchAux_joinNL k hk (splitNL c) (splitNL_ne_nil c) hc []
  rw [joinNL_splitNL] at hmain
  simpa using hmain

theorem lineMatch_none_iff (k : Chars) :
    ∀ (LS : List Chars), lineMatch k LS = none ↔
      ∀ l ∈ LS, startsKey k l = false := by
  intro LS
  induction LS with
  | nil => simp [lineMatch]
  | cons l ls ih =>
    constructor
    · intro h
      unfold lineMatch at h
      split at h
      · cases h
      · next hsk =>
        intro l' hl'
        rcases List.mem_cons.mp hl' with rfl | hl'
        · exact Bool.eq_false_iff.mpr hsk
        · cases hlm : lineMatch k ls with
          | none => exact (ih.mp hlm) l' hl'
          | some x =>
            rw [hlm] at h
            obtain ⟨pre, m, post⟩ := x
            cases h
    · intro h
      unfold lineMatch
      rw [h l (List.mem_cons_self l ls)]
      simp only [Bool.false_eq_true, if_false]
      rw [ih.mpr (fun x hx => h x (List.mem_cons_of_mem l hx))]

theorem lineMatch_decomp {k : Chars} :
    ∀ {LS pre : List Chars} {m : Chars} {post : List Chars},
      lineMatch k LS = some (pre, m, post) →
      LS = pre ++ m :: post ∧ startsKey k m = true ∧
      (∀ l ∈ pre, startsKey k l = false) := by
  intro LS
  induction LS with
  | nil => intro pre m post h; cases h
  | cons l ls ih =>
    intro pre m post h
    unfold lineMatch at h
    split at h
    · next hsk =>
      injection h with h1
      obtain ⟨h2, h3⟩ := Prod.mk.inj h1
      obtain ⟨h4, h5⟩ := Prod.mk.inj h3
      subst h2
      subst h4
      subst h5
      refine ⟨rfl, hsk, ?_⟩
      intro l' hl'
      cases hl'
    · next hsk =>
      cases hlm : lineMatch k ls with
      | none =>
        rw [hlm] at h
        cases h
      | some x =>
        obtain ⟨pre', m', post'⟩ := x
        rw [hlm] at h
        injection h with h1
        obtain ⟨h2, h3⟩ := Prod.mk.inj h1
        obtain ⟨h4, h5⟩ := Prod.mk.inj h3
        subst h2
        subst h4
        subst h5
        obtain ⟨ha, hb, hc⟩ := ih hlm
        refine ⟨by rw [ha]; rfl, hb, ?_⟩
        intro l' hl'
        rcases List.mem_cons.mp hl' with rfl | hl'
        · exact Bool.eq_false_iff.mpr hsk
        · exact hc l' hl'

theorem replFirst_decomp {k v : Chars} :
    ∀ {pre : List Chars} {m : Chars} {post : List Chars},
      (∀ l ∈ pre, startsKey k l = false) → startsKey k m = true →
      replFirst k v (pre ++ m :: post) = pre ++ (k ++ '=' :: v) :: post := by
  intro pre
  induction pre with
  | nil =>
    intro m post _ hm
    show replFirst k v (m :: post) = _
    unfold replFirst
    rw [show (k ++ ['=']).isPrefixOf m = true from hm]
    rfl
  | cons l pre' ih =>
    intro m post hpre hm
    show replFirst k v (l :: (pre' ++ m :: post)) = _
    unfold replFirst
    rw [show (k ++ ['=']).isPrefixOf l = false from hpre l (List.mem_cons_self l pre')]
    simp only [Bool.false_eq_true, if_false]
    rw [ih (fun x hx => hpre x (List.mem_cons_of_mem l hx)) hm]
    rfl

theorem joinNL_decomp :
    ∀ (pre : List Chars) (x : Chars) (post : List Chars),
      joinNL (pre ++ x :: post) =
        joinLinesNL pre ++ x ++
          (match post with
           | [] => []
           | _ :: _ => '\n' :: joinNL post) := by
  intro pre
  induction pre with
  | nil =>
    intro x post
    cases post with
    | nil =>
      show joinNL [x] = joinLinesNL [] ++ x ++ []
      rw [show joinNL [x] = x from rfl, show joinLinesNL [] = [] from rfl]
      simp
    | cons p ps =>
      show joinNL (x :: p :: ps) = joinLinesNL [] ++ x ++ ('\n' :: joinNL (p :: ps))
      rw [joinNL_cons_cons, show joinLinesNL [] = [] from rfl]
      simp
  | cons l pre' ih =>
    intro x post
    have hne : pre' ++ x :: post ≠ [] := by simp
    cases hpp : pre' ++ x :: post with
    | nil => exact absurd hpp hne
    | cons q qs =>
      show joinNL (l :: (pre' ++ x :: post)) = _
      rw [hpp, joinNL_cons_cons, ← hpp, ih x post]
      show l ++ '\n' :: (joinLinesNL pre' ++ x ++ _) =
        (l ++ '\n' :: joinLinesNL pre') ++ x ++ _
      simp

theorem joinLinesNL_eq :
    ∀ {ls : List Chars}, ls ≠ [] → joinLinesNL ls = joinNL ls ++ ['\n'] := by
  intro ls
  induction ls with
  | nil => intro h; exact absurd rfl h
  | cons l ls' ih =>
    intro _
    cases ls' with
    | nil => rfl
    | cons l2 ls2 =>
      show l ++ '\n' :: joinLinesNL (l2 :: ls2) = joinNL (l :: l2 :: ls2) ++ ['\n']
      rw [ih (by simp), joinNL_cons_cons]
      simp

theorem mem_replFirst {k v : Chars} :
    ∀ {LS : List Chars} {l : Chars}, l ∈ replFirst k v LS →
      l ∈ LS ∨ l = k ++ '=' :: v := by
  intro LS
  induction LS with
  | nil => intro l h; cases h
  | cons x xs ih =>
    intro l h
    unfold replFirst at h
    by_cases hco : (k ++ ['=']).isPrefixOf x = true
    · rw [if_pos hco] at h
      rcases List.mem_cons.mp h with rfl | h
      · exact Or.inr rfl
      · exact Or.inl (List.mem_cons_of_mem x h)
    · rw [if_neg hco] at h
      rcases List.mem_cons.mp h with rfl | h
      · exact Or.inl (List.mem_cons_self _ _)
      · rcases ih h with h | h
        · exact Or.inl (List.mem_cons_of_mem x h)
        · exact Or.inr h

theorem newline_free_of_clean {l : Chars}
    (h : ∀ ch ∈ l, isLineTerm ch = false) : '\n' ∉ l := by
  intro hmem
  have := h '\n' hmem
  rw [show isLineTerm '\n' = true from rfl] at this
  cases this

theorem lineUpdate_clean {k v : Chars}
    (hk : ∀ ch ∈ k, isLineTerm ch = false)
    (hvt : ∀ ch ∈ v, isLineTerm ch = false) {LS : List Chars}
    (hLS : ∀ l ∈ LS, ∀ ch ∈ l, isLineTerm ch = false) :
    ∀ l ∈ lineUpdate k v LS, ∀ ch ∈ l, isLineTerm ch = false := by
  have hnew : ∀ ch ∈ k ++ '=' :: v, isLineTerm ch = false := by
    intro ch hch
    rcases List.mem_append.mp hch with h | h
    · exact hk ch h
    · rcases List.mem_cons.mp h with rfl | h
      · rfl
      · exact hvt ch h
  intro l hl
  unfold lineUpdate at hl
  split at hl
  · rcases mem_replFirst hl with h | rfl
    · exact hLS l h
    · exact hnew
  · rcases List.mem_append.mp hl with h | h
    · exact hLS l h
    · rcases List.mem_cons.mp h with rfl | h
      · exact hnew
      · cases h

theorem lineUpdate_ne_nil {k v : Chars} {LS : List Chars} (h : LS ≠ []) :
    lineUpdate k v LS ≠ [] := by
  unfold lineUpdate
  split
  · cases LS with
    | nil => exact absurd rfl h
    | cons x xs =>
      unfold replFirst
      split <;> simp
  · simp

theorem updateOne_lines (ev : List (Chars × Chars)) (c : Chars) (b : Bool)
    (k v : Chars)
    (hk : ∀ ch ∈ k, isLineTerm ch = false)
    (hkd : '$' ∉ k) (hvd : '$' ∉ v)
    (hvt : ∀ ch ∈ v, isLineTerm ch = false)
    (hc : ∀ l ∈ splitNL c, ∀ ch ∈ l, isLineTerm ch = false) :
    (updateOne ev false ((c, b) : Chars × Bool) (k, v)).1 =
      joinNL (lineUpdate k v (splitNL c)) := by
  have hrepl_nd : '$' ∉ k ++ '=' :: v := by
    intro hmem
    rcases List.mem_append.mp hmem with h | h
    · exact hkd h
    · rcases List.mem_cons.mp h with h | h
      · cases h
      · exact hvd h
  unfold updateOne
  simp only [Bool.false_and, Bool.false_eq_true, if_false]
  rw [findMatch_eq_lineMatch k c hk hc]
  cases hlm : lineMatch k (splitNL c) with
  | none =>
    show c ++ '\n' :: (k ++ '=' :: v) = joinNL (lineUpdate k v (splitNL c))
    have hany : (splitNL c).any (fun l => (k ++ ['=']).isPrefixOf l) = false := by
      rw [List.any_eq_false]
      intro l hl
      have := (lineMatch_none_iff k (splitNL c)).mp hlm l hl
      rw [show ((k ++ ['=']).isPrefixOf l : Bool) = startsKey k l from rfl, this]
      simp
    unfold lineUpdate
    rw [hany]
    simp only [Bool.false_eq_true, if_false]
    rw [joinNL_decomp (splitNL c) (k ++ '=' :: v) [], joinLinesNL_eq (splitNL_ne_nil c),
        joinNL_splitNL]
    simp
  | some x =>
    obtain ⟨pre, m, post⟩ := x
    obtain ⟨hdec, hsk, hpre⟩ := lineMatch_decomp hlm
    show joinLinesNL pre ++
        expandRepl (k ++ '=' :: v) m (joinLinesNL pre) _ ++ _ =
      joinNL (lineUpdate k v (splitNL c))
    rw [expandRepl_no_dollar _ hrepl_nd]
    have hany : (splitNL c).any (fun l => (k ++ ['=']).isPrefixOf l) = true := by
      rw [List.any_eq_true]
      exact ⟨m, by rw [hdec]; simp, by
        rw [show ((k ++ ['=']).isPrefixOf m : Bool) = startsKey k m from rfl, hsk]⟩
    unfold lineUpdate
    rw [hany]
    simp only [if_true]
    rw [hdec, replFirst_decomp hpre hsk, joinNL_decomp]

theorem startsKey_unique {k k' l : Chars} (h1 : startsKey k l = true)
    (h2 : startsKey k' l = true) (hno : noOverlap k k') : False := by
  have p1 : (k ++ ['=']) <+: l := List.isPrefixOf_iff_prefix.mp h1
  have p2 : (k' ++ ['=']) <+: l := List.isPrefixOf_iff_prefix.mp h2
  rcases List.prefix_or_prefix_of_prefix p1 p2 with h | h
  · exact hno.1 h
  · exact hno.2 h

theorem startsKey_newLine_false {k k' v' : Chars} (hno : noOverlap k k') :
    startsKey k (k' ++ '=' :: v') = false := by
  cases hsk : startsKey k (k' ++ '=' :: v') with
  | false => rfl
  | true =>
    have h2 : startsKey k' (k' ++ '=' :: v') = true :=
      List.isPrefixOf_iff_prefix.mpr ⟨v', by simp⟩
    exact absurd (startsKey_unique hsk h2 hno) (fun h => h)

theorem find?_middle {α : Type} (p : α → Bool) :
    ∀ (pre : List α) (x : α) (post : List α), (∀ l ∈ pre, p l = false) →
      p x = true → List.find? p (pre ++ x :: post) = some x := by
  intro pre
  induction pre with
  | nil => intro x post _ hx; exact List.find?_cons_of_pos _ hx
  | cons a pre' ih =>
    intro x post hpre hx
    show List.find? p (a :: (pre' ++ x :: post)) = some x
    rw [List.find?_cons_of_neg _ (by
      rw [hpre a (List.mem_cons_self a pre')]; simp)]
    exact ih x post (fun l hl => hpre l (List.mem_cons_of_mem a hl)) hx

theorem find?_congr_middle {α : Type} (p : α → Bool) :
    ∀ (pre : List α) (a b : α) (post : List α), p a = false → p b = false →
      List.find? p (pre ++ a :: post) = List.find? p (pre ++ b :: post) := by
  intro pre
  induction pre with
  | nil =>
    intro a b post ha hb
    show List.find? p (a :: post) = List.find? p (b :: post)
    rw [List.find?_cons_of_neg _ (by rw [ha]; simp),
        List.find?_cons_of_neg _ (by rw [hb]; simp)]
  | cons x pre' ih =>
    intro a b post ha hb
    show List.find? p (x :: (pre' ++ a :: post)) =
      List.find? p (x :: (pre' ++ b :: post))
    cases hx : p x with
    | true => rw [List.find?_cons_of_pos _ hx, List.find?_cons_of_pos _ hx]
    | false =>
      rw [List.find?_cons_of_neg _ (by rw [hx]; simp),
          List.find?_cons_of_neg _ (by rw [hx]; simp)]
      exact ih a b post ha hb

theorem find?_append_single {α : Type} (p : α → Bool) :
    ∀ (LS : List α) (x : α), p x = false →
      List.find? p (LS ++ [x]) = List.find? p LS := by
  intro LS
  induction LS with
  | nil =>
    intro x hx
    show List.find? p [x] = none
    rw [List.find?_cons_of_neg _ (by rw [hx]; simp)]
    rfl
  | cons a LS' ih =>
    intro x hx
    show List.find? p (a :: (LS' ++ [x])) = List.find? p (a :: LS')
    cases ha : p a with
    | true => rw [List.find?_cons_of_pos _ ha, List.find?_cons_of_pos _ ha]
    | false =>
      rw [List.find?_cons_of_neg _ (by rw [ha]; simp),
          List.find?_cons_of_neg _ (by rw [ha]; simp)]
      exact ih x hx

theorem find?_append_right {α : Type} (p : α → Bool) :
    ∀ (l1 l2 : List α), List.find? p l1 = none →
      List.find? p (l1 ++ l2) = List.find? p l2 := by
  intro l1
  induction l1 with
  | nil => intro l2 _; rfl
  | cons a l1' ih =>
    intro l2 h
    have ha : ¬ p a = true :=
      List.find?_eq_none.mp h a (List.mem_cons_self a l1')
    show List.find? p (a :: (l1' ++ l2)) = _
    rw [List.find?_cons_of_neg _ ha]
    refine ih l2 ?_
    rw [List.find?_eq_none]
    intro x hx
    exact List.find?_eq_none.mp h x (List.mem_cons_of_mem a hx)

theorem lineMatch_isSome_of_any {k : Chars} {LS : List Chars}
    (h : LS.any (fun l => (k ++ ['=']).isPrefixOf l) = true) :
    ∃ pre m post, lineMatch k LS = some (pre, m, post) := by
  cases hlm : lineMatch k LS with
  | none =>
    obtain ⟨l, hl, hp⟩ := List.any_eq_true.mp h
    have := (lineMatch_none_iff k LS).mp hlm l hl
    rw [show ((k ++ ['=']).isPrefixOf l : Bool) = startsKey k l from rfl,
        this] at hp
    cases hp
  | some x =>
    obtain ⟨pre, m, post⟩ := x
    exact ⟨pre, m, post, rfl⟩

theorem firstKeyLine_lineUpdate_self (k v : Chars) (LS : List Chars) :
    firstKeyLine k (lineUpdate k v LS) = some (k ++ '=' :: v) := by
  have hx : (k ++ ['=']).isPrefixOf (k ++ '=' :: v) = true :=
    List.isPrefixOf_iff_prefix.mpr ⟨v, by simp⟩
  unfold lineUpdate
  cases hany : LS.any (fun l => (k ++ ['=']).isPrefixOf l) with
  | false =>
    simp only [Bool.false_eq_true, if_false]
    unfold firstKeyLine
    have hnone : List.find? (fun l => (k ++ ['=']).isPrefixOf l) LS = none := by
      rw [List.find?_eq_none]
      intro x hx'
      exact List.any_eq_false.mp hany x hx'
    rw [find?_append_right _ LS [k ++ '=' :: v] hnone]
    exact List.find?_cons_of_pos _ hx
  | true =>
    simp only [if_true]
    obtain ⟨pre, m, post, hlm⟩ := lineMatch_isSome_of_any hany
    obtain ⟨hdec, hsk, hpre⟩ := lineMatch_decomp hlm
    rw [hdec, replFirst_decomp hpre hsk]
    unfold firstKeyLine
    exact find?_middle _ pre _ post
      (fun l hl => by
        have := hpre l hl
        rw [show ((k ++ ['=']).isPrefixOf l : Bool) = startsKey k l from rfl, this])
      hx

theorem firstKeyLine_lineUpdate_other {k k' : Chars} (v' : Chars)
    (hno : noOverlap k k') (LS : List Chars) :
    firstKeyLine k (lineUpdate k' v' LS) = firstKeyLine k LS := by
  have hnew : (k ++ ['=']).isPrefixOf (k' ++ '=' :: v') = false :=
    startsKey_newLine_false hno
  unfold lineUpdate
  cases hany : LS.any (fun l => (k' ++ ['=']).isPrefixOf l) with
  | false =>
    simp only [Bool.false_eq_true, if_false]
    unfold firstKeyLine
    exact find?_append_single _ LS _ hnew
  | true =>
    simp only [if_true]
    obtain ⟨pre, m, post, hlm⟩ := lineMatch_isSome_of_any hany
    obtain ⟨hdec, hsk, hpre⟩ := lineMatch_decomp hlm
    rw [hdec, replFirst_decomp hpre hsk]
    unfold firstKeyLine
    refine find?_congr_middle _ pre _ _ post hnew ?_
    cases hskm : startsKey k m with
    | false => exact hskm
    | true => exact absurd (startsKey_unique hskm hsk hno) (fun h => h)

theorem lineUpdate_fixed {k v : Chars} {LS : List Chars}
    (h : firstKeyLine k LS = some (k ++ '=' :: v)) :
    lineUpdate k v LS = LS := by
  have hmem := List.mem_of_find?_eq_some h
  have hp := List.find?_some h
  unfold lineUpdate
  rw [show LS.any (fun l => (k ++ ['=']).isPrefixOf l) = true from
    List.any_eq_true.mpr ⟨_, hmem, hp⟩]
  simp only [if_true]
  clear hmem hp
  induction LS with
  | nil => rfl
  | cons a LS' ih =>
    unfold replFirst
    by_cases ha : (k ++ ['=']).isPrefixOf a = true
    · rw [if_pos ha]
      unfold firstKeyLine at h
      rw [List.find?_cons_of_pos LS' ha] at h
      injection h with h1
      rw [h1]
    · rw [if_neg ha]
      unfold firstKeyLine at h
      rw [List.find?_cons_of_neg LS' ha] at h
      rw [ih h]

theorem lineFold_preserves_firstKey (k : Chars) :
    ∀ (U : List (Chars × Chars)) (LS : List Chars),
      (∀ kv ∈ U, noOverlap k kv.1) →
      firstKeyLine k (lineFold U LS) = firstKeyLine k LS := by
  intro U
  induction U with
  | nil => intro LS _; rfl
  | cons kv U' ih =>
    intro LS h
    show firstKeyLine k (lineFold U' (lineUpdate kv.1 kv.2 LS)) = _
    rw [ih _ (fun x hx => h x (List.mem_cons_of_mem kv hx)),
        firstKeyLine_lineUpdate_other kv.2 (h kv (List.mem_cons_self kv U')) LS]

theorem lineFold_establishes :
    ∀ (U : List (Chars × Chars)) (LS : List Chars), keysOK U →
      ∀ kv ∈ U, firstKeyLine kv.1 (lineFold U LS) =
        some (kv.1 ++ '=' :: kv.2) := by
  intro U
  induction U with
  | nil => intro LS _ kv h; cases h
  | cons kv0 U' ih =>
    intro LS hOK kv hkv
    have hOK' : keysOK U' := (List.pairwise_cons.mp hOK).2
    have hrel : ∀ b ∈ U'.map (·.1), noOverlap kv0.1 b :=
      (List.pairwise_cons.mp hOK).1
    rcases List.mem_cons.mp hkv with rfl | hkv'
    · show firstKeyLine kv.1 (lineFold U' (lineUpdate kv.1 kv.2 LS)) = _
      rw [lineFold_preserves_firstKey kv.1 U' _
        (fun x hx => hrel x.1 (List.mem_map_of_mem (·.1) hx))]
      exact firstKeyLine_lineUpdate_self kv.1 kv.2 LS
    · show firstKeyLine kv.1 (lineFold U' (lineUpdate kv0.1 kv0.2 LS)) = _
      exact ih _ hOK' kv hkv'

theorem lineFold_id_of_firstKeys :
    ∀ (U : List (Chars × Chars)) (LS : List Chars),
      (∀ kv ∈ U, firstKeyLine kv.1 LS = some (kv.1 ++ '=' :: kv.2)) →
      lineFold U LS = LS := by
  intro U
  induction U with
  | nil => intro LS _; rfl
  | cons kv U' ih =>
    intro LS h
    show lineFold U' (lineUpdate kv.1 kv.2 LS) = LS
    rw [lineUpdate_fixed (h kv (List.mem_cons_self kv U'))]
    exact ih LS (fun x hx => h x (List.mem_cons_of_mem kv hx))

theorem lineFold_fixpoint (U : List (Chars × Chars)) (hOK : keysOK U)
    (LS : List Chars) : lineFold U (lineFold U LS) = lineFold U LS :=
  lineFold_id_of_firstKeys U _
    (fun kv hkv => lineFold_establishes U LS hOK kv hkv)

theorem dropWhile_head_false {p : Char → Bool} {a : Char} {l : Chars}
    (h : List.dropWhile p (a :: l) = a :: l) : p a = false := by
  cases hp : p a with
  | false => rfl
  | true =>
    rw [List.dropWhile_cons, hp] at h
    simp only [if_true] at h
    have hle := (@List.dropWhile_suffix Char l p).length_le
    rw [h] at hle
    simp at hle

theorem ltrim_eq_of_trimFixed {s : Chars} (h : jsTrim s = s) :
    s.dropWhile jsSpace = s := by
  have h1 : (s.dropWhile jsSpace).length ≤ s.length :=
    (List.dropWhile_suffix jsSpace).length_le
  have h2 : (((s.dropWhile jsSpace).reverse.dropWhile jsSpace)).length ≤
      (s.dropWhile jsSpace).length := by
    have := (@List.dropWhile_suffix Char (s.dropWhile jsSpace).reverse
      jsSpace).length_le
    simpa using this
  have h3 : (jsTrim s).length =
      ((s.dropWhile jsSpace).reverse.dropWhile jsSpace).length := by
    unfold jsTrim
    simp
  rw [h] at h3
  have hlen : (s.dropWhile jsSpace).length = s.length := by omega
  exact (List.dropWhile_suffix jsSpace).eq_of_length hlen

theorem rtrim_eq_of_trimFixed {s : Chars} (h : jsTrim s = s) :
    (s.reverse.dropWhile jsSpace).reverse = s := by
  have := h
  unfold jsTrim at this
  rw [ltrim_eq_of_trimFixed h] at this
  exact this

theorem trimFixed_head_nonspace {kh : Char} {kt : Chars}
    (h : jsTrim (kh :: kt) = kh :: kt) : jsSpace kh = false :=
  dropWhile_head_false (ltrim_eq_of_trimFixed h)

theorem dropWhile_append_stopchar {p : Char → Bool} :
    ∀ (X : Chars) (c : Char) (Y : Chars), p c = false →
      List.dropWhile p (X ++ c :: Y) = X.dropWhile p ++ c :: Y := by
  intro X
  induction X with
  | nil =>
    intro c Y hc
    show List.dropWhile p (c :: Y) = List.dropWhile p [] ++ c :: Y
    rw [List.dropWhile_cons, hc]
    simp
  | cons a X' ih =>
    intro c Y hc
    show List.dropWhile p (a :: (X' ++ c :: Y)) = _
    rw [List.dropWhile_cons, List.dropWhile_cons]
    cases hp : p a with
    | true =>
      simp only [if_true]
      exact ih c Y hc
    | false =>
      simp only [Bool.false_eq_true, if_false]
      rfl

theorem jsTrim_key_line {k : Chars} (rest : Chars) (hkne : k ≠ [])
    (hkt : jsTrim k = k) :
    jsTrim (k ++ '=' :: rest) =
      k ++ '=' :: (rest.reverse.dropWhile jsSpace).reverse := by
  obtain ⟨kh, kt, rfl⟩ : ∃ kh kt, k = kh :: kt := by
    cases k with
    | nil => exact absurd rfl hkne
    | cons a b => exact ⟨a, b, rfl⟩
  have hh : jsSpace kh = false := trimFixed_head_nonspace hkt
  unfold jsTrim
  rw [show ((kh :: kt) ++ '=' :: rest).dropWhile jsSpace =
        (kh :: kt) ++ '=' :: rest from by
    show List.dropWhile jsSpace (kh :: (kt ++ '=' :: rest)) = _
    rw [List.dropWhile_cons, hh]
    simp]
  rw [show ((kh :: kt) ++ '=' :: rest).reverse =
        rest.reverse ++ '=' :: (kh :: kt).reverse from by simp]
  rw [dropWhile_append_stopchar rest.reverse '=' ((kh :: kt).reverse)
    (by rfl)]
  simp

theorem mem_of_mem_rtrim {c : Char} {rest : Chars}
    (h : c ∈ (rest.reverse.dropWhile jsSpace).reverse) : c ∈ rest := by
  rw [List.mem_reverse] at h
  have h2 := (List.dropWhile_suffix jsSpace).subset h
  rwa [List.mem_reverse] at h2

theorem parseLine_key_line {k : Chars} (rest : Chars)
    (hgk : goodKey k = true)
    (hrest : ∀ c ∈ rest, isLineTerm c = false) :
    parseLine (k ++ '=' :: rest) =
      some (k, jsTrim ((rest.reverse.dropWhile jsSpace).reverse)) := by
  simp only [goodKey, Bool.and_eq_true, List.all_eq_true, Bool.not_eq_true',
    List.isEmpty_iff, decide_eq_true_eq, ne_eq] at hgk
  obtain ⟨⟨⟨hne0, htf⟩, hhash⟩, hall⟩ := hgk
  have hne : k ≠ [] := by
    intro h
    subst h
    simp at hne0
  have hsplit : jsTrim (k ++ '=' :: rest) =
      k ++ '=' :: (rest.reverse.dropWhile jsSpace).reverse :=
    jsTrim_key_line rest hne htf
  obtain ⟨hpre, -⟩ :=
    takeWhile_append_stop k ('=' :: (rest.reverse.dropWhile jsSpace).reverse)
      (fun c hc => decide_eq_true (hall c hc).1.2)
      (Or.inr ⟨'=', (rest.reverse.dropWhile jsSpace).reverse, rfl, by decide⟩)
  have hdrop : (k ++ '=' :: (rest.reverse.dropWhile jsSpace).reverse).drop
      (k.length + 1) = (rest.reverse.dropWhile jsSpace).reverse := by
    rw [show k ++ '=' :: (rest.reverse.dropWhile jsSpace).reverse =
      (k ++ ['=']) ++ (rest.reverse.dropWhile jsSpace).reverse from by simp,
      show k.length + 1 = (k ++ ['=']).length from by simp,
      List.drop_left]
  obtain ⟨kh, kt, rfl⟩ : ∃ kh kt, k = kh :: kt := by
    cases k with
    | nil => exact absurd rfl hne
    | cons a b => exact ⟨a, b, rfl⟩
  have hkh : kh ≠ '#' := by
    intro h
    exact hhash (by rw [h]; rfl)
  simp only [parseLine]
  rw [hsplit, hpre, hdrop]
  rw [if_neg (by simp)]
  rw [if_neg (by
    show ¬ (kh :: (kt ++ '=' :: _)).head? = some '#'
    simp [hkh])]
  rw [if_neg hne]
  rw [if_neg (by simp)]
  rw [if_pos (by
    simp only [List.all_eq_true, Bool.not_eq_true']
    intro c hc
    exact hrest c (mem_of_mem_rtrim hc))]
  rw [htf]

theorem parseLine_keyVal {k v : Chars} (hgk : goodKey k = true)
    (hv : jsTrim v = v) (hvt : ∀ c ∈ v, isLineTerm c = false) :
    parseLine (k ++ '=' :: v) = some (k, v) := by
  rw [parseLine_key_line v hgk hvt, rtrim_eq_of_trimFixed hv, hv]

theorem parseLine_of_startsKey {k l : Chars} (hgk : goodKey k = true)
    (hsk : startsKey k l = true) (hl : ∀ c ∈ l, isLineTerm c = false) :
    ∃ w, parseLine l = some (k, w) := by
  have hp : (k ++ ['=']) <+: l := by
    rw [← List.isPrefixOf_iff_prefix]
    exact hsk
  obtain ⟨t, rfl⟩ := hp
  refine ⟨jsTrim ((t.reverse.dropWhile jsSpace).reverse), ?_⟩
  rw [show (k ++ ['=']) ++ t = k ++ '=' :: t from by simp]
  exact parseLine_key_line t hgk (fun c hc => hl c (by simp [hc]))

theorem envLookup_envInsert :
    ∀ (m : List (Chars × Chars)) (a b k : Chars),
      envLookup (envInsert m a b) k =
        if a = k then some b else envLookup m k := by
  intro m
  induction m with
  | nil =>
    intro a b k
    rfl
  | cons p rest ih =>
    intro a b k
    obtain ⟨k', v'⟩ := p
    show envLookup (if k' = a then (k', b) :: rest
      else (k', v') :: envInsert rest a b) k = _
    by_cases hka : k' = a
    · subst hka
      rw [if_pos rfl]
      show (if k' = k then some b else envLookup rest k) = _
      by_cases hkk : k' = k
      · rw [if_pos hkk, if_pos hkk]
      · rw [if_neg hkk, if_neg hkk]
        show envLookup rest k = if k' = k then some v' else envLookup rest k
        rw [if_neg hkk]
    · rw [if_neg hka]
      show (if k' = k then some v' else envLookup (envInsert rest a b) k) = _
      by_cases hkk : k' = k
      · subst hkk
        rw [if_pos rfl, if_neg (fun h => hka h.symm)]
        exact (if_pos rfl).symm
      · rw [if_neg hkk, ih a b k]
        by_cases hak : a = k
        · rw [if_pos hak, if_pos hak]
        · rw [if_neg hak, if_neg hak]
          exact (if_neg hkk).symm

theorem parseFold_lookup :
    ∀ (ls : List Chars) (m : List (Chars × Chars)) (k : Chars),
      envLookup (ls.foldl
        (fun m l => match parseLine l with
          | some (a, b) => envInsert m a b
          | none => m) m) k =
        match lastParsedVal k ls with
        | some v => some v
        | none => envLookup m k := by
  intro ls
  induction ls with
  | nil =>
    intro m k
    rfl
  | cons l ls' ih =>
    intro m k
    rw [List.foldl_cons]
    rw [ih]
    show _ = (match
        (match lastParsedVal k ls' with
         | some v => some v
         | none =>
           match parseLine l with
           | some (a, b) => if a = k then some b else none
           | none => none) with
      | some v => some v
      | none => envLookup m k)
    cases hlast : lastParsedVal k ls' with
    | some v => rfl
    | none =>
      cases hpl : parseLine l with
      | none => rfl
      | some p =>
        obtain ⟨a, b⟩ := p
        show envLookup (envInsert m a b) k = _
        rw [envLookup_envInsert]
        by_cases hak : a = k <;> simp [hak]

theorem parseEnvLines_eq_lastParsedVal (ls : List Chars) (k : Chars) :
    envLookup (parseEnvLines ls) k =
      match lastParsedVal k ls with
      | some v => some v
      | none => none := by
  rw [parseEnvLines, parseFold_lookup]
  cases lastParsedVal k ls <;> rfl

theorem lastParsedVal_append (k : Chars) :
    ∀ (ls1 ls2 : List Chars),
      lastParsedVal k (ls1 ++ ls2) =
        match lastParsedVal k ls2 with
        | some v => some v
        | none => lastParsedVal k ls1 := by
  intro ls1
  induction ls1 with
  | nil =>
    intro ls2
    rw [List.nil_append]
    cases lastParsedVal k ls2 <;> rfl
  | cons l ls' ih =>
    intro ls2
    show (match lastParsedVal k (ls' ++ ls2) with
      | some v => some v
      | none =>
        match parseLine l with
        | some (a, b) => if a = k then some b else none
        | none => none) = _
    rw [ih ls2]
    cases hl2 : lastParsedVal k ls2 with
    | some v => rfl
    | none => rfl

theorem lastParsedVal_singleton_other {k k' v' : Chars}
    (hgk' : goodKey k' = true) (hkk : k' ≠ k)
    (hv' : ∀ c ∈ v', isLineTerm c = false) :
    lastParsedVal k [k' ++ '=' :: v'] = none := by
  show (match (none : Option Chars) with
    | some v => some v
    | none =>
      match parseLine (k' ++ '=' :: v') with
      | some (a, b) => if a = k then some b else none
      | none => none) = none
  rw [parseLine_key_line v' hgk' hv']
  show (if k' = k
    then some (jsTrim ((v'.reverse.dropWhile jsSpace).reverse))
    else none) = none
  rw [if_neg hkk]

theorem lastParsedVal_lineUpdate_other {k k' v' : Chars} {LS : List Chars}
    (hgk' : goodKey k' = true) (hkk : k' ≠ k)
    (hv' : ∀ c ∈ v', isLineTerm c = false)
    (hLS : ∀ l ∈ LS, ∀ ch ∈ l, isLineTerm ch = false) :
    lastParsedVal k (lineUpdate k' v' LS) = lastParsedVal k LS := by
  unfold lineUpdate
  cases hany : LS.any (fun l => (k' ++ ['=']).isPrefixOf l) with
  | false =>
    simp only [Bool.false_eq_true, if_false]
    rw [lastParsedVal_append, lastParsedVal_singleton_other hgk' hkk hv']
  | true =>
    simp only [if_true]
    obtain ⟨pre, m, post, hlm⟩ := lineMatch_isSome_of_any hany
    obtain ⟨hdec, hsm, hpre⟩ := lineMatch_decomp hlm
    subst hdec
    rw [replFirst_decomp hpre hsm]
    rw [lastParsedVal_append, lastParsedVal_append]
    obtain ⟨w, hw⟩ := parseLine_of_startsKey hgk' hsm
      (hLS m (by simp))
    have hm1 : lastParsedVal k ((k' ++ '=' :: v') :: post) =
        lastParsedVal k post ∨
        (lastParsedVal k ((k' ++ '=' :: v') :: post) = none ∧
         lastParsedVal k post = none) := by
      show (match lastParsedVal k post with
        | some v => some v
        | none =>
          match parseLine (k' ++ '=' :: v') with
          | some (a, b) => if a = k then some b else none
          | none => none) = _ ∨ _
      rw [parseLine_key_line v' hgk' hv']
      cases hp : lastParsedVal k post with
      | some w2 => exact Or.inl rfl
      | none =>
        refine Or.inr ⟨?_, rfl⟩
        show (match lastParsedVal k post with
          | some v => some v
          | none =>
            match parseLine (k' ++ '=' :: v') with
            | some (a, b) => if a = k then some b else none
            | none => none) = none
        rw [hp, parseLine_key_line v' hgk' hv']
        show (if k' = k
          then some (jsTrim ((v'.reverse.dropWhile jsSpace).reverse))
          else none) = none
        rw [if_neg hkk]
    have hm2 : lastParsedVal k (m :: post) =
        match lastParsedVal k post with
        | some v => some v
        | none => none := by
      show (match lastParsedVal k post with
        | some v => some v
        | none =>
          match parseLine m with
          | some (a, b) => if a = k then some b else none
          | none => none) = _
      rw [hw]
      cases lastParsedVal k post with
      | some w2 => rfl
      | none =>
        show (if k' = k then some w else none) = none
        rw [if_neg hkk]
    cases hp : lastParsedVal k post with
    | some w2 =>
      rw [hp] at hm2
      rcases hm1 with h | ⟨h1, h2⟩
      · rw [h, hp, hm2]
      · rw [hp] at h2
        cases h2
    | none =>
      rw [hp] at hm2
      rcases hm1 with h | ⟨h1, h2⟩
      · rw [h, hp, hm2]
      · rw [h1, hm2]

theorem lastParsedVal_lineUpdate_self {k v : Chars} {LS : List Chars}
    (hgk : goodKey k = true) (hv : jsTrim v = v)
    (hvt : ∀ c ∈ v, isLineTerm c = false) :
    lastParsedVal k (lineUpdate k v LS) = some v ∨
      lastParsedVal k (lineUpdate k v LS) = lastParsedVal k LS := by
  unfold lineUpdate
  cases hany : LS.any (fun l => (k ++ ['=']).isPrefixOf l) with
  | false =>
    left
    simp only [Bool.false_eq_true, if_false]
    rw [lastParsedVal_append]
    rw [show lastParsedVal k [k ++ '=' :: v] = some v from by
      show (match (none : Option Chars) with
        | some w => some w
        | none =>
          match parseLine (k ++ '=' :: v) with
          | some (a, b) => if a = k then some b else none
          | none => none) = some v
      rw [parseLine_keyVal hgk hv hvt]
      simp]
  | true =>
    simp only [if_true]
    obtain ⟨pre, m, post, hlm⟩ := lineMatch_isSome_of_any hany
    obtain ⟨hdec, hsm, hpre⟩ := lineMatch_decomp hlm
    subst hdec
    rw [replFirst_decomp hpre hsm]
    rw [lastParsedVal_append]
    have hmid : lastParsedVal k ((k ++ '=' :: v) :: post) =
        match lastParsedVal k post with
        | some w => some w
        | none => some v := by
      show (match lastParsedVal k post with
        | some w => some w
        | none =>
          match parseLine (k ++ '=' :: v) with
          | some (a, b) => if a = k then some b else none
          | none => none) = _
      rw [parseLine_keyVal hgk hv hvt]
      cases lastParsedVal k post with
      | some w => rfl
      | none => simp
    cases hp : lastParsedVal k post with
    | none =>
      left
      rw [hmid, hp]
    | some w =>
      right
      rw [hmid, hp, lastParsedVal_append]
      show some w = match lastParsedVal k (m :: post) with
        | some u => some u
        | none => lastParsedVal k pre
      rw [show lastParsedVal k (m :: post) = some w from by
        show (match lastParsedVal k post with
          | some u => some u
          | none => _) = some w
        rw [hp]]

theorem dropWhile_idem {p : Char → Bool} : ∀ (l : Chars),
    (l.dropWhile p).dropWhile p = l.dropWhile p := by
  intro l
  induction l with
  | nil => rfl
  | cons a t ih => cases hp : p a <;> simp [List.dropWhile_cons, hp, ih]

theorem mem_of_mem_jsTrim {c : Char} {s : Chars} (h : c ∈ jsTrim s) :
    c ∈ s := by
  unfold jsTrim at h
  rw [List.mem_reverse] at h
  have h2 := (List.dropWhile_suffix jsSpace).subset h
  rw [List.mem_reverse] at h2
  exact (List.dropWhile_suffix jsSpace).subset h2

theorem jsTrim_idem (s : Chars) : jsTrim (jsTrim s) = jsTrim s := by
  have hrt : (jsTrim s).reverse =
      (s.dropWhile jsSpace).reverse.dropWhile jsSpace := by
    unfold jsTrim
    simp
  have step2 : ((jsTrim s).reverse.dropWhile jsSpace).reverse = jsTrim s := by
    rw [hrt, dropWhile_idem, ← hrt, List.reverse_reverse]
  have step1 : (jsTrim s).dropWhile jsSpace = jsTrim s := by
    cases ht : jsTrim s with
    | nil => rfl
    | cons a t' =>
      have hpref : jsTrim s <+: s.dropWhile jsSpace := by
        apply List.reverse_suffix.mp
        rw [hrt]
        exact List.dropWhile_suffix jsSpace
      obtain ⟨r, hr⟩ := hpref
      rw [ht] at hr
      have hu : s.dropWhile jsSpace = a :: (t' ++ r) := by
        rw [← hr]
        rfl
      have ha : jsSpace a = false := by
        apply dropWhile_head_false
        rw [← hu, dropWhile_idem, hu]
      rw [List.dropWhile_cons, ha]
      simp
  show (((jsTrim s).dropWhile jsSpace).reverse.dropWhile jsSpace).reverse =
    jsTrim s
  rw [step1, step2]

theorem trimFixed_append {x y : Chars} (hx : jsTrim x = x) (hxne : x ≠ [])
    (hy : jsTrim y = y) : jsTrim (x ++ y) = x ++ y := by
  obtain ⟨a, x', rfl⟩ : ∃ a x', x = a :: x' := by
    cases x with
    | nil => exact absurd rfl hxne
    | cons p q => exact ⟨p, q, rfl⟩
  have hax : jsSpace a = false := trimFixed_head_nonspace hx
  have hltrim : ((a :: x') ++ y).dropWhile jsSpace = (a :: x') ++ y := by
    show List.dropWhile jsSpace (a :: (x' ++ y)) = _
    rw [List.dropWhile_cons, hax]
    simp
  show ((((a :: x') ++ y).dropWhile jsSpace).reverse.dropWhile jsSpace).reverse
    = (a :: x') ++ y
  rw [hltrim]
  cases hyy : y.reverse with
  | nil =>
    have hynil : y = [] := by
      have := congrArg List.reverse hyy
      simpa using this
    subst hynil
    rw [List.append_nil]
    exact rtrim_eq_of_trimFixed hx
  | cons b yt =>
    have hrty : y.reverse.dropWhile jsSpace = y.reverse := by
      have h2 := congrArg List.reverse (rtrim_eq_of_trimFixed hy)
      simpa using h2
    rw [hyy] at hrty
    have hb : jsSpace b = false := dropWhile_head_false hrty
    have hbig : ((a :: x') ++ y).reverse = b :: (yt ++ (a :: x').reverse) := by
      rw [List.reverse_append, hyy]
      rfl
    rw [hbig, List.dropWhile_cons, hb]
    simp only [Bool.false_eq_true, if_false]
    rw [← hbig, List.reverse_reverse]

theorem orDefault_ne_nil {o : Option Chars} {d : Chars} (hd : d ≠ []) :
    orDefault o d ≠ [] := by
  cases o with
  | none => exact hd
  | some v =>
    show (if v.isEmpty then d else v) ≠ []
    cases hv : v.isEmpty with
    | true => simpa using hd
    | false =>
      simp only [Bool.false_eq_true, if_false]
      intro h
      rw [h] at hv
      cases hv

theorem orDefault_absorb {o : Option Chars} {d : Chars} (hd : d ≠ []) :
    orDefault (some (orDefault o d)) d = orDefault o d := by
  show (if (orDefault o d).isEmpty then d else orDefault o d) = orDefault o d
  cases he : (orDefault o d).isEmpty with
  | true =>
    exact absurd (by simpa using he) (orDefault_ne_nil hd)
  | false => simp

theorem parseLine_props {l : Chars} {a b : Chars}
    (h : parseLine l = some (a, b)) :
    jsTrim b = b ∧ (∀ c ∈ b, c ∈ l) := by
  simp only [parseLine] at h
  split_ifs at h with h1 h2 h3 h4 h5
  · injection h with hp
    obtain ⟨hp1, hp2⟩ := Prod.mk.inj hp
    subst hp2
    constructor
    · exact jsTrim_idem _
    · intro c hc
      have hc2 := mem_of_mem_jsTrim hc
      have hc3 := List.drop_subset _ _ hc2
      exact mem_of_mem_jsTrim hc3

theorem lastParsedVal_exists_line {k : Chars} :
    ∀ {ls : List Chars} {w : Chars},
      lastParsedVal k ls = some w → ∃ l ∈ ls, parseLine l = some (k, w) := by
  intro ls
  induction ls with
  | nil => intro w h; cases h
  | cons l ls' ih =>
    intro w h
    rw [show lastParsedVal k (l :: ls') =
        (match lastParsedVal k ls' with
         | some v => some v
         | none =>
           match parseLine l with
           | some (a, b) => if a = k then some b else none
           | none => none) from rfl] at h
    cases hrec : lastParsedVal k ls' with
    | some v =>
      rw [hrec] at h
      injection h with h1
      subst h1
      obtain ⟨l2, hl2, hp⟩ := ih hrec
      exact ⟨l2, List.mem_cons_of_mem l hl2, hp⟩
    | none =>
      rw [hrec] at h
      have h2 : (match parseLine l with
        | some (a, b) => if a = k then some b else none
        | none => none) = some w := h
      cases hpl : parseLine l with
      | none =>
        rw [hpl] at h2
        simp at h2
      | some p =>
        obtain ⟨a, b⟩ := p
        rw [hpl] at h2
        have h3 : (if a = k then some b else none) = some w := h2
        by_cases hak : a = k
        · rw [if_pos hak] at h3
          injection h3 with h1
          exact ⟨l, List.mem_cons_self l ls', by rw [hpl, hak, h1]⟩
        · rw [if_neg hak] at h3
          exact Option.noConfusion h3

theorem parsed_value_props {c : Chars} (hc : cleanContent c = true)
    {k w : Chars} (h : envLookup (parseEnvContent c) k = some w) :
    jsTrim w = w ∧ (∀ ch ∈ w, isLineTerm ch = false) ∧ '$' ∉ w := by
  have hl : envLookup (parseEnvLines (splitNL c)) k = some w := h
  rw [parseEnvLines_eq_lastParsedVal] at hl
  have hlast : lastParsedVal k (splitNL c) = some w := by
    cases hx : lastParsedVal k (splitNL c) with
    | some v =>
      rw [hx] at hl
      exact hl
    | none =>
      rw [hx] at hl
      exact Option.noConfusion hl
  obtain ⟨l, hlmem, hpl⟩ := lastParsedVal_exists_line hlast
  obtain ⟨htw, hsub⟩ := parseLine_props hpl
  simp only [cleanContent, List.all_eq_true, Bool.and_eq_true,
    Bool.or_eq_true, decide_eq_true_eq, Bool.not_eq_true', ne_eq] at hc
  have hnl := no_nl_mem_splitNL hlmem
  refine ⟨htw, ?_, ?_⟩
  · intro ch hch
    have hchl := hsub ch hch
    have hchc := mem_of_mem_splitNL hlmem hchl
    rcases (hc ch hchc).1 with heq | hterm
    · exact absurd (heq ▸ hchl) hnl
    · exact hterm
  · intro hd
    have hchl := hsub '$' hd
    have hchc := mem_of_mem_splitNL hlmem hchl
    exact (hc '$' hchc).2 rfl

theorem lineFold_clean {U : List (Chars × Chars)}
    (hU : ∀ kv ∈ U, goodEntry kv) :
    ∀ {LS : List Chars}, (∀ l ∈ LS, ∀ ch ∈ l, isLineTerm ch = false) →
      ∀ l ∈ lineFold U LS, ∀ ch ∈ l, isLineTerm ch = false := by
  induction U with
  | nil =>
    intro LS h
    exact h
  | cons kv U' ih =>
    intro LS h
    have e : lineFold (kv :: U') LS =
        lineFold U' (lineUpdate kv.1 kv.2 LS) := rfl
    rw [e]
    exact ih (fun kv2 h2 => hU kv2 (List.mem_cons_of_mem kv h2))
      (lineUpdate_clean (hU kv (List.mem_cons_self kv U')).1
        (hU kv (List.mem_cons_self kv U')).2.2.2 h)

theorem lineFold_ne_nil (U : List (Chars × Chars)) :
    ∀ {LS : List Chars}, LS ≠ [] → lineFold U LS ≠ [] := by
  induction U with
  | nil =>
    intro LS h
    exact h
  | cons kv U' ih =>
    intro LS h
    have e : lineFold (kv :: U') LS =
        lineFold U' (lineUpdate kv.1 kv.2 LS) := rfl
    rw [e]
    exact ih (lineUpdate_ne_nil h)

theorem foldl_updateOne_lines (ev : List (Chars × Chars)) :
    ∀ (U : List (Chars × Chars)) (c : Chars) (b : Bool),
      (∀ kv ∈ U, goodEntry kv) →
      (∀ l ∈ splitNL c, ∀ ch ∈ l, isLineTerm ch = false) →
      (U.foldl (updateOne ev false) (c, b)).1 =
        joinNL (lineFold U (splitNL c)) := by
  intro U
  induction U with
  | nil =>
    intro c b _ _
    exact (joinNL_splitNL c).symm
  | cons kv U' ih =>
    intro c b hU hc
    obtain ⟨hk, hkd, hvd, hvt⟩ := hU kv (List.mem_cons_self kv U')
    have hstep : (updateOne ev false (c, b) kv).1 =
        joinNL (lineUpdate kv.1 kv.2 (splitNL c)) :=
      updateOne_lines ev c b kv.1 kv.2 hk hkd hvd hvt hc
    have hcl : ∀ l ∈ lineUpdate kv.1 kv.2 (splitNL c),
        ∀ ch ∈ l, isLineTerm ch = false :=
      lineUpdate_clean hk hvt hc
    have hsp : splitNL (updateOne ev false (c, b) kv).1 =
        lineUpdate kv.1 kv.2 (splitNL c) := by
      rw [hstep]
      exact splitNL_joinNL (lineUpdate_ne_nil (splitNL_ne_nil c))
        (fun l hl => newline_free_of_clean (hcl l hl))
    have e : (kv :: U').foldl (updateOne ev false) (c, b) =
        U'.foldl (updateOne ev false) (updateOne ev false (c, b) kv) := rfl
    rw [e]
    have hrec := ih (updateOne ev false (c, b) kv).1
      (updateOne ev false (c, b) kv).2
      (fun kv2 h2 => hU kv2 (List.mem_cons_of_mem kv h2))
      (by rw [hsp]; exact hcl)
    rw [show ((updateOne ev false (c, b) kv).1,
        (updateOne ev false (c, b) kv).2) =
        updateOne ev false (c, b) kv from rfl] at hrec
    rw [hrec, hsp]
    rfl

theorem updateEnvFileContent_lines (c : Chars) (U : List (Chars × Chars))
    (hU : ∀ kv ∈ U, goodEntry kv)
    (hc : ∀ l ∈ splitNL c, ∀ ch ∈ l, isLineTerm ch = false) :
    (updateEnvFileContent c U false).1 = joinNL (lineFold U (splitNL c)) :=
  foldl_updateOne_lines (parseEnvContent c) U c false hU hc

theorem updateEnvFileContent_idem (c : Chars) (U : List (Chars × Chars))
    (hOK : keysOK U) (hU : ∀ kv ∈ U, goodEntry kv)
    (hc : ∀ l ∈ splitNL c, ∀ ch ∈ l, isLineTerm ch = false) :
    (updateEnvFileContent (updateEnvFileContent c U false).1 U false).1 =
      (updateEnvFileContent c U false).1 := by
  have h1 := updateEnvFileContent_lines c U hU hc
  have hcl := lineFold_clean hU hc
  have hsp : splitNL (updateEnvFileContent c U false).1 =
      lineFold U (splitNL c) := by
    rw [h1]
    exact splitNL_joinNL (lineFold_ne_nil U (splitNL_ne_nil c))
      (fun l hl => newline_free_of_clean (hcl l hl))
  have h2 := updateEnvFileContent_lines (updateEnvFileContent c U false).1 U
    hU (by rw [hsp]; exact hcl)
  rw [h2, hsp, lineFold_fixpoint U hOK, h1]

theorem envLookup_parseEnvLines (ls : List Chars) (k : Chars) :
    envLookup (parseEnvLines ls) k = lastParsedVal k ls := by
  rw [parseEnvLines_eq_lastParsedVal]
  cases lastParsedVal k ls <;> rfl

theorem lastParsedVal_lineFold (k : Chars) :
    ∀ (U : List (Chars × Chars)) (LS : List Chars),
      (∀ kv ∈ U, goodEntry kv ∧ goodKey kv.1 = true ∧ jsTrim kv.2 = kv.2) →
      (∀ l ∈ LS, ∀ ch ∈ l, isLineTerm ch = false) →
      (∃ v, (k, v) ∈ U ∧ lastParsedVal k (lineFold U LS) = some v) ∨
        lastParsedVal k (lineFold U LS) = lastParsedVal k LS := by
  intro U
  induction U with
  | nil =>
    intro LS _ _
    exact Or.inr rfl
  | cons kv U' ih =>
    intro LS hU hLS
    obtain ⟨hge, hgk, htv⟩ := hU kv (List.mem_cons_self kv U')
    have e : lineFold (kv :: U') LS =
        lineFold U' (lineUpdate kv.1 kv.2 LS) := rfl
    have hLS' : ∀ l ∈ lineUpdate kv.1 kv.2 LS,
        ∀ ch ∈ l, isLineTerm ch = false :=
      lineUpdate_clean hge.1 hge.2.2.2 hLS
    have hrec := ih (lineUpdate kv.1 kv.2 LS)
      (fun kv2 h2 => hU kv2 (List.mem_cons_of_mem kv h2)) hLS'
    rw [e]
    rcases hrec with ⟨v, hv1, hv2⟩ | heq
    · exact Or.inl ⟨v, List.mem_cons_of_mem kv hv1, hv2⟩
    · by_cases hkk : kv.1 = k
      · subst hkk
        rcases @lastParsedVal_lineUpdate_self kv.1 kv.2 LS hgk htv
            hge.2.2.2 with hs | hs
        · exact Or.inl ⟨kv.2, List.mem_cons_self kv U', heq.trans hs⟩
        · exact Or.inr (heq.trans hs)
      · exact Or.inr (heq.trans
          (lastParsedVal_lineUpdate_other hgk hkk hge.2.2.2 hLS))

theorem envLookup_after_update (c : Chars) (U : List (Chars × Chars))
    (k : Chars)
    (hU : ∀ kv ∈ U, goodEntry kv ∧ goodKey kv.1 = true ∧ jsTrim kv.2 = kv.2)
    (hc : ∀ l ∈ splitNL c, ∀ ch ∈ l, isLineTerm ch = false) :
    (∃ v, (k, v) ∈ U ∧
      envLookup (parseEnvContent (updateEnvFileContent c U false).1) k =
        some v) ∨
      envLookup (parseEnvContent (updateEnvFileContent c U false).1) k =
        envLookup (parseEnvContent c) k := by
  have h1 := updateEnvFileContent_lines c U (fun kv h => (hU kv h).1) hc
  have hcl := lineFold_clean (fun kv h => (hU kv h).1) hc
  have hsp : splitNL (updateEnvFileContent c U false).1 =
      lineFold U (splitNL c) := by
    rw [h1]
    exact splitNL_joinNL (lineFold_ne_nil U (splitNL_ne_nil c))
      (fun l hl => newline_free_of_clean (hcl l hl))
  have e1 : envLookup
      (parseEnvContent (updateEnvFileContent c U false).1) k =
      lastParsedVal k (lineFold U (splitNL c)) := by
    show envLookup
      (parseEnvLines (splitNL (updateEnvFileContent c U false).1)) k = _
    rw [envLookup_parseEnvLines, hsp]
  have e2 : envLookup (parseEnvContent c) k =
      lastParsedVal k (splitNL c) := envLookup_parseEnvLines (splitNL c) k
  rw [e1, e2]
  exact lastParsedVal_lineFold k U (splitNL c) hU hc

theorem updateEnvFile_some (c : Chars) (U : List (Chars × Chars))
    (hne : U ≠ []) :
    (updateEnvFile (some c) U false).1 =
      some (updateEnvFileContent c U false).1 := by
  have hf : (updateEnvFileContent c U false).2 = true := by
    cases U with
    | nil => exact absurd rfl hne
    | cons kv U' =>
      show ((kv :: U').foldl
        (updateOne (parseEnvContent c) false) (c, false)).2 = true
      rw [List.foldl_cons]
      exact foldl_updateOne_flag (parseEnvContent c) false U' _
        (updateOne_edit_flag (parseEnvContent c) (c, false) kv)
  show some (if (updateEnvFileContent c U false).2
    then (updateEnvFileContent c U false).1 else c) = _
  rw [hf]
  simp

theorem getMissing_preserved (tmpl : Option Chars) (c c1 : Chars)
    (h0 : getMissingVariables tmpl (some c) = [])
    (hstep : ∀ k, envLookup (parseEnvContent c1) k =
        envLookup (parseEnvContent c) k ∨
      ∃ v, envLookup (parseEnvContent c1) k = some v ∧ v ≠ []) :
    getMissingVariables tmpl (some c1) = [] := by
  simp only [getMissingVariables, List.filter_eq_nil_iff] at h0 ⊢
  intro k hk
  have h0k := h0 k hk
  rw [show parseEnvFile (some c1) = parseEnvContent c1 from rfl]
  rw [show parseEnvFile (some c) = parseEnvContent c from rfl] at h0k
  rcases hstep k with he | ⟨v, hv, hvne⟩
  · rw [he]
    exact h0k
  · rw [hv]
    simp [hvne]

theorem cleanContent_lines {c : Chars} (h : cleanContent c = true) :
    ∀ l ∈ splitNL c, ∀ ch ∈ l, isLineTerm ch = false := by
  intro l hl ch hch
  have hc := mem_of_mem_splitNL hl hch
  have hnl := no_nl_mem_splitNL hl
  simp only [cleanContent, List.all_eq_true, Bool.and_eq_true,
    Bool.or_eq_true, decide_eq_true_eq, Bool.not_eq_true', ne_eq] at h
  rcases (h ch hc).1 with heq | hterm
  · exact absurd (heq ▸ hch) hnl
  · exact hterm

theorem orDefault_goodVal {c : Chars} (hcc : cleanContent c = true)
    (k : Chars) {d : Chars} (hd : goodUpdateVal d) :
    goodUpdateVal (orDefault (envLookup (parseEnvContent c) k) d) := by
  cases hl : envLookup (parseEnvContent c) k with
  | none => exact hd
  | some w =>
    obtain ⟨p1, p2, p3⟩ := parsed_value_props hcc hl
    show goodUpdateVal (if w.isEmpty then d else w)
    cases hw : w.isEmpty with
    | true => simpa using hd
    | false =>
      simp only [Bool.false_eq_true, if_false]
      refine ⟨p1, p2, p3, ?_⟩
      intro he
      rw [he] at hw
      cases hw

theorem goodVal_http_append {v : Chars} (hv : goodUpdateVal v) :
    goodUpdateVal ("http://localhost:".data ++ v) := by
  obtain ⟨h1, h2, h3, h4⟩ := hv
  refine ⟨trimFixed_append (by decide) (by decide) h1, ?_, ?_, by simp⟩
  · intro ch hch
    rcases List.mem_append.mp hch with h | h
    · revert h
      have : ∀ ch ∈ "http://localhost:".data, isLineTerm ch = false := by
        decide
      exact this ch
    · exact h2 ch h
  · intro hch
    rcases List.mem_append.mp hch with h | h
    · revert h
      decide
    · exact h3 h

theorem keysOK_of_keys (u : List (Chars × Chars)) (ks : List Chars)
    (h : u.map (fun kv => kv.1) = ks) (hks : ks.Pairwise noOverlap) :
    keysOK u := by
  unfold keysOK
  rw [h]
  exact hks

theorem entry_of_goodVal {k v : Chars} (hk : goodKeyLit k)
    (hv : goodUpdateVal v) :
    goodEntry (k, v) ∧ goodKey k = true ∧ jsTrim v = v ∧ v ≠ [] :=
  ⟨⟨hk.2.1, hk.2.2, hv.2.2.1, hv.2.1⟩, hk.1, hv.1, hv.2.2.2⟩

theorem update_cycle (tmpl : Option Chars) (c : Chars)
    (U : List (Chars × Chars)) (hOK : keysOK U)
    (hU : ∀ kv ∈ U, goodEntry kv ∧ goodKey kv.1 = true ∧
      jsTrim kv.2 = kv.2 ∧ kv.2 ≠ [])
    (hcc : cleanContent c = true)
    (hm : getMissingVariables tmpl (some c) = [])
    (hne : U ≠ []) :
    ∃ c1, (updateEnvFile (some c) U false).1 = some c1 ∧
      (updateEnvFile (some c1) U false).1 = some c1 ∧
      getMissingVariables tmpl (some c1) = [] ∧
      (∀ k, envLookup (parseEnvContent c1) k =
          envLookup (parseEnvContent c) k ∨
        ∃ v, (k, v) ∈ U ∧ envLookup (parseEnvContent c1) k = some v) := by
  have hlines := cleanContent_lines hcc
  have hge : ∀ kv ∈ U, goodEntry kv := fun kv h => (hU kv h).1
  have hsv : ∀ kv ∈ U, goodEntry kv ∧ goodKey kv.1 = true ∧
      jsTrim kv.2 = kv.2 :=
    fun kv h => ⟨(hU kv h).1, (hU kv h).2.1, (hU kv h).2.2.1⟩
  refine ⟨(updateEnvFileContent c U false).1, updateEnvFile_some c U hne,
    ?_, ?_, ?_⟩
  · rw [updateEnvFile_some (updateEnvFileContent c U false).1 U hne,
      updateEnvFileContent_idem c U hOK hge hlines]
  · apply getMissing_preserved tmpl c _ hm
    intro k
    rcases envLookup_after_update c U k hsv hlines with ⟨v, hv1, hv2⟩ | he
    · exact Or.inr ⟨v, hv2, (hU (k, v) hv1).2.2.2⟩
    · exact Or.inl he
  · intro k
    rcases envLookup_after_update c U k hsv hlines with ⟨v, hv1, hv2⟩ | he
    · exact Or.inr ⟨v, hv1, hv2⟩
    · exact Or.inl he

theorem copyEnvFiles_id (apps : AvailableApps) (g : WorkspaceFS)
    (hh1 : g.rootEnv.isSome = true) (hh2 : g.apiEnv.isSome = true)
    (hh3 : g.webSpaEnv.isSome = true) (hh4 : g.webSsrEnv.isSome = true)
    (hh5 : g.openapiEnv.isSome = true) : copyEnvFiles apps g = g := by
  obtain ⟨eR, xR, eA, xA, eS, xS, eT, xT, eO, xO⟩ := g
  simp only [copyEnvFiles, copyPair] at *
  rw [hh1, hh2, hh3, hh4, hh5]
  simp

theorem updateAllEnvFiles_fix (config : EnvConfig) (apps : AvailableApps)
    (g : WorkspaceFS)
    (hr : (updateEnvFile g.rootEnv
      [("DATABASE_USER".data, config.database.user),
       ("DATABASE_PASSWORD".data, config.database.password),
       ("DATABASE_NAME".data, config.database.name),
       ("DATABASE_PORT".data, jsNumToString config.database.port),
       ("SMTP_PORT".data, jsNumToString config.smtp.port),
       ("SMTP_PORT_WEB".data, jsNumToString config.smtp.portWeb)] false).1 =
      g.rootEnv)
    (ha : apps.api = true →
      (match config.ports.api with
       | some j => jsTruthyNum j
       | none => false) = true →
      (updateEnvFile g.apiEnv
        ([("API_PORT".data, jsNumToString (match config.ports.api with
            | some j => j
            | none => none)),
          ("DATABASE_USER".data, config.database.user),
          ("DATABASE_PASSWORD".data, config.database.password),
          ("DATABASE_NAME".data, config.database.name),
          ("DATABASE_HOST".data, config.database.host),
          ("DATABASE_PORT".data, jsNumToString config.database.port),
          ("TRUSTED_ORIGINS".data, deriveTrustedOrigins config.ports)] ++
         (match config.ports.webSpa with
          | some j => if jsTruthyNum j
              then [("CLIENTS_WEB_APP_URL".data, localhostUrl j)] else []
          | none => []) ++
         (match config.ports.webSsr with
          | some j => if jsTruthyNum j
              then [("CLIENTS_WEB_SSR_URL".data, localhostUrl j)] else []
          | none => [])) false).1 = g.apiEnv)
    (hs : apps.webSpa = true →
      (match config.ports.api with
       | some j => jsTruthyNum j
       | none => false) = true →
      (updateEnvFile g.webSpaEnv
        [("VITE_API_URL".data, localhostUrl (match config.ports.api with
          | some j => j
          | none => none))] false).1 = g.webSpaEnv)
    (ht : apps.webSsr = true →
      (match config.ports.api with
       | some j => jsTruthyNum j
       | none => false) = true →
      (updateEnvFile g.webSsrEnv
        [("API_URL".data, localhostUrl (match config.ports.api with
          | some j => j
          | none => none))] false).1 = g.webSsrEnv)
    (ho : apps.openapiGenerator = true →
      (match config.ports.api with
       | some j => jsTruthyNum j
       | none => false) = true →
      (updateEnvFile g.openapiEnv
        [("API_URL".data, localhostUrl (match config.ports.api with
          | some j => j
          | none => none))] false).1 = g.openapiEnv) :
    updateAllEnvFiles config apps g = g := by
  obtain ⟨eR, xR, eA, xA, eS, xS, eT, xT, eO, xO⟩ := g
  simp only [updateAllEnvFiles, WorkspaceFS.mk.injEq]
  cases hT : (match config.ports.api with
    | some j => jsTruthyNum j
    | none => false) with
  | false =>
    simp only [Bool.and_false, Bool.false_eq_true, if_false]
    exact ⟨hr, trivial, trivial, trivial, trivial, trivial, trivial, trivial, trivial, trivial⟩
  | true =>
    simp only [Bool.and_true]
    refine ⟨hr, trivial, ?_, trivial, ?_, trivial, ?_, trivial, ?_, trivial⟩
    · cases hA : apps.api with
      | false => simp
      | true => simp only [if_true]; exact ha hA hT
    · cases hS : apps.webSpa with
      | false => simp
      | true => simp only [if_true]; exact hs hS hT
    · cases hX : apps.webSsr with
      | false => simp
      | true => simp only [if_true]; exact ht hX hT
    · cases hO : apps.openapiGenerator with
      | false => simp
      | true => simp only [if_true]; exact ho hO hT

theorem updAll_rootEnv (config : EnvConfig) (apps : AvailableApps)
    (g : WorkspaceFS) :
    (updateAllEnvFiles config apps g).rootEnv =
      (updateEnvFile g.rootEnv
        [("DATABASE_USER".data, config.database.user),
         ("DATABASE_PASSWORD".data, config.database.password),
         ("DATABASE_NAME".data, config.database.name),
         ("DATABASE_PORT".data, jsNumToString config.database.port),
         ("SMTP_PORT".data, jsNumToString config.smtp.port),
         ("SMTP_PORT_WEB".data, jsNumToString config.smtp.portWeb)]
        false).1 := rfl

theorem updAll_apiEnv (config : EnvConfig) (apps : AvailableApps)
    (g : WorkspaceFS) :
    (updateAllEnvFiles config apps g).apiEnv =
      (if apps.api && (match config.ports.api with
         | some j => jsTruthyNum j
         | none => false) then
        (updateEnvFile g.apiEnv
          ([("API_PORT".data, jsNumToString (match config.ports.api with
              | some j => j
              | none => none)),
            ("DATABASE_USER".data, config.database.user),
            ("DATABASE_PASSWORD".data, config.database.password),
            ("DATABASE_NAME".data, config.database.name),
            ("DATABASE_HOST".data, config.database.host),
            ("DATABASE_PORT".data, jsNumToString config.database.port),
            ("TRUSTED_ORIGINS".data, deriveTrustedOrigins config.ports)] ++
           (match config.ports.webSpa with
            | some j => if jsTruthyNum j
                then [("CLIENTS_WEB_APP_URL".data, localhostUrl j)] else []
            | none => []) ++
           (match config.ports.webSsr with
            | some j => if jsTruthyNum j
                then [("CLIENTS_WEB_SSR_URL".data, localhostUrl j)] else []
            | none => [])) false).1
      else g.apiEnv) := rfl

theorem updAll_webSpaEnv (config : EnvConfig) (apps : AvailableApps)
    (g : WorkspaceFS) :
    (updateAllEnvFiles config apps g).webSpaEnv =
      (if apps.webSpa && (match config.ports.api with
         | some j => jsTruthyNum j
         | none => false) then
        (updateEnvFile g.webSpaEnv
          [("VITE_API_URL".data, localhostUrl (match config.ports.api with
            | some j => j
            | none => none))] false).1
      else g.webSpaEnv) := rfl

theorem updAll_webSsrEnv (config : EnvConfig) (apps : AvailableApps)
    (g : WorkspaceFS) :
    (updateAllEnvFiles config apps g).webSsrEnv =
      (if apps.webSsr && (match config.ports.api with
         | some j => jsTruthyNum j
         | none => false) then
        (updateEnvFile g.webSsrEnv
          [("API_URL".data, localhostUrl (match config.ports.api with
            | some j => j
            | none => none))] false).1
      else g.webSsrEnv) := rfl

theorem updAll_openapiEnv (config : EnvConfig) (apps : AvailableApps)
    (g : WorkspaceFS) :
    (updateAllEnvFiles config apps g).openapiEnv =
      (if apps.openapiGenerator && (match config.ports.api with
         | some j => jsTruthyNum j
         | none => false) then
        (updateEnvFile g.openapiEnv
          [("API_URL".data, localhostUrl (match config.ports.api with
            | some j => j
            | none => none))] false).1
      else g.openapiEnv) := rfl

theorem updAll_rootExample (config : EnvConfig) (apps : AvailableApps)
    (g : WorkspaceFS) :
    (updateAllEnvFiles config apps g).rootExample = g.rootExample := rfl

theorem updAll_apiExample (config : EnvConfig) (apps : AvailableApps)
    (g : WorkspaceFS) :
    (updateAllEnvFiles config apps g).apiExample = g.apiExample := rfl

theorem updAll_webSpaExample (config : EnvConfig) (apps : AvailableApps)
    (g : WorkspaceFS) :
    (updateAllEnvFiles config apps g).webSpaExample = g.webSpaExample := rfl

theorem updAll_webSsrExample (config : EnvConfig) (apps : AvailableApps)
    (g : WorkspaceFS) :
    (updateAllEnvFiles config apps g).webSsrExample = g.webSsrExample := rfl

theorem updAll_openapiExample (config : EnvConfig) (apps : AvailableApps)
    (g : WorkspaceFS) :
    (updateAllEnvFiles config apps g).openapiExample = g.openapiExample := rfl

theorem orDefault_stable {c c1 : Chars} {U : List (Chars × Chars)}
    {K d : Chars}
    (hstep : envLookup (parseEnvContent c1) K =
        envLookup (parseEnvContent c) K ∨
      ∃ v, (K, v) ∈ U ∧ envLookup (parseEnvContent c1) K = some v)
    (hsel : ∀ v, (K, v) ∈ U →
      v = orDefault (envLookup (parseEnvContent c) K) d)
    (hd : d ≠ []) :
    orDefault (envLookup (parseEnvContent c1) K) d =
      orDefault (envLookup (parseEnvContent c) K) d := by
  rcases hstep with he | ⟨v, hv1, hv2⟩
  · rw [he]
  · rw [hv2, hsel v hv1]
    exact orDefault_absorb hd

theorem promptDatabaseConfig_stable (ans : Chars → Chars)
    (fs g : WorkspaceFS) (cR c1R : Chars)
    (hfR : fs.rootEnv = some cR) (hgR : g.rootEnv = some c1R)
    (hxR : g.rootExample = fs.rootExample)
    (hm0 : getMissingVariables fs.rootExample (some cR) = [])
    (hm1 : getMissingVariables fs.rootExample (some c1R) = [])
    (hU : orDefault (envLookup (parseEnvContent c1R) "DATABASE_USER".data)
        "postgres".data =
      orDefault (envLookup (parseEnvContent cR) "DATABASE_USER".data)
        "postgres".data)
    (hP : orDefault (envLookup (parseEnvContent c1R)
        "DATABASE_PASSWORD".data) "postgres".data =
      orDefault (envLookup (parseEnvContent cR) "DATABASE_PASSWORD".data)
        "postgres".data)
    (hN : orDefault (envLookup (parseEnvContent c1R) "DATABASE_NAME".data)
        "lonestone_test".data =
      orDefault (envLookup (parseEnvContent cR) "DATABASE_NAME".data)
        "lonestone_test".data)
    (hH : orDefault (envLookup (parseEnvContent c1R) "DATABASE_HOST".data)
        "localhost".data =
      orDefault (envLookup (parseEnvContent cR) "DATABASE_HOST".data)
        "localhost".data)
    (hD : orDefault (envLookup (parseEnvContent c1R) "DATABASE_PORT".data)
        "5111".data =
      orDefault (envLookup (parseEnvContent cR) "DATABASE_PORT".data)
        "5111".data) :
    promptDatabaseConfig g ans = promptDatabaseConfig fs ans := by
  have hr0 : rootMissingVars fs = [] := by
    unfold rootMissingVars
    rw [hfR]
    simpa using hm0
  have hr1 : rootMissingVars g = [] := by
    unfold rootMissingVars
    rw [hgR, hxR]
    simpa using hm1
  have hd0 : needsDb fs = false := by simp [needsDb, hr0]
  have hd1 : needsDb g = false := by simp [needsDb, hr1]
  unfold promptDatabaseConfig
  rw [hd0, hd1, hfR, hgR]
  simp only [Bool.not_false, if_true, DbConfig.mk.injEq]
  exact ⟨hU, hP, hN, hH, congrArg jsParseInt hD⟩

theorem promptSmtpConfig_stable (ans : Chars → Chars)
    (fs g : WorkspaceFS) (cR c1R : Chars)
    (hfR : fs.rootEnv = some cR) (hgR : g.rootEnv = some c1R)
    (hxR : g.rootExample = fs.rootExample)
    (hm0 : getMissingVariables fs.rootExample (some cR) = [])
    (hm1 : getMissingVariables fs.rootExample (some c1R) = [])
    (hS : orDefault (envLookup (parseEnvContent c1R) "SMTP_PORT".data)
        "1025".data =
      orDefault (envLookup (parseEnvContent cR) "SMTP_PORT".data)
        "1025".data)
    (hW : orDefault (envLookup (parseEnvContent c1R) "SMTP_PORT_WEB".data)
        "1080".data =
      orDefault (envLookup (parseEnvContent cR) "SMTP_PORT_WEB".data)
        "1080".data) :
    promptSmtpConfig g ans = promptSmtpConfig fs ans := by
  have hr0 : rootMissingVars fs = [] := by
    unfold rootMissingVars
    rw [hfR]
    simpa using hm0
  have hr1 : rootMissingVars g = [] := by
    unfold rootMissingVars
    rw [hgR, hxR]
    simpa using hm1
  have hd0 : needsSmtp fs = false := by simp [needsSmtp, hr0]
  have hd1 : needsSmtp g = false := by simp [needsSmtp, hr1]
  unfold promptSmtpConfig
  rw [hd0, hd1, hfR, hgR]
  simp only [Bool.not_false, if_true, SmtpConfig.mk.injEq]
  exact ⟨congrArg jsParseInt hS, congrArg jsParseInt hW⟩

theorem promptPortsConfig_stable (ans : Chars → Chars)
    (apps : AvailableApps) (fs g : WorkspaceFS) (cA c1A : Chars)
    (hfA : fs.apiEnv = some cA) (hgA : g.apiEnv = some c1A)
    (hxA : g.apiExample = fs.apiExample)
    (hm0 : getMissingVariables fs.apiExample (some cA) = [])
    (hm1 : getMissingVariables fs.apiExample (some c1A) = [])
    (hmS0 : spaMissingVars fs = []) (hmS1 : spaMissingVars g = [])
    (hmT0 : ssrMissingVars fs = []) (hmT1 : ssrMissingVars g = [])
    (hap : orDefault (envLookup (parseEnvContent c1A) "API_PORT".data)
        "3000".data =
      orDefault (envLookup (parseEnvContent cA) "API_PORT".data)
        "3000".data) :
    promptPortsConfig apps g ans = promptPortsConfig apps fs ans := by
  have ha0 : apiMissingVars fs = [] := by
    unfold apiMissingVars
    rw [hfA]
    simpa using hm0
  have ha1 : apiMissingVars g = [] := by
    unfold apiMissingVars
    rw [hgA, hxA]
    simpa using hm1
  have hn0 : needsAnyPort apps fs = false := by
    simp [needsAnyPort, needApiPort, needSpaPort, needSsrPort, ha0, hmS0,
      hmT0]
  have hn1 : needsAnyPort apps g = false := by
    simp [needsAnyPort, needApiPort, needSpaPort, needSsrPort, ha1, hmS1,
      hmT1]
  unfold promptPortsConfig
  rw [hn0, hn1, ha0, ha1, hfA, hgA]
  simp only [Bool.not_false, if_true, PortsConfig.mk.injEq]
  refine ⟨?_, trivial, trivial⟩
  cases apps.api with
  | false => simp
  | true =>
    exact congrArg (fun x => some (jsParseInt x)) hap

theorem runSetup_fst (apps : AvailableApps) (g : WorkspaceFS)
    (ans : Chars → Chars) :
    (runSetup apps g ans).1 =
      updateAllEnvFiles
        ⟨promptDatabaseConfig g ans, promptPortsConfig apps g ans,
         promptSmtpConfig g ans⟩ apps (copyEnvFiles apps g) := rfl

/-- C3 (amended): on a fully configured workspace — every target file
exists with no missing template variable, contents clean in the sense of
`cleanContent`, and the numeric keys stored canonically — running the
setup a second time leaves every environment file byte-identical to the
state after the first run. -/
theorem runSetup_idempotent_on_configured (apps : AvailableApps)
    (fs : WorkspaceFS)
    (ans : Chars → Chars) (H : wellConfigured fs) :
    (runSetup apps (runSetup apps fs ans).1 ans).1 =
      (runSetup apps fs ans).1 := by
  obtain ⟨h1, h2, h3, h4, h5, h6, h7, h8, h9, h10, h11, h12, h13, h14, h15,
    h16, h17, h18, h19⟩ := H
  obtain ⟨cR, hfR⟩ := Option.isSome_iff_exists.mp h1
  obtain ⟨cA, hfA⟩ := Option.isSome_iff_exists.mp h2
  obtain ⟨cS, hfS⟩ := Option.isSome_iff_exists.mp h3
  obtain ⟨cT, hfT⟩ := Option.isSome_iff_exists.mp h4
  obtain ⟨cO, hfO⟩ := Option.isSome_iff_exists.mp h5
  have hclR := h11 cR hfR
  have hclA := h12 cA hfA
  have hclS := h13 cS hfS
  have hclT := h14 cT hfT
  have hclO := h15 cO hfO
  rw [hfR] at h6 h16 h17 h18
  rw [hfA] at h7 h19
  rw [hfS] at h8
  rw [hfT] at h9
  rw [hfO] at h10
  have hcanDP : jsNumToString (jsParseInt (orDefault (envLookup
      (parseEnvContent cR) "DATABASE_PORT".data) "5111".data)) =
      orDefault (envLookup (parseEnvContent cR) "DATABASE_PORT".data)
        "5111".data := of_decide_eq_true h16
  have hcanSP : jsNumToString (jsParseInt (orDefault (envLookup
      (parseEnvContent cR) "SMTP_PORT".data) "1025".data)) =
      orDefault (envLookup (parseEnvContent cR) "SMTP_PORT".data)
        "1025".data := of_decide_eq_true h17
  have hcanSW : jsNumToString (jsParseInt (orDefault (envLookup
      (parseEnvContent cR) "SMTP_PORT_WEB".data) "1080".data)) =
      orDefault (envLookup (parseEnvContent cR) "SMTP_PORT_WEB".data)
        "1080".data := of_decide_eq_true h18
  have hcanAP : jsNumToString (jsParseInt (orDefault (envLookup
      (parseEnvContent cA) "API_PORT".data) "3000".data)) =
      orDefault (envLookup (parseEnvContent cA) "API_PORT".data)
        "3000".data := of_decide_eq_true h19
  have hrmv : rootMissingVars fs = [] := by
    unfold rootMissingVars
    rw [hfR]
    simpa using h6
  have hamA : apiMissingVars fs = [] := by
    unfold apiMissingVars
    rw [hfA]
    simpa using h7
  have hamS : spaMissingVars fs = [] := by
    unfold spaMissingVars
    rw [hfS]
    simpa using h8
  have hamT : ssrMissingVars fs = [] := by
    unfold ssrMissingVars
    rw [hfT]
    simpa using h9
  have hneDb : needsDb fs = false := by simp [needsDb, hrmv]
  have hneAP : needsAnyPort apps fs = false := by
    simp [needsAnyPort, needApiPort, needSpaPort, needSsrPort, hamA, hamS,
      hamT]
  have hneSm : needsSmtp fs = false := by simp [needsSmtp, hrmv]
  have hdb1 : promptDatabaseConfig fs ans =
      { user := orDefault (envLookup (parseEnvContent cR)
          "DATABASE_USER".data) "postgres".data
        password := orDefault (envLookup (parseEnvContent cR)
          "DATABASE_PASSWORD".data) "postgres".data
        name := orDefault (envLookup (parseEnvContent cR)
          "DATABASE_NAME".data) "lonestone_test".data
        host := orDefault (envLookup (parseEnvContent cR)
          "DATABASE_HOST".data) "localhost".data
        port := jsParseInt (orDefault (envLookup (parseEnvContent cR)
          "DATABASE_PORT".data) "5111".data) } := by
    unfold promptDatabaseConfig
    rw [hneDb, hfR]
    rfl
  have hsm1 : promptSmtpConfig fs ans =
      { port := jsParseInt (orDefault (envLookup (parseEnvContent cR)
          "SMTP_PORT".data) "1025".data)
        portWeb := jsParseInt (orDefault (envLookup (parseEnvContent cR)
          "SMTP_PORT_WEB".data) "1080".data) } := by
    unfold promptSmtpConfig
    rw [hneSm, hfR]
    rfl
  have hpt1 : promptPortsConfig apps fs ans =
      { api := if apps.api then
          some (jsParseInt (orDefault (envLookup (parseEnvContent cA)
            "API_PORT".data) "3000".data))
        else none
        webSpa := none
        webSsr := none } := by
    unfold promptPortsConfig
    rw [hneAP, hamA, hfA]
    simp
    rfl
  have hvU : goodUpdateVal (orDefault (envLookup (parseEnvContent cR)
      "DATABASE_USER".data) "postgres".data) :=
    orDefault_goodVal hclR _ (by refine ⟨by decide, by decide, by decide,
      by decide⟩)
  have hvP : goodUpdateVal (orDefault (envLookup (parseEnvContent cR)
      "DATABASE_PASSWORD".data) "postgres".data) :=
    orDefault_goodVal hclR _ (by refine ⟨by decide, by decide, by decide,
      by decide⟩)
  have hvN : goodUpdateVal (orDefault (envLookup (parseEnvContent cR)
      "DATABASE_NAME".data) "lonestone_test".data) :=
    orDefault_goodVal hclR _ (by refine ⟨by decide, by decide, by decide,
      by decide⟩)
  have hvH : goodUpdateVal (orDefault (envLookup (parseEnvContent cR)
      "DATABASE_HOST".data) "localhost".data) :=
    orDefault_goodVal hclR _ (by refine ⟨by decide, by decide, by decide,
      by decide⟩)
  have hvDP : goodUpdateVal (orDefault (envLookup (parseEnvContent cR)
      "DATABASE_PORT".data) "5111".data) :=
    orDefault_goodVal hclR _ (by refine ⟨by decide, by decide, by decide,
      by decide⟩)
  have hvSP : goodUpdateVal (orDefault (envLookup (parseEnvContent cR)
      "SMTP_PORT".data) "1025".data) :=
    orDefault_goodVal hclR _ (by refine ⟨by decide, by decide, by decide,
      by decide⟩)
  have hvSW : goodUpdateVal (orDefault (envLookup (parseEnvContent cR)
      "SMTP_PORT_WEB".data) "1080".data) :=
    orDefault_goodVal hclR _ (by refine ⟨by decide, by decide, by decide,
      by decide⟩)
  have hvAP : goodUpdateVal (orDefault (envLookup (parseEnvContent cA)
      "API_PORT".data) "3000".data) :=
    orDefault_goodVal hclA _ (by refine ⟨by decide, by decide, by decide,
      by decide⟩)
  obtain ⟨c1R, e1R, e2R, e3R, e4R⟩ := update_cycle fs.rootExample cR
    [("DATABASE_USER".data, orDefault (envLookup (parseEnvContent cR)
        "DATABASE_USER".data) "postgres".data),
     ("DATABASE_PASSWORD".data, orDefault (envLookup (parseEnvContent cR)
        "DATABASE_PASSWORD".data) "postgres".data),
     ("DATABASE_NAME".data, orDefault (envLookup (parseEnvContent cR)
        "DATABASE_NAME".data) "lonestone_test".data),
     ("DATABASE_PORT".data, orDefault (envLookup (parseEnvContent cR)
        "DATABASE_PORT".data) "5111".data),
     ("SMTP_PORT".data, orDefault (envLookup (parseEnvContent cR)
        "SMTP_PORT".data) "1025".data),
     ("SMTP_PORT_WEB".data, orDefault (envLookup (parseEnvContent cR)
        "SMTP_PORT_WEB".data) "1080".data)]
    (keysOK_of_keys _ ["DATABASE_USER".data, "DATABASE_PASSWORD".data,
      "DATABASE_NAME".data, "DATABASE_PORT".data, "SMTP_PORT".data,
      "SMTP_PORT_WEB".data] rfl (by decide))
    (by
      intro kv hkv
      simp only [List.mem_cons, List.not_mem_nil, or_false] at hkv
      rcases hkv with rfl | rfl | rfl | rfl | rfl | rfl
      · exact entry_of_goodVal (by decide) hvU
      · exact entry_of_goodVal (by decide) hvP
      · exact entry_of_goodVal (by decide) hvN
      · exact entry_of_goodVal (by decide) hvDP
      · exact entry_of_goodVal (by decide) hvSP
      · exact entry_of_goodVal (by decide) hvSW)
    hclR h6 (by simp)
  have hstU : orDefault (envLookup (parseEnvContent c1R)
      "DATABASE_USER".data) "postgres".data =
      orDefault (envLookup (parseEnvContent cR) "DATABASE_USER".data)
        "postgres".data :=
    orDefault_stable (e4R "DATABASE_USER".data)
      (by
        intro v hv
        simp only [List.mem_cons, List.not_mem_nil, or_false,
          Prod.mk.injEq] at hv
        rcases hv with ⟨-, h⟩ | ⟨h, -⟩ | ⟨h, -⟩ | ⟨h, -⟩ | ⟨h, -⟩ | ⟨h, -⟩
        · exact h
        · exact absurd h (by decide)
        · exact absurd h (by decide)
        · exact absurd h (by decide)
        · exact absurd h (by decide)
        · exact absurd h (by decide))
      (by decide)
  have hstP : orDefault (envLookup (parseEnvContent c1R)
      "DATABASE_PASSWORD".data) "postgres".data =
      orDefault (envLookup (parseEnvContent cR) "DATABASE_PASSWORD".data)
        "postgres".data :=
    orDefault_stable (e4R "DATABASE_PASSWORD".data)
      (by
        intro v hv
        simp only [List.mem_cons, List.not_mem_nil, or_false,
          Prod.mk.injEq] at hv
        rcases hv with ⟨h, -⟩ | ⟨-, h⟩ | ⟨h, -⟩ | ⟨h, -⟩ | ⟨h, -⟩ | ⟨h, -⟩
        · exact absurd h (by decide)
        · exact h
        · exact absurd h (by decide)
        · exact absurd h (by decide)
        · exact absurd h (by decide)
        · exact absurd h (by decide))
      (by decide)
  have hstN : orDefault (envLookup (parseEnvContent c1R)
      "DATABASE_NAME".data) "lonestone_test".data =
      orDefault (envLookup (parseEnvContent cR) "DATABASE_NAME".data)
        "lonestone_test".data :=
    orDefault_stable (e4R "DATABASE_NAME".data)
      (by
        intro v hv
        simp only [List.mem_cons, List.not_mem_nil, or_false,
          Prod.mk.injEq] at hv
        rcases hv with ⟨h, -⟩ | ⟨h, -⟩ | ⟨-, h⟩ | ⟨h, -⟩ | ⟨h, -⟩ | ⟨h, -⟩
        · exact absurd h (by decide)
        · exact absurd h (by decide)
        · exact h
        · exact absurd h (by decide)
        · exact absurd h (by decide)
        · exact absurd h (by decide))
      (by decide)
  have hstD : orDefault (envLookup (parseEnvContent c1R)
      "DATABASE_PORT".data) "5111".data =
      orDefault (envLookup (parseEnvContent cR) "DATABASE_PORT".data)
        "5111".data :=
    orDefault_stable (e4R "DATABASE_PORT".data)
      (by
        intro v hv
        simp only [List.mem_cons, List.not_mem_nil, or_false,
          Prod.mk.injEq] at hv
        rcases hv with ⟨h, -⟩ | ⟨h, -⟩ | ⟨h, -⟩ | ⟨-, h⟩ | ⟨h, -⟩ | ⟨h, -⟩
        · exact absurd h (by decide)
        · exact absurd h (by decide)
        · exact absurd h (by decide)
        · exact h
        · exact absurd h (by decide)
        · exact absurd h (by decide))
      (by decide)
  have hstSP : orDefault (envLookup (parseEnvContent c1R)
      "SMTP_PORT".data) "1025".data =
      orDefault (envLookup (parseEnvContent cR) "SMTP_PORT".data)
        "1025".data :=
    orDefault_stable (e4R "SMTP_PORT".data)
      (by
        intro v hv
        simp only [List.mem_cons, List.not_mem_nil, or_false,
          Prod.mk.injEq] at hv
        rcases hv with ⟨h, -⟩ | ⟨h, -⟩ | ⟨h, -⟩ | ⟨h, -⟩ | ⟨-, h⟩ | ⟨h, -⟩
        · exact absurd h (by decide)
        · exact absurd h (by decide)
        · exact absurd h (by decide)
        · exact absurd h (by decide)
        · exact h
        · exact absurd h (by decide))
      (by decide)
  have hstSW : orDefault (envLookup (parseEnvContent c1R)
      "SMTP_PORT_WEB".data) "1080".data =
      orDefault (envLookup (parseEnvContent cR) "SMTP_PORT_WEB".data)
        "1080".data :=
    orDefault_stable (e4R "SMTP_PORT_WEB".data)
      (by
        intro v hv
        simp only [List.mem_cons, List.not_mem_nil, or_false,
          Prod.mk.injEq] at hv
        rcases hv with ⟨h, -⟩ | ⟨h, -⟩ | ⟨h, -⟩ | ⟨h, -⟩ | ⟨h, -⟩ | ⟨-, h⟩
        · exact absurd h (by decide)
        · exact absurd h (by decide)
        · exact absurd h (by decide)
        · exact absurd h (by decide)
        · exact absurd h (by decide)
        · exact h)
      (by decide)
  have hstH : orDefault (envLookup (parseEnvContent c1R)
      "DATABASE_HOST".data) "localhost".data =
      orDefault (envLookup (parseEnvContent cR) "DATABASE_HOST".data)
        "localhost".data :=
    orDefault_stable (e4R "DATABASE_HOST".data)
      (by
        intro v hv
        simp only [List.mem_cons, List.not_mem_nil, or_false,
          Prod.mk.injEq] at hv
        rcases hv with ⟨h, -⟩ | ⟨h, -⟩ | ⟨h, -⟩ | ⟨h, -⟩ | ⟨h, -⟩ | ⟨h, -⟩
        · exact absurd h (by decide)
        · exact absurd h (by decide)
        · exact absurd h (by decide)
        · exact absurd h (by decide)
        · exact absurd h (by decide)
        · exact absurd h (by decide))
      (by decide)
  have hcopy : copyEnvFiles apps fs = fs :=
    copyEnvFiles_id apps fs h1 h2 h3 h4 h5
  rw [runSetup_fst apps fs ans, hcopy, hdb1, hpt1, hsm1, runSetup_fst]
  cases hA : apps.api with
  | false =>
    simp only [hA, Bool.false_eq_true, if_false]
    have hG1root : (updateAllEnvFiles (EnvConfig.mk
        (DbConfig.mk
        (orDefault (envLookup (parseEnvContent cR) "DATABASE_USER".data) "postgres".data)
        (orDefault (envLookup (parseEnvContent cR) "DATABASE_PASSWORD".data) "postgres".data)
        (orDefault (envLookup (parseEnvContent cR) "DATABASE_NAME".data) "lonestone_test".data)
        (orDefault (envLookup (parseEnvContent cR) "DATABASE_HOST".data) "localhost".data)
        (jsParseInt (orDefault (envLookup (parseEnvContent cR) "DATABASE_PORT".data) "5111".data)))
        (PortsConfig.mk none none none)
        (SmtpConfig.mk
        (jsParseInt (orDefault (envLookup (parseEnvContent cR) "SMTP_PORT".data) "1025".data))
        (jsParseInt (orDefault (envLookup (parseEnvContent cR) "SMTP_PORT_WEB".data) "1080".data)))) apps fs).rootEnv = some c1R := by
      rw [updAll_rootEnv, hfR]
      show (updateEnvFile (some cR)
        [("DATABASE_USER".data, (orDefault (envLookup (parseEnvContent cR) "DATABASE_USER".data) "postgres".data)),
        ("DATABASE_PASSWORD".data, (orDefault (envLookup (parseEnvContent cR) "DATABASE_PASSWORD".data) "postgres".data)),
        ("DATABASE_NAME".data, (orDefault (envLookup (parseEnvContent cR) "DATABASE_NAME".data) "lonestone_test".data)),
        ("DATABASE_PORT".data, jsNumToString (jsParseInt (orDefault (envLookup (parseEnvContent cR) "DATABASE_PORT".data) "5111".data))),
        ("SMTP_PORT".data, jsNumToString (jsParseInt (orDefault (envLookup (parseEnvContent cR) "SMTP_PORT".data) "1025".data))),
        ("SMTP_PORT_WEB".data, jsNumToString (jsParseInt (orDefault (envLookup (parseEnvContent cR) "SMTP_PORT_WEB".data) "1080".data)))] false).1 = some c1R
      rw [hcanDP, hcanSP, hcanSW]
      exact e1R
    have hG1api : (updateAllEnvFiles (EnvConfig.mk
        (DbConfig.mk
        (orDefault (envLookup (parseEnvContent cR) "DATABASE_USER".data) "postgres".data)
        (orDefault (envLookup (parseEnvContent cR) "DATABASE_PASSWORD".data) "postgres".data)
        (orDefault (envLookup (parseEnvContent cR) "DATABASE_NAME".data) "lonestone_test".data)
        (orDefault (envLookup (parseEnvContent cR) "DATABASE_HOST".data) "localhost".data)
        (jsParseInt (orDefault (envLookup (parseEnvContent cR) "DATABASE_PORT".data) "5111".data)))
        (PortsConfig.mk none none none)
        (SmtpConfig.mk
        (jsParseInt (orDefault (envLookup (parseEnvContent cR) "SMTP_PORT".data) "1025".data))
        (jsParseInt (orDefault (envLookup (parseEnvContent cR) "SMTP_PORT_WEB".data) "1080".data)))) apps fs).apiEnv = some cA := by
      rw [updAll_apiEnv, hA]
      simp [hfA]
    have hG1spa : (updateAllEnvFiles (EnvConfig.mk
        (DbConfig.mk
        (orDefault (envLookup (parseEnvContent cR) "DATABASE_USER".data) "postgres".data)
        (orDefault (envLookup (parseEnvContent cR) "DATABASE_PASSWORD".data) "postgres".data)
        (orDefault (envLookup (parseEnvContent cR) "DATABASE_NAME".data) "lonestone_test".data)
        (orDefault (envLookup (parseEnvContent cR) "DATABASE_HOST".data) "localhost".data)
        (jsParseInt (orDefault (envLookup (parseEnvContent cR) "DATABASE_PORT".data) "5111".data)))
        (PortsConfig.mk none none none)
        (SmtpConfig.mk
        (jsParseInt (orDefault (envLookup (parseEnvContent cR) "SMTP_PORT".data) "1025".data))
        (jsParseInt (orDefault (envLookup (parseEnvContent cR) "SMTP_PORT_WEB".data) "1080".data)))) apps fs).webSpaEnv = some cS := by
      rw [updAll_webSpaEnv]
      simp [hfS]
    have hG1ssr : (updateAllEnvFiles (EnvConfig.mk
        (DbConfig.mk
        (orDefault (envLookup (parseEnvContent cR) "DATABASE_USER".data) "postgres".data)
        (orDefault (envLookup (parseEnvContent cR) "DATABASE_PASSWORD".data) "postgres".data)
        (orDefault (envLookup (parseEnvContent cR) "DATABASE_NAME".data) "lonestone_test".data)
        (orDefault (envLookup (parseEnvContent cR) "DATABASE_HOST".data) "localhost".data)
        (jsParseInt (orDefault (envLookup (parseEnvContent cR) "DATABASE_PORT".data) "5111".data)))
        (PortsConfig.mk none none none)
        (SmtpConfig.mk
        (jsParseInt (orDefault (envLookup (parseEnvContent cR) "SMTP_PORT".data) "1025".data))
        (jsParseInt (orDefault (envLookup (parseEnvContent cR) "SMTP_PORT_WEB".data) "1080".data)))) apps fs).webSsrEnv = some cT := by
      rw [updAll_webSsrEnv]
      simp [hfT]
    have hG1opn : (updateAllEnvFiles (EnvConfig.mk
        (DbConfig.mk
        (orDefault (envLookup (parseEnvContent cR) "DATABASE_USER".data) "postgres".data)
        (orDefault (envLookup (parseEnvContent cR) "DATABASE_PASSWORD".data) "postgres".data)
        (orDefault (envLookup (parseEnvContent cR) "DATABASE_NAME".data) "lonestone_test".data)
        (orDefault (envLookup (parseEnvContent cR) "DATABASE_HOST".data) "localhost".data)
        (jsParseInt (orDefault (envLookup (parseEnvContent cR) "DATABASE_PORT".data) "5111".data)))
        (PortsConfig.mk none none none)
        (SmtpConfig.mk
        (jsParseInt (orDefault (envLookup (parseEnvContent cR) "SMTP_PORT".data) "1025".data))
        (jsParseInt (orDefault (envLookup (parseEnvContent cR) "SMTP_PORT_WEB".data) "1080".data)))) apps fs).openapiEnv = some cO := by
      rw [updAll_openapiEnv]
      simp [hfO]
    have hmS1 : spaMissingVars (updateAllEnvFiles (EnvConfig.mk
        (DbConfig.mk
        (orDefault (envLookup (parseEnvContent cR) "DATABASE_USER".data) "postgres".data)
        (orDefault (envLookup (parseEnvContent cR) "DATABASE_PASSWORD".data) "postgres".data)
        (orDefault (envLookup (parseEnvContent cR) "DATABASE_NAME".data) "lonestone_test".data)
        (orDefault (envLookup (parseEnvContent cR) "DATABASE_HOST".data) "localhost".data)
        (jsParseInt (orDefault (envLookup (parseEnvContent cR) "DATABASE_PORT".data) "5111".data)))
        (PortsConfig.mk none none none)
        (SmtpConfig.mk
        (jsParseInt (orDefault (envLookup (parseEnvContent cR) "SMTP_PORT".data) "1025".data))
        (jsParseInt (orDefault (envLookup (parseEnvContent cR) "SMTP_PORT_WEB".data) "1080".data)))) apps fs) = [] := by
      unfold spaMissingVars
      rw [hG1spa, updAll_webSpaExample]
      simpa using h8
    have hmT1 : ssrMissingVars (updateAllEnvFiles (EnvConfig.mk
        (DbConfig.mk
        (orDefault (envLookup (parseEnvContent cR) "DATABASE_USER".data) "postgres".data)
        (orDefault (envLookup (parseEnvContent cR) "DATABASE_PASSWORD".data) "postgres".data)
        (orDefault (envLookup (parseEnvContent cR) "DATABASE_NAME".data) "lonestone_test".data)
        (orDefault (envLookup (parseEnvContent cR) "DATABASE_HOST".data) "localhost".data)
        (jsParseInt (orDefault (envLookup (parseEnvContent cR) "DATABASE_PORT".data) "5111".data)))
        (PortsConfig.mk none none none)
        (SmtpConfig.mk
        (jsParseInt (orDefault (envLookup (parseEnvContent cR) "SMTP_PORT".data) "1025".data))
        (jsParseInt (orDefault (envLookup (parseEnvContent cR) "SMTP_PORT_WEB".data) "1080".data)))) apps fs) = [] := by
      unfold ssrMissingVars
      rw [hG1ssr, updAll_webSsrExample]
      simpa using h9
    rw [copyEnvFiles_id apps (updateAllEnvFiles (EnvConfig.mk
        (DbConfig.mk
        (orDefault (envLookup (parseEnvContent cR) "DATABASE_USER".data) "postgres".data)
        (orDefault (envLookup (parseEnvContent cR) "DATABASE_PASSWORD".data) "postgres".data)
        (orDefault (envLookup (parseEnvContent cR) "DATABASE_NAME".data) "lonestone_test".data)
        (orDefault (envLookup (parseEnvContent cR) "DATABASE_HOST".data) "localhost".data)
        (jsParseInt (orDefault (envLookup (parseEnvContent cR) "DATABASE_PORT".data) "5111".data)))
        (PortsConfig.mk none none none)
        (SmtpConfig.mk
        (jsParseInt (orDefault (envLookup (parseEnvContent cR) "SMTP_PORT".data) "1025".data))
        (jsParseInt (orDefault (envLookup (parseEnvContent cR) "SMTP_PORT_WEB".data) "1080".data)))) apps fs)
      (by rw [hG1root]; rfl) (by rw [hG1api]; rfl) (by rw [hG1spa]; rfl)
      (by rw [hG1ssr]; rfl) (by rw [hG1opn]; rfl)]
    rw [promptDatabaseConfig_stable ans fs (updateAllEnvFiles (EnvConfig.mk
        (DbConfig.mk
        (orDefault (envLookup (parseEnvContent cR) "DATABASE_USER".data) "postgres".data)
        (orDefault (envLookup (parseEnvContent cR) "DATABASE_PASSWORD".data) "postgres".data)
        (orDefault (envLookup (parseEnvContent cR) "DATABASE_NAME".data) "lonestone_test".data)
        (orDefault (envLookup (parseEnvContent cR) "DATABASE_HOST".data) "localhost".data)
        (jsParseInt (orDefault (envLookup (parseEnvContent cR) "DATABASE_PORT".data) "5111".data)))
        (PortsConfig.mk none none none)
        (SmtpConfig.mk
        (jsParseInt (orDefault (envLookup (parseEnvContent cR) "SMTP_PORT".data) "1025".data))
        (jsParseInt (orDefault (envLookup (parseEnvContent cR) "SMTP_PORT_WEB".data) "1080".data)))) apps fs)
      cR c1R hfR hG1root (updAll_rootExample (EnvConfig.mk
        (DbConfig.mk
        (orDefault (envLookup (parseEnvContent cR) "DATABASE_USER".data) "postgres".data)
        (orDefault (envLookup (parseEnvContent cR) "DATABASE_PASSWORD".data) "postgres".data)
        (orDefault (envLookup (parseEnvContent cR) "DATABASE_NAME".data) "lonestone_test".data)
        (orDefault (envLookup (parseEnvContent cR) "DATABASE_HOST".data) "localhost".data)
        (jsParseInt (orDefault (envLookup (parseEnvContent cR) "DATABASE_PORT".data) "5111".data)))
        (PortsConfig.mk none none none)
        (SmtpConfig.mk
        (jsParseInt (orDefault (envLookup (parseEnvContent cR) "SMTP_PORT".data) "1025".data))
        (jsParseInt (orDefault (envLookup (parseEnvContent cR) "SMTP_PORT_WEB".data) "1080".data)))) apps fs) h6 e3R
      hstU hstP hstN hstH hstD]
    rw [promptSmtpConfig_stable ans fs (updateAllEnvFiles (EnvConfig.mk
        (DbConfig.mk
        (orDefault (envLookup (parseEnvContent cR) "DATABASE_USER".data) "postgres".data)
        (orDefault (envLookup (parseEnvContent cR) "DATABASE_PASSWORD".data) "postgres".data)
        (orDefault (envLookup (parseEnvContent cR) "DATABASE_NAME".data) "lonestone_test".data)
        (orDefault (envLookup (parseEnvContent cR) "DATABASE_HOST".data) "localhost".data)
        (jsParseInt (orDefault (envLookup (parseEnvContent cR) "DATABASE_PORT".data) "5111".data)))
        (PortsConfig.mk none none none)
        (SmtpConfig.mk
        (jsParseInt (orDefault (envLookup (parseEnvContent cR) "SMTP_PORT".data) "1025".data))
        (jsParseInt (orDefault (envLookup (parseEnvContent cR) "SMTP_PORT_WEB".data) "1080".data)))) apps fs)
      cR c1R hfR hG1root (updAll_rootExample (EnvConfig.mk
        (DbConfig.mk
        (orDefault (envLookup (parseEnvContent cR) "DATABASE_USER".data) "postgres".data)
        (orDefault (envLookup (parseEnvContent cR) "DATABASE_PASSWORD".data) "postgres".data)
        (orDefault (envLookup (parseEnvContent cR) "DATABASE_NAME".data) "lonestone_test".data)
        (orDefault (envLookup (parseEnvContent cR) "DATABASE_HOST".data) "localhost".data)
        (jsParseInt (orDefault (envLookup (parseEnvContent cR) "DATABASE_PORT".data) "5111".data)))
        (PortsConfig.mk none none none)
        (SmtpConfig.mk
        (jsParseInt (orDefault (envLookup (parseEnvContent cR) "SMTP_PORT".data) "1025".data))
        (jsParseInt (orDefault (envLookup (parseEnvContent cR) "SMTP_PORT_WEB".data) "1080".data)))) apps fs) h6 e3R
      hstSP hstSW]
    rw [promptPortsConfig_stable ans apps fs (updateAllEnvFiles (EnvConfig.mk
        (DbConfig.mk
        (orDefault (envLookup (parseEnvContent cR) "DATABASE_USER".data) "postgres".data)
        (orDefault (envLookup (parseEnvContent cR) "DATABASE_PASSWORD".data) "postgres".data)
        (orDefault (envLookup (parseEnvContent cR) "DATABASE_NAME".data) "lonestone_test".data)
        (orDefault (envLookup (parseEnvContent cR) "DATABASE_HOST".data) "localhost".data)
        (jsParseInt (orDefault (envLookup (parseEnvContent cR) "DATABASE_PORT".data) "5111".data)))
        (PortsConfig.mk none none none)
        (SmtpConfig.mk
        (jsParseInt (orDefault (envLookup (parseEnvContent cR) "SMTP_PORT".data) "1025".data))
        (jsParseInt (orDefault (envLookup (parseEnvContent cR) "SMTP_PORT_WEB".data) "1080".data)))) apps fs)
      cA cA hfA hG1api (updAll_apiExample (EnvConfig.mk
        (DbConfig.mk
        (orDefault (envLookup (parseEnvContent cR) "DATABASE_USER".data) "postgres".data)
        (orDefault (envLookup (parseEnvContent cR) "DATABASE_PASSWORD".data) "postgres".data)
        (orDefault (envLookup (parseEnvContent cR) "DATABASE_NAME".data) "lonestone_test".data)
        (orDefault (envLookup (parseEnvContent cR) "DATABASE_HOST".data) "localhost".data)
        (jsParseInt (orDefault (envLookup (parseEnvContent cR) "DATABASE_PORT".data) "5111".data)))
        (PortsConfig.mk none none none)
        (SmtpConfig.mk
        (jsParseInt (orDefault (envLookup (parseEnvContent cR) "SMTP_PORT".data) "1025".data))
        (jsParseInt (orDefault (envLookup (parseEnvContent cR) "SMTP_PORT_WEB".data) "1080".data)))) apps fs) h7 h7
      hamS hmS1 hamT hmT1 rfl]
    rw [hdb1, hsm1, hpt1]
    simp only [hA, Bool.false_eq_true, if_false]
    apply updateAllEnvFiles_fix
    · rw [hG1root]
      show (updateEnvFile (some c1R)
        [("DATABASE_USER".data, (orDefault (envLookup (parseEnvContent cR) "DATABASE_USER".data) "postgres".data)),
        ("DATABASE_PASSWORD".data, (orDefault (envLookup (parseEnvContent cR) "DATABASE_PASSWORD".data) "postgres".data)),
        ("DATABASE_NAME".data, (orDefault (envLookup (parseEnvContent cR) "DATABASE_NAME".data) "lonestone_test".data)),
        ("DATABASE_PORT".data, jsNumToString (jsParseInt (orDefault (envLookup (parseEnvContent cR) "DATABASE_PORT".data) "5111".data))),
        ("SMTP_PORT".data, jsNumToString (jsParseInt (orDefault (envLookup (parseEnvContent cR) "SMTP_PORT".data) "1025".data))),
        ("SMTP_PORT_WEB".data, jsNumToString (jsParseInt (orDefault (envLookup (parseEnvContent cR) "SMTP_PORT_WEB".data) "1080".data)))] false).1 = some c1R
      rw [hcanDP, hcanSP, hcanSW]
      exact e2R
    · intro hx hx2
      rw [hA] at hx
      exact Bool.noConfusion hx
    · intro hx hT2
      exact Bool.noConfusion hT2
    · intro hx hT2
      exact Bool.noConfusion hT2
    · intro hx hT2
      exact Bool.noConfusion hT2
  | true =>
    cases hTr : jsTruthyNum (jsParseInt (orDefault (envLookup (parseEnvContent cA) "API_PORT".data) "3000".data)) with
    | false =>
      simp only [hA, if_true]
      have hG1root : (updateAllEnvFiles (EnvConfig.mk
        (DbConfig.mk
        (orDefault (envLookup (parseEnvContent cR) "DATABASE_USER".data) "postgres".data)
        (orDefault (envLookup (parseEnvContent cR) "DATABASE_PASSWORD".data) "postgres".data)
        (orDefault (envLookup (parseEnvContent cR) "DATABASE_NAME".data) "lonestone_test".data)
        (orDefault (envLookup (parseEnvContent cR) "DATABASE_HOST".data) "localhost".data)
        (jsParseInt (orDefault (envLookup (parseEnvContent cR) "DATABASE_PORT".data) "5111".data)))
        (PortsConfig.mk (some (jsParseInt (orDefault (envLookup (parseEnvContent cA) "API_PORT".data) "3000".data))) none none)
        (SmtpConfig.mk
        (jsParseInt (orDefault (envLookup (parseEnvContent cR) "SMTP_PORT".data) "1025".data))
        (jsParseInt (orDefault (envLookup (parseEnvContent cR) "SMTP_PORT_WEB".data) "1080".data)))) apps fs).rootEnv = some c1R := by
        rw [updAll_rootEnv, hfR]
        show (updateEnvFile (some cR)
          [("DATABASE_USER".data, (orDefault (envLookup (parseEnvContent cR) "DATABASE_USER".data) "postgres".data)),
        ("DATABASE_PASSWORD".data, (orDefault (envLookup (parseEnvContent cR) "DATABASE_PASSWORD".data) "postgres".data)),
        ("DATABASE_NAME".data, (orDefault (envLookup (parseEnvContent cR) "DATABASE_NAME".data) "lonestone_test".data)),
        ("DATABASE_PORT".data, jsNumToString (jsParseInt (orDefault (envLookup (parseEnvContent cR) "DATABASE_PORT".data) "5111".data))),
        ("SMTP_PORT".data, jsNumToString (jsParseInt (orDefault (envLookup (parseEnvContent cR) "SMTP_PORT".data) "1025".data))),
        ("SMTP_PORT_WEB".data, jsNumToString (jsParseInt (orDefault (envLookup (parseEnvContent cR) "SMTP_PORT_WEB".data) "1080".data)))] false).1 = some c1R
        rw [hcanDP, hcanSP, hcanSW]
        exact e1R
      have hcM : (match ((EnvConfig.mk
        (DbConfig.mk
        (orDefault (envLookup (parseEnvContent cR) "DATABASE_USER".data) "postgres".data)
        (orDefault (envLookup (parseEnvContent cR) "DATABASE_PASSWORD".data) "postgres".data)
        (orDefault (envLookup (parseEnvContent cR) "DATABASE_NAME".data) "lonestone_test".data)
        (orDefault (envLookup (parseEnvContent cR) "DATABASE_HOST".data) "localhost".data)
        (jsParseInt (orDefault (envLookup (parseEnvContent cR) "DATABASE_PORT".data) "5111".data)))
        (PortsConfig.mk (some (jsParseInt (orDefault (envLookup (parseEnvContent cA) "API_PORT".data) "3000".data))) none none)
        (SmtpConfig.mk
        (jsParseInt (orDefault (envLookup (parseEnvContent cR) "SMTP_PORT".data) "1025".data))
        (jsParseInt (orDefault (envLookup (parseEnvContent cR) "SMTP_PORT_WEB".data) "1080".data)))) : EnvConfig).ports.api with
        | some j => jsTruthyNum j
        | none => false) = false := by
        simpa using hTr
      have hG1api : (updateAllEnvFiles (EnvConfig.mk
        (DbConfig.mk
        (orDefault (envLookup (parseEnvContent cR) "DATABASE_USER".data) "postgres".data)
        (orDefault (envLookup (parseEnvContent cR) "DATABASE_PASSWORD".data) "postgres".data)
        (orDefault (envLookup (parseEnvContent cR) "DATABASE_NAME".data) "lonestone_test".data)
        (orDefault (envLookup (parseEnvContent cR) "DATABASE_HOST".data) "localhost".data)
        (jsParseInt (orDefault (envLookup (parseEnvContent cR) "DATABASE_PORT".data) "5111".data)))
        (PortsConfig.mk (some (jsParseInt (orDefault (envLookup (parseEnvContent cA) "API_PORT".data) "3000".data))) none none)
        (SmtpConfig.mk
        (jsParseInt (orDefault (envLookup (parseEnvContent cR) "SMTP_PORT".data) "1025".data))
        (jsParseInt (orDefault (envLookup (parseEnvContent cR) "SMTP_PORT_WEB".data) "1080".data)))) apps fs).apiEnv = some cA := by
        rw [updAll_apiEnv, hcM]
        simp [hfA]
      have hG1spa : (updateAllEnvFiles (EnvConfig.mk
        (DbConfig.mk
        (orDefault (envLookup (parseEnvContent cR) "DATABASE_USER".data) "postgres".data)
        (orDefault (envLookup (parseEnvContent cR) "DATABASE_PASSWORD".data) "postgres".data)
        (orDefault (envLookup (parseEnvContent cR) "DATABASE_NAME".data) "lonestone_test".data)
        (orDefault (envLookup (parseEnvContent cR) "DATABASE_HOST".data) "localhost".data)
        (jsParseInt (orDefault (envLookup (parseEnvContent cR) "DATABASE_PORT".data) "5111".data)))
        (PortsConfig.mk (some (jsParseInt (orDefault (envLookup (parseEnvContent cA) "API_PORT".data) "3000".data))) none none)
        (SmtpConfig.mk
        (jsParseInt (orDefault (envLookup (parseEnvContent cR) "SMTP_PORT".data) "1025".data))
        (jsParseInt (orDefault (envLookup (parseEnvContent cR) "SMTP_PORT_WEB".data) "1080".data)))) apps fs).webSpaEnv = some cS := by
        rw [updAll_webSpaEnv, hcM]
        simp [hfS]
      have hG1ssr : (updateAllEnvFiles (EnvConfig.mk
        (DbConfig.mk
        (orDefault (envLookup (parseEnvContent cR) "DATABASE_USER".data) "postgres".data)
        (orDefault (envLookup (parseEnvContent cR) "DATABASE_PASSWORD".data) "postgres".data)
        (orDefault (envLookup (parseEnvContent cR) "DATABASE_NAME".data) "lonestone_test".data)
        (orDefault (envLookup (parseEnvContent cR) "DATABASE_HOST".data) "localhost".data)
        (jsParseInt (orDefault (envLookup (parseEnvContent cR) "DATABASE_PORT".data) "5111".data)))
        (PortsConfig.mk (some (jsParseInt (orDefault (envLookup (parseEnvContent cA) "API_PORT".data) "3000".data))) none none)
        (SmtpConfig.mk
        (jsParseInt (orDefault (envLookup (parseEnvContent cR) "SMTP_PORT".data) "1025".data))
        (jsParseInt (orDefault (envLookup (parseEnvContent cR) "SMTP_PORT_WEB".data) "1080".data)))) apps fs).webSsrEnv = some cT := by
        rw [updAll_webSsrEnv, hcM]
        simp [hfT]
      have hG1opn : (updateAllEnvFiles (EnvConfig.mk
        (DbConfig.mk
        (orDefault (envLookup (parseEnvContent cR) "DATABASE_USER".data) "postgres".data)
        (orDefault (envLookup (parseEnvContent cR) "DATABASE_PASSWORD".data) "postgres".data)
        (orDefault (envLookup (parseEnvContent cR) "DATABASE_NAME".data) "lonestone_test".data)
        (orDefault (envLookup (parseEnvContent cR) "DATABASE_HOST".data) "localhost".data)
        (jsParseInt (orDefault (envLookup (parseEnvContent cR) "DATABASE_PORT".data) "5111".data)))
        (PortsConfig.mk (some (jsParseInt (orDefault (envLookup (parseEnvContent cA) "API_PORT".data) "3000".data))) none none)
        (SmtpConfig.mk
        (jsParseInt (orDefault (envLookup (parseEnvContent cR) "SMTP_PORT".data) "1025".data))
        (jsParseInt (orDefault (envLookup (parseEnvContent cR) "SMTP_PORT_WEB".data) "1080".data)))) apps fs).openapiEnv = some cO := by
        rw [updAll_openapiEnv, hcM]
        simp [hfO]
      have hmS1 : spaMissingVars (updateAllEnvFiles (EnvConfig.mk
        (DbConfig.mk
        (orDefault (envLookup (parseEnvContent cR) "DATABASE_USER".data) "postgres".data)
        (orDefault (envLookup (parseEnvContent cR) "DATABASE_PASSWORD".data) "postgres".data)
        (orDefault (envLookup (parseEnvContent cR) "DATABASE_NAME".data) "lonestone_test".data)
        (orDefault (envLookup (parseEnvContent cR) "DATABASE_HOST".data) "localhost".data)
        (jsParseInt (orDefault (envLookup (parseEnvContent cR) "DATABASE_PORT".data) "5111".data)))
        (PortsConfig.mk (some (jsParseInt (orDefault (envLookup (parseEnvContent cA) "API_PORT".data) "3000".data))) none none)
        (SmtpConfig.mk
        (jsParseInt (orDefault (envLookup (parseEnvContent cR) "SMTP_PORT".data) "1025".data))
        (jsParseInt (orDefault (envLookup (parseEnvContent cR) "SMTP_PORT_WEB".data) "1080".data)))) apps fs) = [] := by
        unfold spaMissingVars
        rw [hG1spa, updAll_webSpaExample]
        simpa using h8
      have hmT1 : ssrMissingVars (updateAllEnvFiles (EnvConfig.mk
        (DbConfig.mk
        (orDefault (envLookup (parseEnvContent cR) "DATABASE_USER".data) "postgres".data)
        (orDefault (envLookup (parseEnvContent cR) "DATABASE_PASSWORD".data) "postgres".data)
        (orDefault (envLookup (parseEnvContent cR) "DATABASE_NAME".data) "lonestone_test".data)
        (orDefault (envLookup (parseEnvContent cR) "DATABASE_HOST".data) "localhost".data)
        (jsParseInt (orDefault (envLookup (parseEnvContent cR) "DATABASE_PORT".data) "5111".data)))
        (PortsConfig.mk (some (jsParseInt (orDefault (envLookup (parseEnvContent cA) "API_PORT".data) "3000".data))) none none)
        (SmtpConfig.mk
        (jsParseInt (orDefault (envLookup (parseEnvContent cR) "SMTP_PORT".data) "1025".data))
        (jsParseInt (orDefault (envLookup (parseEnvContent cR) "SMTP_PORT_WEB".data) "1080".data)))) apps fs) = [] := by
        unfold ssrMissingVars
        rw [hG1ssr, updAll_webSsrExample]
        simpa using h9
      rw [copyEnvFiles_id apps (updateAllEnvFiles (EnvConfig.mk
        (DbConfig.mk
        (orDefault (envLookup (parseEnvContent cR) "DATABASE_USER".data) "postgres".data)
        (orDefault (envLookup (parseEnvContent cR) "DATABASE_PASSWORD".data) "postgres".data)
        (orDefault (envLookup (parseEnvContent cR) "DATABASE_NAME".data) "lonestone_test".data)
        (orDefault (envLookup (parseEnvContent cR) "DATABASE_HOST".data) "localhost".data)
        (jsParseInt (orDefault (envLookup (parseEnvContent cR) "DATABASE_PORT".data) "5111".data)))
        (PortsConfig.mk (some (jsParseInt (orDefault (envLookup (parseEnvContent cA) "API_PORT".data) "3000".data))) none none)
        (SmtpConfig.mk
        (jsParseInt (orDefault (envLookup (parseEnvContent cR) "SMTP_PORT".data) "1025".data))
        (jsParseInt (orDefault (envLookup (parseEnvContent cR) "SMTP_PORT_WEB".data) "1080".data)))) apps fs)
        (by rw [hG1root]; rfl) (by rw [hG1api]; rfl) (by rw [hG1spa]; rfl)
        (by rw [hG1ssr]; rfl) (by rw [hG1opn]; rfl)]
      rw [promptDatabaseConfig_stable ans fs (updateAllEnvFiles (EnvConfig.mk
        (DbConfig.mk
        (orDefault (envLookup (parseEnvContent cR) "DATABASE_USER".data) "postgres".data)
        (orDefault (envLookup (parseEnvContent cR) "DATABASE_PASSWORD".data) "postgres".data)
        (orDefault (envLookup (parseEnvContent cR) "DATABASE_NAME".data) "lonestone_test".data)
        (orDefault (envLookup (parseEnvContent cR) "DATABASE_HOST".data) "localhost".data)
        (jsParseInt (orDefault (envLookup (parseEnvContent cR) "DATABASE_PORT".data) "5111".data)))
        (PortsConfig.mk (some (jsParseInt (orDefault (envLookup (parseEnvContent cA) "API_PORT".data) "3000".data))) none none)
        (SmtpConfig.mk
        (jsParseInt (orDefault (envLookup (parseEnvContent cR) "SMTP_PORT".data) "1025".data))
        (jsParseInt (orDefault (envLookup (parseEnvContent cR) "SMTP_PORT_WEB".data) "1080".data)))) apps fs)
        cR c1R hfR hG1root (updAll_rootExample (EnvConfig.mk
        (DbConfig.mk
        (orDefault (envLookup (parseEnvContent cR) "DATABASE_USER".data) "postgres".data)
        (orDefault (envLookup (parseEnvContent cR) "DATABASE_PASSWORD".data) "postgres".data)
        (orDefault (envLookup (parseEnvContent cR) "DATABASE_NAME".data) "lonestone_test".data)
        (orDefault (envLookup (parseEnvContent cR) "DATABASE_HOST".data) "localhost".data)
        (jsParseInt (orDefault (envLookup (parseEnvContent cR) "DATABASE_PORT".data) "5111".data)))
        (PortsConfig.mk (some (jsParseInt (orDefault (envLookup (parseEnvContent cA) "API_PORT".data) "3000".data))) none none)
        (SmtpConfig.mk
        (jsParseInt (orDefault (envLookup (parseEnvContent cR) "SMTP_PORT".data) "1025".data))
        (jsParseInt (orDefault (envLookup (parseEnvContent cR) "SMTP_PORT_WEB".data) "1080".data)))) apps fs) h6 e3R
        hstU hstP hstN hstH hstD]
      rw [promptSmtpConfig_stable ans fs (updateAllEnvFiles (EnvConfig.mk
        (DbConfig.mk
        (orDefault (envLookup (parseEnvContent cR) "DATABASE_USER".data) "postgres".data)
        (orDefault (envLookup (parseEnvContent cR) "DATABASE_PASSWORD".data) "postgres".data)
        (orDefault (envLookup (parseEnvContent cR) "DATABASE_NAME".data) "lonestone_test".data)
        (orDefault (envLookup (parseEnvContent cR) "DATABASE_HOST".data) "localhost".data)
        (jsParseInt (orDefault (envLookup (parseEnvContent cR) "DATABASE_PORT".data) "5111".data)))
        (PortsConfig.mk (some (jsParseInt (orDefault (envLookup (parseEnvContent cA) "API_PORT".data) "3000".data))) none none)
        (SmtpConfig.mk
        (jsParseInt (orDefault (envLookup (parseEnvContent cR) "SMTP_PORT".data) "1025".data))
        (jsParseInt (orDefault (envLookup (parseEnvContent cR) "SMTP_PORT_WEB".data) "1080".data)))) apps fs)
        cR c1R hfR hG1root (updAll_rootExample (EnvConfig.mk
        (DbConfig.mk
        (orDefault (envLookup (parseEnvContent cR) "DATABASE_USER".data) "postgres".data)
        (orDefault (envLookup (parseEnvContent cR) "DATABASE_PASSWORD".data) "postgres".data)
        (orDefault (envLookup (parseEnvContent cR) "DATABASE_NAME".data) "lonestone_test".data)
        (orDefault (envLookup (parseEnvContent cR) "DATABASE_HOST".data) "localhost".data)
        (jsParseInt (orDefault (envLookup (parseEnvContent cR) "DATABASE_PORT".data) "5111".data)))
        (PortsConfig.mk (some (jsParseInt (orDefault (envLookup (parseEnvContent cA) "API_PORT".data) "3000".data))) none none)
        (SmtpConfig.mk
        (jsParseInt (orDefault (envLookup (parseEnvContent cR) "SMTP_PORT".data) "1025".data))
        (jsParseInt (orDefault (envLookup (parseEnvContent cR) "SMTP_PORT_WEB".data) "1080".data)))) apps fs) h6 e3R
        hstSP hstSW]
      rw [promptPortsConfig_stable ans apps fs (updateAllEnvFiles (EnvConfig.mk
        (DbConfig.mk
        (orDefault (envLookup (parseEnvContent cR) "DATABASE_USER".data) "postgres".data)
        (orDefault (envLookup (parseEnvContent cR) "DATABASE_PASSWORD".data) "postgres".data)
        (orDefault (envLookup (parseEnvContent cR) "DATABASE_NAME".data) "lonestone_test".data)
        (orDefault (envLookup (parseEnvContent cR) "DATABASE_HOST".data) "localhost".data)
        (jsParseInt (orDefault (envLookup (parseEnvContent cR) "DATABASE_PORT".data) "5111".data)))
        (PortsConfig.mk (some (jsParseInt (orDefault (envLookup (parseEnvContent cA) "API_PORT".data) "3000".data))) none none)
        (SmtpConfig.mk
        (jsParseInt (orDefault (envLookup (parseEnvContent cR) "SMTP_PORT".data) "1025".data))
        (jsParseInt (orDefault (envLookup (parseEnvContent cR) "SMTP_PORT_WEB".data) "1080".data)))) apps fs)
        cA cA hfA hG1api (updAll_apiExample (EnvConfig.mk
        (DbConfig.mk
        (orDefault (envLookup (parseEnvContent cR) "DATABASE_USER".data) "postgres".data)
        (orDefault (envLookup (parseEnvContent cR) "DATABASE_PASSWORD".data) "postgres".data)
        (orDefault (envLookup (parseEnvContent cR) "DATABASE_NAME".data) "lonestone_test".data)
        (orDefault (envLookup (parseEnvContent cR) "DATABASE_HOST".data) "localhost".data)
        (jsParseInt (orDefault (envLookup (parseEnvContent cR) "DATABASE_PORT".data) "5111".data)))
        (PortsConfig.mk (some (jsParseInt (orDefault (envLookup (parseEnvContent cA) "API_PORT".data) "3000".data))) none none)
        (SmtpConfig.mk
        (jsParseInt (orDefault (envLookup (parseEnvContent cR) "SMTP_PORT".data) "1025".data))
        (jsParseInt (orDefault (envLookup (parseEnvContent cR) "SMTP_PORT_WEB".data) "1080".data)))) apps fs) h7 h7
        hamS hmS1 hamT hmT1 rfl]
      rw [hdb1, hsm1, hpt1]
      simp only [hA, if_true]
      apply updateAllEnvFiles_fix
      · rw [hG1root]
        show (updateEnvFile (some c1R)
          [("DATABASE_USER".data, (orDefault (envLookup (parseEnvContent cR) "DATABASE_USER".data) "postgres".data)),
        ("DATABASE_PASSWORD".data, (orDefault (envLookup (parseEnvContent cR) "DATABASE_PASSWORD".data) "postgres".data)),
        ("DATABASE_NAME".data, (orDefault (envLookup (parseEnvContent cR) "DATABASE_NAME".data) "lonestone_test".data)),
        ("DATABASE_PORT".data, jsNumToString (jsParseInt (orDefault (envLookup (parseEnvContent cR) "DATABASE_PORT".data) "5111".data))),
        ("SMTP_PORT".data, jsNumToString (jsParseInt (orDefault (envLookup (parseEnvContent cR) "SMTP_PORT".data) "1025".data))),
        ("SMTP_PORT_WEB".data, jsNumToString (jsParseInt (orDefault (envLookup (parseEnvContent cR) "SMTP_PORT_WEB".data) "1080".data)))] false).1 = some c1R
        rw [hcanDP, hcanSP, hcanSW]
        exact e2R
      · intro hx hT2
        rw [hcM] at hT2
        exact Bool.noConfusion hT2
      · intro hx hT2
        rw [hcM] at hT2
        exact Bool.noConfusion hT2
      · intro hx hT2
        rw [hcM] at hT2
        exact Bool.noConfusion hT2
      · intro hx hT2
        rw [hcM] at hT2
        exact Bool.noConfusion hT2
    | true =>
      simp only [hA, if_true]
      have hTOr : deriveTrustedOrigins (PortsConfig.mk (some (jsParseInt (orDefault (envLookup (parseEnvContent cA) "API_PORT".data) "3000".data))) none none) =
          "http://localhost:".data ++ jsNumToString (jsParseInt (orDefault (envLookup (parseEnvContent cA) "API_PORT".data) "3000".data)) := by
        simp [deriveTrustedOrigins, originsList, hTr, joinSep, localhostUrl]
      obtain ⟨c1A, e1A, e2A, e3A, e4A⟩ :=
        update_cycle fs.apiExample cA
        [("API_PORT".data, (orDefault (envLookup (parseEnvContent cA) "API_PORT".data) "3000".data)),
        ("DATABASE_USER".data, (orDefault (envLookup (parseEnvContent cR) "DATABASE_USER".data) "postgres".data)),
        ("DATABASE_PASSWORD".data, (orDefault (envLookup (parseEnvContent cR) "DATABASE_PASSWORD".data) "postgres".data)),
        ("DATABASE_NAME".data, (orDefault (envLookup (parseEnvContent cR) "DATABASE_NAME".data) "lonestone_test".data)),
        ("DATABASE_HOST".data, (orDefault (envLookup (parseEnvContent cR) "DATABASE_HOST".data) "localhost".data)),
        ("DATABASE_PORT".data, (orDefault (envLookup (parseEnvContent cR) "DATABASE_PORT".data) "5111".data)),
        ("TRUSTED_ORIGINS".data, "http://localhost:".data ++ (orDefault (envLookup (parseEnvContent cA) "API_PORT".data) "3000".data))]
        (keysOK_of_keys _ ["API_PORT".data, "DATABASE_USER".data, "DATABASE_PASSWORD".data, "DATABASE_NAME".data, "DATABASE_HOST".data, "DATABASE_PORT".data, "TRUSTED_ORIGINS".data] rfl (by decide))
        (by
          intro kv hkv
          simp only [List.mem_cons, List.not_mem_nil, or_false] at hkv
          rcases hkv with rfl | rfl | rfl | rfl | rfl | rfl | rfl
          · exact entry_of_goodVal (by decide) hvAP
          · exact entry_of_goodVal (by decide) hvU
          · exact entry_of_goodVal (by decide) hvP
          · exact entry_of_goodVal (by decide) hvN
          · exact entry_of_goodVal (by decide) hvH
          · exact entry_of_goodVal (by decide) hvDP
          · exact entry_of_goodVal (by decide) (goodVal_http_append hvAP))
        hclA h7 (by simp)
      obtain ⟨c1S, e1S, e2S, e3S, e4S⟩ :=
        update_cycle fs.webSpaExample cS
        [("VITE_API_URL".data, "http://localhost:".data ++ (orDefault (envLookup (parseEnvContent cA) "API_PORT".data) "3000".data))]
        (keysOK_of_keys _ ["VITE_API_URL".data] rfl (by decide))
        (by
          intro kv hkv
          simp only [List.mem_cons, List.not_mem_nil, or_false] at hkv
          rcases hkv with rfl
          · exact entry_of_goodVal (by decide) (goodVal_http_append hvAP))
        hclS h8 (by simp)
      obtain ⟨c1T, e1T, e2T, e3T, e4T⟩ :=
        update_cycle fs.webSsrExample cT
        [("API_URL".data, "http://localhost:".data ++ (orDefault (envLookup (parseEnvContent cA) "API_PORT".data) "3000".data))]
        (keysOK_of_keys _ ["API_URL".data] rfl (by decide))
        (by
          intro kv hkv
          simp only [List.mem_cons, List.not_mem_nil, or_false] at hkv
          rcases hkv with rfl
          · exact entry_of_goodVal (by decide) (goodVal_http_append hvAP))
        hclT h9 (by simp)
      obtain ⟨c1O, e1O, e2O, e3O, e4O⟩ :=
        update_cycle fs.openapiExample cO
        [("API_URL".data, "http://localhost:".data ++ (orDefault (envLookup (parseEnvContent cA) "API_PORT".data) "3000".data))]
        (keysOK_of_keys _ ["API_URL".data] rfl (by decide))
        (by
          intro kv hkv
          simp only [List.mem_cons, List.not_mem_nil, or_false] at hkv
          rcases hkv with rfl
          · exact entry_of_goodVal (by decide) (goodVal_http_append hvAP))
        hclO h10 (by simp)
      have hstAP : orDefault (envLookup (parseEnvContent c1A)
          "API_PORT".data) "3000".data =
          orDefault (envLookup (parseEnvContent cA) "API_PORT".data)
            "3000".data :=
        orDefault_stable (e4A "API_PORT".data)
          (by
            intro v hv
            simp only [List.mem_cons, List.not_mem_nil, or_false,
              Prod.mk.injEq] at hv
            rcases hv with ⟨-, h⟩ | ⟨h, -⟩ | ⟨h, -⟩ | ⟨h, -⟩ | ⟨h, -⟩ |
              ⟨h, -⟩ | ⟨h, -⟩
            · exact h
            · exact absurd h (by decide)
            · exact absurd h (by decide)
            · exact absurd h (by decide)
            · exact absurd h (by decide)
            · exact absurd h (by decide)
            · exact absurd h (by decide))
          (by decide)
      have hcM : (match ((EnvConfig.mk
        (DbConfig.mk
        (orDefault (envLookup (parseEnvContent cR) "DATABASE_USER".data) "postgres".data)
        (orDefault (envLookup (parseEnvContent cR) "DATABASE_PASSWORD".data) "postgres".data)
        (orDefault (envLookup (parseEnvContent cR) "DATABASE_NAME".data) "lonestone_test".data)
        (orDefault (envLookup (parseEnvContent cR) "DATABASE_HOST".data) "localhost".data)
        (jsParseInt (orDefault (envLookup (parseEnvContent cR) "DATABASE_PORT".data) "5111".data)))
        (PortsConfig.mk (some (jsParseInt (orDefault (envLookup (parseEnvContent cA) "API_PORT".data) "3000".data))) none none)
        (SmtpConfig.mk
        (jsParseInt (orDefault (envLookup (parseEnvContent cR) "SMTP_PORT".data) "1025".data))
        (jsParseInt (orDefault (envLookup (parseEnvContent cR) "SMTP_PORT_WEB".data) "1080".data)))) : EnvConfig).ports.api with
        | some j => jsTruthyNum j
        | none => false) = true := by
        simpa using hTr
      have hG1root : (updateAllEnvFiles (EnvConfig.mk
        (DbConfig.mk
        (orDefault (envLookup (parseEnvContent cR) "DATABASE_USER".data) "postgres".data)
        (orDefault (envLookup (parseEnvContent cR) "DATABASE_PASSWORD".data) "postgres".data)
        (orDefault (envLookup (parseEnvContent cR) "DATABASE_NAME".data) "lonestone_test".data)
        (orDefault (envLookup (parseEnvContent cR) "DATABASE_HOST".data) "localhost".data)
        (jsParseInt (orDefault (envLookup (parseEnvContent cR) "DATABASE_PORT".data) "5111".data)))
        (PortsConfig.mk (some (jsParseInt (orDefault (envLookup (parseEnvContent cA) "API_PORT".data) "3000".data))) none none)
        (SmtpConfig.mk
        (jsParseInt (orDefault (envLookup (parseEnvContent cR) "SMTP_PORT".data) "1025".data))
        (jsParseInt (orDefault (envLookup (parseEnvContent cR) "SMTP_PORT_WEB".data) "1080".data)))) apps fs).rootEnv = some c1R := by
        rw [updAll_rootEnv, hfR]
        show (updateEnvFile (some cR)
          [("DATABASE_USER".data, (orDefault (envLookup (parseEnvContent cR) "DATABASE_USER".data) "postgres".data)),
        ("DATABASE_PASSWORD".data, (orDefault (envLookup (parseEnvContent cR) "DATABASE_PASSWORD".data) "postgres".data)),
        ("DATABASE_NAME".data, (orDefault (envLookup (parseEnvContent cR) "DATABASE_NAME".data) "lonestone_test".data)),
        ("DATABASE_PORT".data, jsNumToString (jsParseInt (orDefault (envLookup (parseEnvContent cR) "DATABASE_PORT".data) "5111".data))),
        ("SMTP_PORT".data, jsNumToString (jsParseInt (orDefault (envLookup (parseEnvContent cR) "SMTP_PORT".data) "1025".data))),
        ("SMTP_PORT_WEB".data, jsNumToString (jsParseInt (orDefault (envLookup (parseEnvContent cR) "SMTP_PORT_WEB".data) "1080".data)))] false).1 = some c1R
        rw [hcanDP, hcanSP, hcanSW]
        exact e1R
      have hG1api : (updateAllEnvFiles (EnvConfig.mk
        (DbConfig.mk
        (orDefault (envLookup (parseEnvContent cR) "DATABASE_USER".data) "postgres".data)
        (orDefault (envLookup (parseEnvContent cR) "DATABASE_PASSWORD".data) "postgres".data)
        (orDefault (envLookup (parseEnvContent cR) "DATABASE_NAME".data) "lonestone_test".data)
        (orDefault (envLookup (parseEnvContent cR) "DATABASE_HOST".data) "localhost".data)
        (jsParseInt (orDefault (envLookup (parseEnvContent cR) "DATABASE_PORT".data) "5111".data)))
        (PortsConfig.mk (some (jsParseInt (orDefault (envLookup (parseEnvContent cA) "API_PORT".data) "3000".data))) none none)
        (SmtpConfig.mk
        (jsParseInt (orDefault (envLookup (parseEnvContent cR) "SMTP_PORT".data) "1025".data))
        (jsParseInt (orDefault (envLookup (parseEnvContent cR) "SMTP_PORT_WEB".data) "1080".data)))) apps fs).apiEnv = some c1A := by
        rw [updAll_apiEnv, hA, hcM, hfA]
        show (updateEnvFile (some cA)
          [("API_PORT".data, jsNumToString (jsParseInt (orDefault (envLookup (parseEnvContent cA) "API_PORT".data) "3000".data))),
        ("DATABASE_USER".data, (orDefault (envLookup (parseEnvContent cR) "DATABASE_USER".data) "postgres".data)),
        ("DATABASE_PASSWORD".data, (orDefault (envLookup (parseEnvContent cR) "DATABASE_PASSWORD".data) "postgres".data)),
        ("DATABASE_NAME".data, (orDefault (envLookup (parseEnvContent cR) "DATABASE_NAME".data) "lonestone_test".data)),
        ("DATABASE_HOST".data, (orDefault (envLookup (parseEnvContent cR) "DATABASE_HOST".data) "localhost".data)),
        ("DATABASE_PORT".data, jsNumToString (jsParseInt (orDefault (envLookup (parseEnvContent cR) "DATABASE_PORT".data) "5111".data))),
        ("TRUSTED_ORIGINS".data, deriveTrustedOrigins (PortsConfig.mk (some (jsParseInt (orDefault (envLookup (parseEnvContent cA) "API_PORT".data) "3000".data))) none none))] false).1 = some c1A
        rw [hTOr, hcanAP, hcanDP]
        exact e1A
      have hG1spa : (updateAllEnvFiles (EnvConfig.mk
        (DbConfig.mk
        (orDefault (envLookup (parseEnvContent cR) "DATABASE_USER".data) "postgres".data)
        (orDefault (envLookup (parseEnvContent cR) "DATABASE_PASSWORD".data) "postgres".data)
        (orDefault (envLookup (parseEnvContent cR) "DATABASE_NAME".data) "lonestone_test".data)
        (orDefault (envLookup (parseEnvContent cR) "DATABASE_HOST".data) "localhost".data)
        (jsParseInt (orDefault (envLookup (parseEnvContent cR) "DATABASE_PORT".data) "5111".data)))
        (PortsConfig.mk (some (jsParseInt (orDefault (envLookup (parseEnvContent cA) "API_PORT".data) "3000".data))) none none)
        (SmtpConfig.mk
        (jsParseInt (orDefault (envLookup (parseEnvContent cR) "SMTP_PORT".data) "1025".data))
        (jsParseInt (orDefault (envLookup (parseEnvContent cR) "SMTP_PORT_WEB".data) "1080".data)))) apps fs).webSpaEnv =
          (if apps.webSpa then some c1S else some cS) := by
        rw [updAll_webSpaEnv, hcM, hfS]
        cases hSp : apps.webSpa with
        | false =>
          rfl
        | true =>
          show (updateEnvFile (some cS)
            [("VITE_API_URL".data, "http://localhost:".data ++ jsNumToString (jsParseInt (orDefault (envLookup (parseEnvContent cA) "API_PORT".data) "3000".data)))] false).1 = some c1S
          rw [hcanAP]
          exact e1S
      have hG1ssr : (updateAllEnvFiles (EnvConfig.mk
        (DbConfig.mk
        (orDefault (envLookup (parseEnvContent cR) "DATABASE_USER".data) "postgres".data)
        (orDefault (envLookup (parseEnvContent cR) "DATABASE_PASSWORD".data) "postgres".data)
        (orDefault (envLookup (parseEnvContent cR) "DATABASE_NAME".data) "lonestone_test".data)
        (orDefault (envLookup (parseEnvContent cR) "DATABASE_HOST".data) "localhost".data)
        (jsParseInt (orDefault (envLookup (parseEnvContent cR) "DATABASE_PORT".data) "5111".data)))
        (PortsConfig.mk (some (jsParseInt (orDefault (envLookup (parseEnvContent cA) "API_PORT".data) "3000".data))) none none)
        (SmtpConfig.mk
        (jsParseInt (orDefault (envLookup (parseEnvContent cR) "SMTP_PORT".data) "1025".data))
        (jsParseInt (orDefault (envLookup (parseEnvContent cR) "SMTP_PORT_WEB".data) "1080".data)))) apps fs).webSsrEnv =
          (if apps.webSsr then some c1T else some cT) := by
        rw [updAll_webSsrEnv, hcM, hfT]
        cases hSr : apps.webSsr with
        | false =>
          rfl
        | true =>
          show (updateEnvFile (some cT)
            [("API_URL".data, "http://localhost:".data ++ jsNumToString (jsParseInt (orDefault (envLookup (parseEnvContent cA) "API_PORT".data) "3000".data)))] false).1 = some c1T
          rw [hcanAP]
          exact e1T
      have hG1opn : (updateAllEnvFiles (EnvConfig.mk
        (DbConfig.mk
        (orDefault (envLookup (parseEnvContent cR) "DATABASE_USER".data) "postgres".data)
        (orDefault (envLookup (parseEnvContent cR) "DATABASE_PASSWORD".data) "postgres".data)
        (orDefault (envLookup (parseEnvContent cR) "DATABASE_NAME".data) "lonestone_test".data)
        (orDefault (envLookup (parseEnvContent cR) "DATABASE_HOST".data) "localhost".data)
        (jsParseInt (orDefault (envLookup (parseEnvContent cR) "DATABASE_PORT".data) "5111".data)))
        (PortsConfig.mk (some (jsParseInt (orDefault (envLookup (parseEnvContent cA) "API_PORT".data) "3000".data))) none none)
        (SmtpConfig.mk
        (jsParseInt (orDefault (envLookup (parseEnvContent cR) "SMTP_PORT".data) "1025".data))
        (jsParseInt (orDefault (envLookup (parseEnvContent cR) "SMTP_PORT_WEB".data) "1080".data)))) apps fs).openapiEnv =
          (if apps.openapiGenerator then some c1O else some cO) := by
        rw [updAll_openapiEnv, hcM, hfO]
        cases hOg : apps.openapiGenerator with
        | false =>
          rfl
        | true =>
          show (updateEnvFile (some cO)
            [("API_URL".data, "http://localhost:".data ++ jsNumToString (jsParseInt (orDefault (envLookup (parseEnvContent cA) "API_PORT".data) "3000".data)))] false).1 = some c1O
          rw [hcanAP]
          exact e1O
      have hmS1 : spaMissingVars (updateAllEnvFiles (EnvConfig.mk
        (DbConfig.mk
        (orDefault (envLookup (parseEnvContent cR) "DATABASE_USER".data) "postgres".data)
        (orDefault (envLookup (parseEnvContent cR) "DATABASE_PASSWORD".data) "postgres".data)
        (orDefault (envLookup (parseEnvContent cR) "DATABASE_NAME".data) "lonestone_test".data)
        (orDefault (envLookup (parseEnvContent cR) "DATABASE_HOST".data) "localhost".data)
        (jsParseInt (orDefault (envLookup (parseEnvContent cR) "DATABASE_PORT".data) "5111".data)))
        (PortsConfig.mk (some (jsParseInt (orDefault (envLookup (parseEnvContent cA) "API_PORT".data) "3000".data))) none none)
        (SmtpConfig.mk
        (jsParseInt (orDefault (envLookup (parseEnvContent cR) "SMTP_PORT".data) "1025".data))
        (jsParseInt (orDefault (envLookup (parseEnvContent cR) "SMTP_PORT_WEB".data) "1080".data)))) apps fs) = [] := by
        unfold spaMissingVars
        rw [hG1spa, updAll_webSpaExample]
        cases hSp : apps.webSpa with
        | false =>
          simpa using h8
        | true =>
          simpa using e3S
      have hmT1 : ssrMissingVars (updateAllEnvFiles (EnvConfig.mk
        (DbConfig.mk
        (orDefault (envLookup (parseEnvContent cR) "DATABASE_USER".data) "postgres".data)
        (orDefault (envLookup (parseEnvContent cR) "DATABASE_PASSWORD".data) "postgres".data)
        (orDefault (envLookup (parseEnvContent cR) "DATABASE_NAME".data) "lonestone_test".data)
        (orDefault (envLookup (parseEnvContent cR) "DATABASE_HOST".data) "localhost".data)
        (jsParseInt (orDefault (envLookup (parseEnvContent cR) "DATABASE_PORT".data) "5111".data)))
        (PortsConfig.mk (some (jsParseInt (orDefault (envLookup (parseEnvContent cA) "API_PORT".data) "3000".data))) none none)
        (SmtpConfig.mk
        (jsParseInt (orDefault (envLookup (parseEnvContent cR) "SMTP_PORT".data) "1025".data))
        (jsParseInt (orDefault (envLookup (parseEnvContent cR) "SMTP_PORT_WEB".data) "1080".data)))) apps fs) = [] := by
        unfold ssrMissingVars
        rw [hG1ssr, updAll_webSsrExample]
        cases hSr : apps.webSsr with
        | false =>
          simpa using h9
        | true =>
          simpa using e3T
      rw [copyEnvFiles_id apps (updateAllEnvFiles (EnvConfig.mk
        (DbConfig.mk
        (orDefault (envLookup (parseEnvContent cR) "DATABASE_USER".data) "postgres".data)
        (orDefault (envLookup (parseEnvContent cR) "DATABASE_PASSWORD".data) "postgres".data)
        (orDefault (envLookup (parseEnvContent cR) "DATABASE_NAME".data) "lonestone_test".data)
        (orDefault (envLookup (parseEnvContent cR) "DATABASE_HOST".data) "localhost".data)
        (jsParseInt (orDefault (envLookup (parseEnvContent cR) "DATABASE_PORT".data) "5111".data)))
        (PortsConfig.mk (some (jsParseInt (orDefault (envLookup (parseEnvContent cA) "API_PORT".data) "3000".data))) none none)
        (SmtpConfig.mk
        (jsParseInt (orDefault (envLookup (parseEnvContent cR) "SMTP_PORT".data) "1025".data))
        (jsParseInt (orDefault (envLookup (parseEnvContent cR) "SMTP_PORT_WEB".data) "1080".data)))) apps fs)
        (by rw [hG1root]; rfl)
        (by rw [hG1api]; rfl)
        (by rw [hG1spa]; cases apps.webSpa <;> rfl)
        (by rw [hG1ssr]; cases apps.webSsr <;> rfl)
        (by rw [hG1opn]; cases apps.openapiGenerator <;> rfl)]
      rw [promptDatabaseConfig_stable ans fs (updateAllEnvFiles (EnvConfig.mk
        (DbConfig.mk
        (orDefault (envLookup (parseEnvContent cR) "DATABASE_USER".data) "postgres".data)
        (orDefault (envLookup (parseEnvContent cR) "DATABASE_PASSWORD".data) "postgres".data)
        (orDefault (envLookup (parseEnvContent cR) "DATABASE_NAME".data) "lonestone_test".data)
        (orDefault (envLookup (parseEnvContent cR) "DATABASE_HOST".data) "localhost".data)
        (jsParseInt (orDefault (envLookup (parseEnvContent cR) "DATABASE_PORT".data) "5111".data)))
        (PortsConfig.mk (some (jsParseInt (orDefault (envLookup (parseEnvContent cA) "API_PORT".data) "3000".data))) none none)
        (SmtpConfig.mk
        (jsParseInt (orDefault (envLookup (parseEnvContent cR) "SMTP_PORT".data) "1025".data))
        (jsParseInt (orDefault (envLookup (parseEnvContent cR) "SMTP_PORT_WEB".data) "1080".data)))) apps fs)
        cR c1R hfR hG1root (updAll_rootExample (EnvConfig.mk
        (DbConfig.mk
        (orDefault (envLookup (parseEnvContent cR) "DATABASE_USER".data) "postgres".data)
        (orDefault (envLookup (parseEnvContent cR) "DATABASE_PASSWORD".data) "postgres".data)
        (orDefault (envLookup (parseEnvContent cR) "DATABASE_NAME".data) "lonestone_test".data)
        (orDefault (envLookup (parseEnvContent cR) "DATABASE_HOST".data) "localhost".data)
        (jsParseInt (orDefault (envLookup (parseEnvContent cR) "DATABASE_PORT".data) "5111".data)))
        (PortsConfig.mk (some (jsParseInt (orDefault (envLookup (parseEnvContent cA) "API_PORT".data) "3000".data))) none none)
        (SmtpConfig.mk
        (jsParseInt (orDefault (envLookup (parseEnvContent cR) "SMTP_PORT".data) "1025".data))
        (jsParseInt (orDefault (envLookup (parseEnvContent cR) "SMTP_PORT_WEB".data) "1080".data)))) apps fs) h6 e3R
        hstU hstP hstN hstH hstD]
      rw [promptSmtpConfig_stable ans fs (updateAllEnvFiles (EnvConfig.mk
        (DbConfig.mk
        (orDefault (envLookup (parseEnvContent cR) "DATABASE_USER".data) "postgres".data)
        (orDefault (envLookup (parseEnvContent cR) "DATABASE_PASSWORD".data) "postgres".data)
        (orDefault (envLookup (parseEnvContent cR) "DATABASE_NAME".data) "lonestone_test".data)
        (orDefault (envLookup (parseEnvContent cR) "DATABASE_HOST".data) "localhost".data)
        (jsParseInt (orDefault (envLookup (parseEnvContent cR) "DATABASE_PORT".data) "5111".data)))
        (PortsConfig.mk (some (jsParseInt (orDefault (envLookup (parseEnvContent cA) "API_PORT".data) "3000".data))) none none)
        (SmtpConfig.mk
        (jsParseInt (orDefault (envLookup (parseEnvContent cR) "SMTP_PORT".data) "1025".data))
        (jsParseInt (orDefault (envLookup (parseEnvContent cR) "SMTP_PORT_WEB".data) "1080".data)))) apps fs)
        cR c1R hfR hG1root (updAll_rootExample (EnvConfig.mk
        (DbConfig.mk
        (orDefault (envLookup (parseEnvContent cR) "DATABASE_USER".data) "postgres".data)
        (orDefault (envLookup (parseEnvContent cR) "DATABASE_PASSWORD".data) "postgres".data)
        (orDefault (envLookup (parseEnvContent cR) "DATABASE_NAME".data) "lonestone_test".data)
        (orDefault (envLookup (parseEnvContent cR) "DATABASE_HOST".data) "localhost".data)
        (jsParseInt (orDefault (envLookup (parseEnvContent cR) "DATABASE_PORT".data) "5111".data)))
        (PortsConfig.mk (some (jsParseInt (orDefault (envLookup (parseEnvContent cA) "API_PORT".data) "3000".data))) none none)
        (SmtpConfig.mk
        (jsParseInt (orDefault (envLookup (parseEnvContent cR) "SMTP_PORT".data) "1025".data))
        (jsParseInt (orDefault (envLookup (parseEnvContent cR) "SMTP_PORT_WEB".data) "1080".data)))) apps fs) h6 e3R
        hstSP hstSW]
      rw [promptPortsConfig_stable ans apps fs (updateAllEnvFiles (EnvConfig.mk
        (DbConfig.mk
        (orDefault (envLookup (parseEnvContent cR) "DATABASE_USER".data) "postgres".data)
        (orDefault (envLookup (parseEnvContent cR) "DATABASE_PASSWORD".data) "postgres".data)
        (orDefault (envLookup (parseEnvContent cR) "DATABASE_NAME".data) "lonestone_test".data)
        (orDefault (envLookup (parseEnvContent cR) "DATABASE_HOST".data) "localhost".data)
        (jsParseInt (orDefault (envLookup (parseEnvContent cR) "DATABASE_PORT".data) "5111".data)))
        (PortsConfig.mk (some (jsParseInt (orDefault (envLookup (parseEnvContent cA) "API_PORT".data) "3000".data))) none none)
        (SmtpConfig.mk
        (jsParseInt (orDefault (envLookup (parseEnvContent cR) "SMTP_PORT".data) "1025".data))
        (jsParseInt (orDefault (envLookup (parseEnvContent cR) "SMTP_PORT_WEB".data) "1080".data)))) apps fs)
        cA c1A hfA hG1api (updAll_apiExample (EnvConfig.mk
        (DbConfig.mk
        (orDefault (envLookup (parseEnvContent cR) "DATABASE_USER".data) "postgres".data)
        (orDefault (envLookup (parseEnvContent cR) "DATABASE_PASSWORD".data) "postgres".data)
        (orDefault (envLookup (parseEnvContent cR) "DATABASE_NAME".data) "lonestone_test".data)
        (orDefault (envLookup (parseEnvContent cR) "DATABASE_HOST".data) "localhost".data)
        (jsParseInt (orDefault (envLookup (parseEnvContent cR) "DATABASE_PORT".data) "5111".data)))
        (PortsConfig.mk (some (jsParseInt (orDefault (envLookup (parseEnvContent cA) "API_PORT".data) "3000".data))) none none)
        (SmtpConfig.mk
        (jsParseInt (orDefault (envLookup (parseEnvContent cR) "SMTP_PORT".data) "1025".data))
        (jsParseInt (orDefault (envLookup (parseEnvContent cR) "SMTP_PORT_WEB".data) "1080".data)))) apps fs) h7 e3A
        hamS hmS1 hamT hmT1 hstAP]
      rw [hdb1, hsm1, hpt1]
      simp only [hA, if_true]
      apply updateAllEnvFiles_fix
      · rw [hG1root]
        show (updateEnvFile (some c1R)
          [("DATABASE_USER".data, (orDefault (envLookup (parseEnvContent cR) "DATABASE_USER".data) "postgres".data)),
        ("DATABASE_PASSWORD".data, (orDefault (envLookup (parseEnvContent cR) "DATABASE_PASSWORD".data) "postgres".data)),
        ("DATABASE_NAME".data, (orDefault (envLookup (parseEnvContent cR) "DATABASE_NAME".data) "lonestone_test".data)),
        ("DATABASE_PORT".data, jsNumToString (jsParseInt (orDefault (envLookup (parseEnvContent cR) "DATABASE_PORT".data) "5111".data))),
        ("SMTP_PORT".data, jsNumToString (jsParseInt (orDefault (envLookup (parseEnvContent cR) "SMTP_PORT".data) "1025".data))),
        ("SMTP_PORT_WEB".data, jsNumToString (jsParseInt (orDefault (envLookup (parseEnvContent cR) "SMTP_PORT_WEB".data) "1080".data)))] false).1 = some c1R
        rw [hcanDP, hcanSP, hcanSW]
        exact e2R
      · intro hx hT2
        rw [hG1api]
        show (updateEnvFile (some c1A)
          [("API_PORT".data, jsNumToString (jsParseInt (orDefault (envLookup (parseEnvContent cA) "API_PORT".data) "3000".data))),
        ("DATABASE_USER".data, (orDefault (envLookup (parseEnvContent cR) "DATABASE_USER".data) "postgres".data)),
        ("DATABASE_PASSWORD".data, (orDefault (envLookup (parseEnvContent cR) "DATABASE_PASSWORD".data) "postgres".data)),
        ("DATABASE_NAME".data, (orDefault (envLookup (parseEnvContent cR) "DATABASE_NAME".data) "lonestone_test".data)),
        ("DATABASE_HOST".data, (orDefault (envLookup (parseEnvContent cR) "DATABASE_HOST".data) "localhost".data)),
        ("DATABASE_PORT".data, jsNumToString (jsParseInt (orDefault (envLookup (parseEnvContent cR) "DATABASE_PORT".data) "5111".data))),
        ("TRUSTED_ORIGINS".data, deriveTrustedOrigins (PortsConfig.mk (some (jsParseInt (orDefault (envLookup (parseEnvContent cA) "API_PORT".data) "3000".data))) none none))] false).1 = some c1A
        rw [hTOr, hcanAP, hcanDP]
        exact e2A
      · intro hx hT2
        rw [hG1spa, hx]
        show (updateEnvFile (some c1S)
          [("VITE_API_URL".data, "http://localhost:".data ++ jsNumToString (jsParseInt (orDefault (envLookup (parseEnvContent cA) "API_PORT".data) "3000".data)))] false).1 = some c1S
        rw [hcanAP]
        exact e2S
      · intro hx hT2
        rw [hG1ssr, hx]
        show (updateEnvFile (some c1T)
          [("API_URL".data, "http://localhost:".data ++ jsNumToString (jsParseInt (orDefault (envLookup (parseEnvContent cA) "API_PORT".data) "3000".data)))] false).1 = some c1T
        rw [hcanAP]
        exact e2T
      · intro hx hT2
        rw [hG1opn, hx]
        show (updateEnvFile (some c1O)
          [("API_URL".data, "http://localhost:".data ++ jsNumToString (jsParseInt (orDefault (envLookup (parseEnvContent cA) "API_PORT".data) "3000".data)))] false).1 = some c1O
        rw [hcanAP]
        exact e2O

/-- Closed witness for the amended C3 theorem at a concrete configured
workspace. -/
theorem runSetup_idempotent_on_configured_witness :
    wellConfigured wcFS ∧
    (runSetup wcApps (runSetup wcApps wcFS wcAns).1 wcAns).1 =
      (runSetup wcApps wcFS wcAns).1 := by
  have hwc : wellConfigured wcFS := by
    refine ⟨rfl, rfl, rfl, rfl, rfl, by decide, by decide, by decide,
      by decide, by decide, ?_, ?_, ?_, ?_, ?_, by decide, by decide,
      by decide, by decide⟩
    all_goals
      intro c hc
      injection hc with h
      rw [← h]
      decide
  exact ⟨hwc, runSetup_idempotent_on_configured wcApps wcFS wcAns hwc⟩
